import Mathlib

/-!
# kms-vulkan: frame loop and buffer-slot fence protocol

A shallow embedding of the frame loop of `vulkan2.c` (`vkkmscube_loop`) and of
the buffer-slot operations of `vulkan.c` (`buffer_vk_create`,
`buffer_vk_fill`).  Calls into Vulkan, libdrm and libc are effects: every call
is recorded, with its arguments and its result, in a trace, and the results
are supplied by an environment of responses.
-/

namespace KmsVulkan

/-- VkResult is a C enum; only the distinction between VK_SUCCESS and the rest is used. -/
abbrev VkResult := Int

/-- VK_SUCCESS is zero. -/
def VK_SUCCESS : VkResult := 0

/-! ## vulkan2.c : vkkmscube_loop -/

/-- One element of the anonymous `images[4]` array of `struct vkkmscube`
(handles are opaque numbers). -/
structure cube_image where
  image : Nat
  fb : Nat
  cmdbuf : Nat
  fb_id : Nat
  gpubuf : Nat
deriving DecidableEq, Repr

/-- The fields of `struct vkkmscube` read by the loop.  `images` is indexed by
the C array index. -/
structure vkkmscube where
  width : Int
  height : Int
  drm_fd : Int
  crtc_id : Nat
  connector_id : Nat
  selected_mode : Nat
  images : Nat → cube_image

/-- Calls issued by `vkkmscube_loop`, with their results.  The events that read
`cube->images[i]` record the index `i` used in the access; vkCreateFence records
the `flags` of its create info. -/
inductive LoopEv where
  | vkCreateFence (flags : Nat) (res : VkResult) (fence : Nat)
  | gettimeofday
  | log (msg : String)
  | cube_gpu_buffer_update_transforms (i : Nat) (gpubuf : Nat)
  | vkQueueSubmit (i : Nat) (waitSemaphores : List Nat) (commandBuffers : List Nat)
      (signalSemaphores : List Nat) (fence : Nat) (res : VkResult)
  | vkWaitForFences (fence : Nat) (res : VkResult)
  | vkResetFences (fence : Nat) (res : VkResult)
  | drmModeSetCrtc (i : Nat) (drm_fd : Int) (crtc_id : Nat) (fb_id : Nat)
      (connector_id : Nat) (mode : Nat) (ok : Int)
deriving DecidableEq, Repr

/-- What the backends answer during one pass through the loop body. -/
structure IterResp where
  vkQueueSubmit : VkResult
  vkWaitForFences : VkResult
  vkResetFences : VkResult
  drmModeSetCrtc : Int
deriving DecidableEq, Repr

/-- State of the loop when the recorded responses end: either the function has
left the loop (`break` or `return`), or it is about to start another pass with
slot index `i`. -/
inductive LoopStatus where
  | exited
  | running (i : Nat)
deriving DecidableEq, Repr

/-- The body of the `while (1)` of `vkkmscube_loop` for slot index `i`: the calls
it issues, and whether control reaches `i = (i + 1) % 4`. -/
def loop_iteration (cube : vkkmscube) (fence : Nat) (i : Nat) (r : IterResp) :
    List LoopEv × Bool :=
  let t1 : List LoopEv :=
    [LoopEv.cube_gpu_buffer_update_transforms i (cube.images i).gpubuf,
     LoopEv.vkQueueSubmit i [] [(cube.images i).cmdbuf] [] fence r.vkQueueSubmit]
  if r.vkQueueSubmit ≠ VK_SUCCESS then
    (t1 ++ [LoopEv.log "Couldn't submit command buffer. vkQueueSubmit"], false)
  else
    let t2 := t1 ++ [LoopEv.vkWaitForFences fence r.vkWaitForFences]
    if r.vkWaitForFences ≠ VK_SUCCESS then
      (t2 ++ [LoopEv.log "Couldn't wait for rendering to complete. vkWaitForFences"], false)
    else
      let t3 := t2 ++ [LoopEv.vkResetFences fence r.vkResetFences]
      if r.vkResetFences ≠ VK_SUCCESS then
        (t3 ++ [LoopEv.log "Couldn't reset rendering fence. vkResetFences"], false)
      else
        let t4 := t3 ++ [LoopEv.drmModeSetCrtc i cube.drm_fd cube.crtc_id (cube.images i).fb_id
                          cube.connector_id cube.selected_mode r.drmModeSetCrtc]
        if r.drmModeSetCrtc < 0 then
          (t4 ++ [LoopEv.log "Couldn't set display mode. drmModeSetCrtc"], false)
        else
          (t4, true)

/-- The `while (1)` loop started with slot index `i`, run against the recorded
responses, one per pass. -/
def loop_from (cube : vkkmscube) (fence : Nat) : Nat → List IterResp → List LoopEv × LoopStatus
  | i, [] => ([], LoopStatus.running i)
  | i, r :: rs =>
    let it := loop_iteration cube fence i r
    if it.2 then
      let rest := loop_from cube fence ((i + 1) % 4) rs
      (it.1 ++ rest.1, rest.2)
    else
      (it.1, LoopStatus.exited)

/-- The function `vkkmscube_loop`: `cf` is the answer of `vkCreateFence` (result
and fence handle), `rs` the answers of the successive loop passes. -/
def vkkmscube_loop (cube : vkkmscube) (cf : VkResult × Nat) (rs : List IterResp) :
    List LoopEv × LoopStatus :=
  if cf.1 ≠ VK_SUCCESS then
    ([LoopEv.vkCreateFence 0 cf.1 cf.2,
      LoopEv.log "Couldn't create fence to wait for rendering to complete. vkCreateFence"],
     LoopStatus.exited)
  else
    let body := loop_from cube cf.2 0 rs
    ([LoopEv.vkCreateFence 0 cf.1 cf.2, LoopEv.gettimeofday, LoopEv.log "looping"] ++ body.1,
     body.2)

/-! ## vulkan.c : buffer slots -/

/-- VK_NULL_HANDLE. -/
def VK_NULL_HANDLE : Nat := 0

/-- VK_EXTERNAL_SEMAPHORE_HANDLE_TYPE_OPAQUE_FD_BIT. -/
def VK_EXTERNAL_SEMAPHORE_HANDLE_TYPE_OPAQUE_FD_BIT : Nat := 1

/-- VK_SEMAPHORE_IMPORT_TEMPORARY_BIT. -/
def VK_SEMAPHORE_IMPORT_TEMPORARY_BIT : Nat := 1

/-- DRM_SYNCOBJ_WAIT_FLAGS_WAIT_FOR_SUBMIT (1 << 1). -/
def DRM_SYNCOBJ_WAIT_FLAGS_WAIT_FOR_SUBMIT : Nat := 2

/-- INT64_MAX. -/
def INT64_MAX : Int := 9223372036854775807

/-- DRM_FORMAT_XRGB8888, fourcc XR24. -/
def DRM_FORMAT_XRGB8888 : Nat := 0x34325258

/-- DRM_FORMAT_MOD_LINEAR. -/
def DRM_FORMAT_MOD_LINEAR : Nat := 0

/-- The fields of `struct buffer` (declared in kms-quads.h) that vulkan.c
assigns or reads.  Pointers and handles are opaque numbers, 0 being NULL. -/
structure buffer where
  output : Nat
  in_use : Bool
  gem_handles : List Nat
  fb_id : Nat
  render_fence_fd : Int
  kms_fence_fd : Int
  format : Nat
  modifier : Nat
  dumb_mem : Nat
  dumb_size : Nat
  gbm_bo : Nat
  gbm_img : Nat
  gbm_tex_id : Nat
  gbm_fbo_id : Nat
  width : Nat
  height : Nat
  pitches : List Nat
  offsets : List Nat
deriving DecidableEq, Repr

/-- The `struct vk_image` of vulkan.c. -/
structure vk_image where
  buffer : buffer
  memories : List Nat
  image : Nat
  image_view : Nat
  cb : Nat
  fb : Nat
  first : Bool
  ubo : Nat
  ubo_mem : Nat
  ubo_map : Nat
  ds : Nat
  buffer_semaphore : Nat
  render_semaphore : Nat
  render_fence : Nat
deriving DecidableEq, Repr

/-- Answers of the backends to the calls of `buffer_vk_create`, in source
order; an output handle is paired with the result of the call that writes it.
`find_mem_type_image` and `find_mem_type_ubo` are the values of the two
`find_mem_type` calls, `layout_*` the fields of the subresource layout. -/
structure CreateEnv where
  vkCreateImage : VkResult × Nat
  layout_offset : Nat
  layout_rowPitch : Nat
  layout_size : Nat
  gbm_bo_create_custom : Nat
  gbm_bo_get_fd : Int
  getMemoryFdPropertiesKHR : VkResult × Nat
  memr_memoryTypeBits : Nat
  find_mem_type_image : Int
  vkAllocateMemory_image : VkResult × Nat
  vkBindImageMemory2 : VkResult
  vkCreateImageView : VkResult × Nat
  vkCreateFramebuffer : VkResult × Nat
  vkCreateBuffer : VkResult × Nat
  find_mem_type_ubo : Int
  vkAllocateMemory_ubo : VkResult × Nat
  vkBindBufferMemory : VkResult
  vkMapMemory : VkResult × Nat
  vkAllocateDescriptorSets : VkResult × Nat
  vkAllocateCommandBuffers : VkResult × Nat
  vkCreateSemaphore_buffer : VkResult × Nat
  vkCreateFence : VkResult × Nat
  vkCreateSemaphore_render : VkResult × Nat
  gbm_bo_get_handle_for_plane : Nat
  gbm_bo_get_width : Nat
  gbm_bo_get_height : Nat
  gbm_bo_get_stride_for_plane : Nat
  gbm_bo_get_offset : Nat
deriving DecidableEq, Repr

/-- The checks of `buffer_vk_create`, in source order: true when one of them
fails, in which case the function calls `abort()` or fails an `assert` and
does not return. -/
def buffer_vk_create_aborts (env : CreateEnv) : Bool :=
  decide (env.vkCreateImage.1 ≠ VK_SUCCESS)
  || decide (env.gbm_bo_create_custom = 0)
  || decide (¬ (env.gbm_bo_get_fd ≥ 0))
  || decide (env.getMemoryFdPropertiesKHR.1 ≠ VK_SUCCESS)
  || decide (env.find_mem_type_image < 0)
  || decide (env.vkAllocateMemory_image.1 ≠ VK_SUCCESS)
  || decide (env.vkBindImageMemory2 ≠ VK_SUCCESS)
  || decide (env.vkCreateImageView.1 ≠ VK_SUCCESS)
  || decide (env.vkCreateFramebuffer.1 ≠ VK_SUCCESS)
  || decide (env.vkCreateBuffer.1 ≠ VK_SUCCESS)
  || decide (¬ (env.find_mem_type_ubo ≥ 0))
  || decide (env.vkAllocateMemory_ubo.1 ≠ VK_SUCCESS)
  || decide (env.vkBindBufferMemory ≠ VK_SUCCESS)
  || decide (env.vkMapMemory.1 ≠ VK_SUCCESS)
  || decide (env.vkAllocateDescriptorSets.1 ≠ VK_SUCCESS)
  || decide (env.vkAllocateCommandBuffers.1 ≠ VK_SUCCESS)
  || decide (env.vkCreateSemaphore_buffer.1 ≠ VK_SUCCESS)
  || decide (env.vkCreateFence.1 ≠ VK_SUCCESS)
  || decide (env.vkCreateSemaphore_render.1 ≠ VK_SUCCESS)

/-- The function `buffer_vk_create`.  `mem` is the block handed out by
`malloc(sizeof *img)`: `none` for a NULL return (the `assert(img)` fails),
otherwise the block with the contents it happens to have (malloc does not
initialise it).  `output` is the pointer argument; `device->vk_device` is not
NULL (`assert(vk_dev)`).  The result is `none` when
the function does not return, and the returned structure otherwise: the block
with exactly the fields overwritten that the source assigns at the end of the
function (lines 1562-1600). -/
def buffer_vk_create (output : Nat) (mem : Option vk_image) (env : CreateEnv) : Option vk_image :=
  match mem with
  | none => none
  | some img =>
    if buffer_vk_create_aborts env then none
    else
      some { img with
        memories := img.memories.set 0 env.vkAllocateMemory_image.2
        image := env.vkCreateImage.2
        image_view := env.vkCreateImageView.2
        cb := env.vkAllocateCommandBuffers.2
        fb := env.vkCreateFramebuffer.2
        ubo := env.vkCreateBuffer.2
        ubo_mem := env.vkAllocateMemory_ubo.2
        ubo_map := env.vkMapMemory.2
        ds := env.vkAllocateDescriptorSets.2
        buffer_semaphore := env.vkCreateSemaphore_buffer.2
        render_semaphore := env.vkCreateSemaphore_render.2
        render_fence := env.vkCreateFence.2
        buffer := { img.buffer with
          output := output
          in_use := false
          gem_handles := [env.gbm_bo_get_handle_for_plane, 0, 0, 0]
          fb_id := 0
          render_fence_fd := -1
          kms_fence_fd := -1
          format := DRM_FORMAT_XRGB8888
          modifier := DRM_FORMAT_MOD_LINEAR
          dumb_mem := 0
          dumb_size := 0
          gbm_bo := env.gbm_bo_create_custom
          gbm_img := 0
          gbm_tex_id := 0
          gbm_fbo_id := 0
          width := env.gbm_bo_get_width
          height := env.gbm_bo_get_height
          pitches := [env.gbm_bo_get_stride_for_plane, 0, 0, 0]
          offsets := [env.gbm_bo_get_offset, 0, 0, 0] } }

/-- Calls issued by `buffer_vk_fill`, with their arguments and results.
`log` is a diagnostic written through `vk_error`/`error` or `fprintf(stderr, ...)`.
The macro `error` comes from kms-quads.h; it is the logging macro it is used
as throughout vulkan.c, where every use that is to leave the function is
followed by an explicit `return`, `goto` or `abort()`: it returns to its caller. -/
inductive Call where
  | ubo_write (ubo_map : Nat) (frame_num : Int)
  | log (msg : String)
  | vkGetFenceStatus (fence : Nat) (res : VkResult)
  | vkResetFences (fence : Nat) (res : VkResult)
  | vkDestroySemaphore (semaphore : Nat)
  | vkCreateSemaphore (exportHandleTypes : Nat) (res : VkResult) (semaphore : Nat)
  | drmSyncobjCreate (kms_fd : Int) (flags : Nat) (ok : Int) (handle : Nat)
  | drmSyncobjImportSyncFile (kms_fd : Int) (handle : Nat) (sync_file_fd : Int) (ok : Int)
  | drmSyncobjHandleToFD (kms_fd : Int) (handle : Nat) (ok : Int) (fd : Int)
  | vkImportSemaphoreFdKHR (semaphore : Nat) (flags : Nat) (handleType : Nat) (fd : Int)
      (res : VkResult)
  | vkQueueSubmit (waitSemaphores : List Nat) (commandBuffers : List Nat)
      (signalSemaphores : List Nat) (fence : Nat) (res : VkResult)
  | close (fd : Int)
  | vkGetSemaphoreFdKHR (semaphore : Nat) (handleType : Nat) (res : VkResult) (fd : Int)
  | drmSyncobjFDToHandle (kms_fd : Int) (fd : Int) (ok : Int) (handle : Nat)
  | drmSyncobjWait (kms_fd : Int) (handles : List Nat) (timeout_nsec : Int) (flags : Nat)
      (ok : Int)
  | drmSyncobjExportSyncFile (kms_fd : Int) (handle : Nat) (ok : Int) (sync_file_fd : Int)
deriving DecidableEq, Repr

/-- Answers of the backends to the calls of one `buffer_vk_fill`; each call is
issued at most once per invocation. -/
structure FillEnv where
  vkGetFenceStatus : VkResult
  vkResetFences : VkResult
  vkCreateSemaphore : VkResult × Nat
  drmSyncobjCreate : Int × Nat
  drmSyncobjImportSyncFile : Int
  drmSyncobjHandleToFD : Int × Int
  vkImportSemaphoreFdKHR : VkResult
  vkQueueSubmit : VkResult
  vkGetSemaphoreFdKHR : VkResult × Int
  drmSyncobjFDToHandle : Int × Nat
  drmSyncobjWait : Int
  drmSyncobjExportSyncFile : Int × Int
deriving DecidableEq, Repr

/-- How an invocation ends: `return b`, or `abort()`. -/
inductive Outcome where
  | returned (b : Bool)
  | aborted
deriving DecidableEq, Repr

/-- Result of running `buffer_vk_fill`: the calls issued, the slot afterwards,
and how the invocation ended. -/
structure FillResult where
  trace : List Call
  img : vk_image
  outcome : Outcome
deriving DecidableEq, Repr

/-- Lines 1679-1735 of `buffer_vk_fill`: the uniform write, the fence check
guarded by `first`, and the re-creation of the render semaphore, up to and
including the vkCreateSemaphore call.  After `vk_error` on the fence status and
on the fence reset the source has neither `return` nor `abort()`. -/
def buffer_vk_fill_begin (img : vk_image) (frame_num : Int) (env : FillEnv) :
    List Call × vk_image :=
  let fence_check : List Call :=
    if ¬ img.first then
      [Call.vkGetFenceStatus img.render_fence env.vkGetFenceStatus]
        ++ (if env.vkGetFenceStatus ≠ VK_SUCCESS then [Call.log "Invalid render_fence status"]
            else [])
        ++ [Call.vkResetFences img.render_fence env.vkResetFences]
        ++ (if env.vkResetFences ≠ VK_SUCCESS then [Call.log "vkResetFences"] else [])
    else []
  let img1 : vk_image := if ¬ img.first then img else { img with first := false }
  let destroy : List Call :=
    if img1.buffer_semaphore ≠ VK_NULL_HANDLE then [Call.vkDestroySemaphore img1.render_semaphore]
    else []
  (Call.ubo_write img.ubo_map frame_num :: fence_check ++ destroy
     ++ [Call.vkCreateSemaphore VK_EXTERNAL_SEMAPHORE_HANDLE_TYPE_OPAQUE_FD_BIT
          env.vkCreateSemaphore.1 env.vkCreateSemaphore.2],
   { img1 with render_semaphore := env.vkCreateSemaphore.2 })

/-- Lines 1741-1785 of `buffer_vk_fill`, the branch taken when
`buffer->kms_fence_fd != -1`: the calls issued, and whether control reaches
`has_in_fence = true` (otherwise the function has called `abort()`). -/
def buffer_vk_fill_import (kms_fd : Int) (img : vk_image) (env : FillEnv) : List Call × Bool :=
  let create := Call.drmSyncobjCreate kms_fd 0 env.drmSyncobjCreate.1 env.drmSyncobjCreate.2
  let syncobj_handle := env.drmSyncobjCreate.2
  let import_file := Call.drmSyncobjImportSyncFile kms_fd syncobj_handle img.buffer.kms_fence_fd
    env.drmSyncobjImportSyncFile
  let to_fd := Call.drmSyncobjHandleToFD kms_fd syncobj_handle env.drmSyncobjHandleToFD.1
    env.drmSyncobjHandleToFD.2
  let syncobj_fd := env.drmSyncobjHandleToFD.2
  let import_sem := Call.vkImportSemaphoreFdKHR img.buffer_semaphore
    VK_SEMAPHORE_IMPORT_TEMPORARY_BIT VK_EXTERNAL_SEMAPHORE_HANDLE_TYPE_OPAQUE_FD_BIT
    syncobj_fd env.vkImportSemaphoreFdKHR
  if env.drmSyncobjCreate.1 < 0 then
    ([create, Call.log
        "Couldn't create syncobj for importing KMS out_fence into vulkan. drmSyncobjCreate"],
     false)
  else if env.drmSyncobjImportSyncFile < 0 then
    ([create, import_file, Call.log
        "Couldn't create import KMS out_fence into syncobj. drmSyncobjImportSyncFile"],
     false)
  else if env.drmSyncobjHandleToFD.1 < 0 then
    ([create, import_file, to_fd,
      Call.log "Couldn't export syncobj as fd. drmSyncobjHandleToFD"], false)
  else if env.vkImportSemaphoreFdKHR ≠ VK_SUCCESS then
    ([create, import_file, to_fd, import_sem, Call.log "vkImportSemaphoreFdKHR"], false)
  else
    ([create, import_file, to_fd, import_sem], true)

/-- Lines 1817-1819 of `buffer_vk_fill`:
`if (img->buffer.render_fence_fd) close(img->buffer.render_fence_fd);`. -/
def buffer_vk_fill_close (img : vk_image) : List Call :=
  if img.buffer.render_fence_fd ≠ 0 then [Call.close img.buffer.render_fence_fd] else []

/-- Lines 1817-1867 of `buffer_vk_fill`, reached after a successful
vkQueueSubmit: the close of the old render_fence_fd and the export of the
completion semaphore. -/
def buffer_vk_fill_export (kms_fd : Int) (img : vk_image) (env : FillEnv) : FillResult :=
  let close_old : List Call := buffer_vk_fill_close img
  let img1 : vk_image := { img with buffer := { img.buffer with render_fence_fd := -1 } }
  let get_fd := Call.vkGetSemaphoreFdKHR img1.render_semaphore
    VK_EXTERNAL_SEMAPHORE_HANDLE_TYPE_OPAQUE_FD_BIT
    env.vkGetSemaphoreFdKHR.1 env.vkGetSemaphoreFdKHR.2
  let syncobj_fd := env.vkGetSemaphoreFdKHR.2
  let to_handle := Call.drmSyncobjFDToHandle kms_fd syncobj_fd
    env.drmSyncobjFDToHandle.1 env.drmSyncobjFDToHandle.2
  let syncobj_handle := env.drmSyncobjFDToHandle.2
  let wait := Call.drmSyncobjWait kms_fd [syncobj_handle] INT64_MAX
    DRM_SYNCOBJ_WAIT_FLAGS_WAIT_FOR_SUBMIT env.drmSyncobjWait
  let export_file := Call.drmSyncobjExportSyncFile kms_fd syncobj_handle
    env.drmSyncobjExportSyncFile.1 env.drmSyncobjExportSyncFile.2
  if env.vkGetSemaphoreFdKHR.1 ≠ VK_SUCCESS then
    ⟨close_old ++ [get_fd, Call.log "vkGetSemaphoreFdKHR"], img1, Outcome.aborted⟩
  else if env.drmSyncobjFDToHandle.1 < 0 then
    ⟨close_old ++ [get_fd, to_handle, Call.log
        "Couldn't convert syncobj fd to syncobj handle. drmSyncobjFDToHandle"],
     img1, Outcome.aborted⟩
  else if env.drmSyncobjWait < 0 then
    ⟨close_old ++ [get_fd, to_handle, wait,
        Call.log "Couldn't wait for syncobj submit. drmSyncobjWait"],
     img1, Outcome.aborted⟩
  else if env.drmSyncobjExportSyncFile.1 < 0 then
    ⟨close_old ++ [get_fd, to_handle, wait, export_file, Call.log
        "Couldn't export syncfile of syncobj handle. drmSyncobjExportSyncFile"],
     img1, Outcome.aborted⟩
  else
    ⟨close_old ++ [get_fd, to_handle, wait, export_file],
     { img1 with buffer := { img1.buffer with
         render_fence_fd := env.drmSyncobjExportSyncFile.2 } },
     Outcome.returned true⟩

/-- Lines 1790-1867 of `buffer_vk_fill`: the submission, followed on success
by the export stage. -/
def buffer_vk_fill_submit (kms_fd : Int) (img : vk_image) (env : FillEnv)
    (has_in_fence : Bool) : FillResult :=
  let submit := Call.vkQueueSubmit (if has_in_fence then [img.buffer_semaphore] else [])
    [img.cb] [img.render_semaphore] img.render_fence env.vkQueueSubmit
  if env.vkQueueSubmit ≠ VK_SUCCESS then
    ⟨[submit, Call.log "vkQueueSubmit"], img, Outcome.returned false⟩
  else
    let r := buffer_vk_fill_export kms_fd img env
    ⟨submit :: r.trace, r.img, r.outcome⟩

/-- The function `buffer_vk_fill`.  `kms_fd` is `buffer->output->device->kms_fd`;
`buffer->output->device->vk_device` is not NULL (`assert(vk_dev)`).
The trace is the concatenation of the traces of the stages passed through. -/
def buffer_vk_fill (kms_fd : Int) (img : vk_image) (frame_num : Int) (env : FillEnv) :
    FillResult :=
  let s := buffer_vk_fill_begin img frame_num env
  if env.vkCreateSemaphore.1 ≠ VK_SUCCESS then
    ⟨s.1 ++ [Call.log "vkCreateSemaphore"], s.2, Outcome.returned false⟩
  else if s.2.buffer.kms_fence_fd ≠ -1 then
    let imp := buffer_vk_fill_import kms_fd s.2 env
    if imp.2 then
      let r := buffer_vk_fill_submit kms_fd s.2 env true
      ⟨s.1 ++ imp.1 ++ r.trace, r.img, r.outcome⟩
    else
      ⟨s.1 ++ imp.1, s.2, Outcome.aborted⟩
  else
    let r := buffer_vk_fill_submit kms_fd s.2 env false
    ⟨s.1 ++ r.trace, r.img, r.outcome⟩

/-! ## Auxiliary notions used to state the properties of the loop -/

/-- All three GPU calls of a loop pass answer VK_SUCCESS. -/
def gpu_ok (r : IterResp) : Bool :=
  decide (r.vkQueueSubmit = VK_SUCCESS) && decide (r.vkWaitForFences = VK_SUCCESS)
    && decide (r.vkResetFences = VK_SUCCESS)

/-- Every call of a loop pass succeeds (the source tests `ok < 0` for drmModeSetCrtc). -/
def iter_ok (r : IterResp) : Bool :=
  gpu_ok r && !decide (r.drmModeSetCrtc < 0)

/-- The five calls of a loop pass for slot index `i` in which every GPU call
succeeded; `ok` is the answer of drmModeSetCrtc. -/
def frame_events (cube : vkkmscube) (fence : Nat) (i : Nat) (ok : Int) : List LoopEv :=
  [LoopEv.cube_gpu_buffer_update_transforms i (cube.images i).gpubuf,
   LoopEv.vkQueueSubmit i [] [(cube.images i).cmdbuf] [] fence VK_SUCCESS,
   LoopEv.vkWaitForFences fence VK_SUCCESS,
   LoopEv.vkResetFences fence VK_SUCCESS,
   LoopEv.drmModeSetCrtc i cube.drm_fd cube.crtc_id (cube.images i).fb_id
     cube.connector_id cube.selected_mode ok]

/-- A vkQueueSubmit call. -/
def LoopEv.is_submit : LoopEv → Bool
  | LoopEv.vkQueueSubmit _ _ _ _ _ _ => true
  | _ => false

/-- A drmModeSetCrtc call. -/
def LoopEv.is_commit : LoopEv → Bool
  | LoopEv.drmModeSetCrtc _ _ _ _ _ _ _ => true
  | _ => false

/-- The index into `cube->images` an event was issued for, if it reads the array. -/
def LoopEv.slot : LoopEv → Option Nat
  | LoopEv.cube_gpu_buffer_update_transforms i _ => some i
  | LoopEv.vkQueueSubmit i _ _ _ _ _ => some i
  | LoopEv.drmModeSetCrtc i _ _ _ _ _ _ => some i
  | _ => none

/-- Effect of one call on the set of command buffers in flight, kept as pairs
(command buffer, fence of its submission): a successful vkQueueSubmit puts its
command buffers in flight, a successful vkWaitForFences on a fence retires the
command buffers submitted with that fence. -/
def in_flight_step (s : List (Nat × Nat)) : LoopEv → List (Nat × Nat)
  | LoopEv.vkQueueSubmit _ _ cbs _ fence res =>
    if res = VK_SUCCESS then s ++ cbs.map (fun cb => (cb, fence)) else s
  | LoopEv.vkWaitForFences fence res =>
    if res = VK_SUCCESS then s.filter (fun p => decide (p.2 ≠ fence)) else s
  | _ => s

/-- The command buffers in flight after a trace. -/
def in_flight (t : List LoopEv) : List (Nat × Nat) :=
  t.foldl in_flight_step []

/-! ## Auxiliary notions used to state the properties of buffer_vk_fill -/

/-- A vkQueueSubmit call. -/
def Call.is_submit : Call → Bool
  | Call.vkQueueSubmit _ _ _ _ _ => true
  | _ => false

/-- A kernel sync-object call or a semaphore import. -/
def Call.is_sync_import : Call → Bool
  | Call.drmSyncobjCreate _ _ _ _ => true
  | Call.drmSyncobjImportSyncFile _ _ _ _ => true
  | Call.drmSyncobjHandleToFD _ _ _ _ => true
  | Call.vkImportSemaphoreFdKHR _ _ _ _ _ => true
  | Call.drmSyncobjFDToHandle _ _ _ _ => true
  | Call.drmSyncobjWait _ _ _ _ _ => true
  | Call.drmSyncobjExportSyncFile _ _ _ _ => true
  | _ => false

/-- One of the calls made before the in-fence import: the uniform write, the
fence status query and reset, the semaphore destruction, and log output. -/
def Call.is_prologue : Call → Bool
  | Call.ubo_write _ _ => true
  | Call.log _ => true
  | Call.vkGetFenceStatus _ _ => true
  | Call.vkResetFences _ _ => true
  | Call.vkDestroySemaphore _ => true
  | _ => false

/-- A GPU call (semaphore creation, semaphore import, queue submit, semaphore
export) or kernel sync-object call whose result reports failure: a VkResult
other than VK_SUCCESS, a negative return value of a libdrm call. -/
def Call.failed : Call → Bool
  | Call.vkCreateSemaphore _ res _ => decide (res ≠ VK_SUCCESS)
  | Call.vkImportSemaphoreFdKHR _ _ _ _ res => decide (res ≠ VK_SUCCESS)
  | Call.vkQueueSubmit _ _ _ _ res => decide (res ≠ VK_SUCCESS)
  | Call.vkGetSemaphoreFdKHR _ _ res _ => decide (res ≠ VK_SUCCESS)
  | Call.drmSyncobjCreate _ _ ok _ => decide (ok < 0)
  | Call.drmSyncobjImportSyncFile _ _ _ ok => decide (ok < 0)
  | Call.drmSyncobjHandleToFD _ _ ok _ => decide (ok < 0)
  | Call.drmSyncobjFDToHandle _ _ ok _ => decide (ok < 0)
  | Call.drmSyncobjWait _ _ _ _ ok => decide (ok < 0)
  | Call.drmSyncobjExportSyncFile _ _ ok _ => decide (ok < 0)
  | _ => false

/-- A vkGetSemaphoreFdKHR call. -/
def Call.is_semaphore_export : Call → Bool
  | Call.vkGetSemaphoreFdKHR _ _ _ _ => true
  | _ => false

/-- A drmSyncobjExportSyncFile call. -/
def Call.is_sync_file_export : Call → Bool
  | Call.drmSyncobjExportSyncFile _ _ _ _ => true
  | _ => false

/-- A drmSyncobjCreate or drmSyncobjImportSyncFile call. -/
def Call.is_create_or_import_file : Call → Bool
  | Call.drmSyncobjCreate _ _ _ _ => true
  | Call.drmSyncobjImportSyncFile _ _ _ _ => true
  | _ => false

/-- No checked call of the trace failed. -/
def all_succeed (t : List Call) : Prop :=
  ∀ e ∈ t, e.failed = false

/-- The trace ends with a failed checked call followed only by the log line
reporting it, and no earlier checked call failed. -/
def fails_last (t : List Call) : Prop :=
  ∃ t0 e msg, t = t0 ++ [e, Call.log msg] ∧ e.failed = true ∧ all_succeed t0

/-- A block as malloc may hand it out: every byte zero. -/
def zeroed_block : vk_image :=
  ⟨⟨0, false, [0, 0, 0, 0], 0, 0, 0, 0, 0, 0, 0, 0, 0, 0, 0, 0, 0, [0, 0, 0, 0], [0, 0, 0, 0]⟩,
   [0, 0, 0, 0], 0, 0, 0, 0, false, 0, 0, 0, 0, 0, 0, 0⟩

/-- Answers of a run of buffer_vk_create in which every call succeeds. -/
def create_env_success : CreateEnv :=
  { vkCreateImage := (0, 101), layout_offset := 0, layout_rowPitch := 2560,
    layout_size := 1228800, gbm_bo_create_custom := 102, gbm_bo_get_fd := 5,
    getMemoryFdPropertiesKHR := (0, 3), memr_memoryTypeBits := 3, find_mem_type_image := 0,
    vkAllocateMemory_image := (0, 103), vkBindImageMemory2 := 0, vkCreateImageView := (0, 104),
    vkCreateFramebuffer := (0, 105), vkCreateBuffer := (0, 106), find_mem_type_ubo := 1,
    vkAllocateMemory_ubo := (0, 107), vkBindBufferMemory := 0, vkMapMemory := (0, 108),
    vkAllocateDescriptorSets := (0, 109), vkAllocateCommandBuffers := (0, 110),
    vkCreateSemaphore_buffer := (0, 111), vkCreateFence := (0, 112),
    vkCreateSemaphore_render := (0, 113), gbm_bo_get_handle_for_plane := 7,
    gbm_bo_get_width := 640, gbm_bo_get_height := 480, gbm_bo_get_stride_for_plane := 2560,
    gbm_bo_get_offset := 0 }

/-- Answers of a run of buffer_vk_fill in which every call succeeds. -/
def fill_env_success : FillEnv :=
  { vkGetFenceStatus := 0, vkResetFences := 0, vkCreateSemaphore := (0, 50),
    drmSyncobjCreate := (0, 60), drmSyncobjImportSyncFile := 0, drmSyncobjHandleToFD := (0, 70),
    vkImportSemaphoreFdKHR := 0, vkQueueSubmit := 0, vkGetSemaphoreFdKHR := (0, 80),
    drmSyncobjFDToHandle := (0, 90), drmSyncobjWait := 0, drmSyncobjExportSyncFile := (0, 100) }

/-- A slot that has been submitted and displayed before: `first` is false and
both fence descriptors are set. -/
def slot_in_use : vk_image :=
  ⟨⟨1, false, [7, 0, 0, 0], 42, 21, 33, DRM_FORMAT_XRGB8888, DRM_FORMAT_MOD_LINEAR, 0, 0, 102,
    0, 0, 0, 640, 480, [2560, 0, 0, 0], [0, 0, 0, 0]⟩,
   [103, 0, 0, 0], 101, 104, 110, 105, false, 106, 107, 108, 109, 111, 113, 112⟩

/-- A slot that has been submitted before and has no release fence pending. -/
def slot_no_in_fence : vk_image :=
  { slot_in_use with buffer := { slot_in_use.buffer with kms_fence_fd := -1 } }

/-- A cube whose slot i holds the handles 100+i, 200+i, ... -/
def cube_example : vkkmscube :=
  ⟨640, 480, 3, 10, 20, 30, fun i => ⟨100 + i, 200 + i, 300 + i, 400 + i, 500 + i⟩⟩

/-- VK_NOT_READY: a fence that is not signaled. -/
def VK_NOT_READY : VkResult := 1

/-- A loop pass in which every call succeeds. -/
def iter_resp_ok : IterResp := ⟨0, 0, 0, 0⟩

/-- A loop pass in which vkWaitForFences fails (VK_ERROR_DEVICE_LOST). -/
def iter_resp_wait_fails : IterResp := ⟨0, -4, 0, 0⟩

/-- The slot buffer_vk_create returns for `zeroed_block` and `create_env_success`. -/
def created_slot : vk_image :=
  { zeroed_block with
    memories := [103, 0, 0, 0], image := 101, image_view := 104, cb := 110, fb := 105,
    ubo := 106, ubo_mem := 107, ubo_map := 108, ds := 109, buffer_semaphore := 111,
    render_semaphore := 113, render_fence := 112,
    buffer := { zeroed_block.buffer with
      output := 1, gem_handles := [7, 0, 0, 0], render_fence_fd := -1, kms_fence_fd := -1,
      format := DRM_FORMAT_XRGB8888, gbm_bo := 102, width := 640, height := 480,
      pitches := [2560, 0, 0, 0] } }

/-! ## Auxiliary notions for the firstUse protocol and the semaphore re-creation -/

/-- A vkGetFenceStatus call. -/
def Call.is_fence_status : Call → Bool
  | Call.vkGetFenceStatus _ _ => true
  | _ => false

/-- A vkResetFences call. -/
def Call.is_fence_reset : Call → Bool
  | Call.vkResetFences _ _ => true
  | _ => false

/-- A slot that has never been submitted: `first` is true, no fence descriptor
is stored. -/
def slot_fresh : vk_image :=
  { created_slot with first := true }

/-- A call of the import, submission or export stage of buffer_vk_fill, or a
log line: everything that can follow the vkCreateSemaphore call. -/
def Call.is_stage2 : Call → Bool
  | Call.log _ => true
  | Call.drmSyncobjCreate _ _ _ _ => true
  | Call.drmSyncobjImportSyncFile _ _ _ _ => true
  | Call.drmSyncobjHandleToFD _ _ _ _ => true
  | Call.vkImportSemaphoreFdKHR _ _ _ _ _ => true
  | Call.vkQueueSubmit _ _ _ _ _ => true
  | Call.close _ => true
  | Call.vkGetSemaphoreFdKHR _ _ _ _ => true
  | Call.drmSyncobjFDToHandle _ _ _ _ => true
  | Call.drmSyncobjWait _ _ _ _ _ => true
  | Call.drmSyncobjExportSyncFile _ _ _ _ => true
  | _ => false

/-- A call of the in-fence import of buffer_vk_fill: the sync-object calls that
carry kms_fence_fd, and the semaphore import. -/
def Call.is_in_fence_import : Call → Bool
  | Call.drmSyncobjCreate _ _ _ _ => true
  | Call.drmSyncobjImportSyncFile _ _ _ _ => true
  | Call.drmSyncobjHandleToFD _ _ _ _ => true
  | Call.vkImportSemaphoreFdKHR _ _ _ _ _ => true
  | _ => false

/-- A vkDestroySemaphore call. -/
def Call.is_semaphore_destroy : Call → Bool
  | Call.vkDestroySemaphore _ => true
  | _ => false

/-- A vkCreateSemaphore call. -/
def Call.is_semaphore_create : Call → Bool
  | Call.vkCreateSemaphore _ _ _ => true
  | _ => false

/-- A close call. -/
def Call.is_close : Call → Bool
  | Call.close _ => true
  | _ => false

/-- A call of the submission or export stage of buffer_vk_fill, or a log line. -/
def Call.is_stage3 : Call → Bool
  | Call.log _ => true
  | Call.vkQueueSubmit _ _ _ _ _ => true
  | Call.close _ => true
  | Call.vkGetSemaphoreFdKHR _ _ _ _ => true
  | Call.drmSyncobjFDToHandle _ _ _ _ => true
  | Call.drmSyncobjWait _ _ _ _ _ => true
  | Call.drmSyncobjExportSyncFile _ _ _ _ => true
  | _ => false

/-! ## Descriptor bookkeeping -/

/-- A slot that holds descriptor 0 in render_fence_fd. -/
def slot_holding_fd0 : vk_image :=
  { slot_no_in_fence with buffer := { slot_no_in_fence.buffer with render_fence_fd := 0 } }

/-- The descriptors a call hands to its caller when it succeeds. -/
def Call.fd_opened : Call → List Int
  | Call.drmSyncobjHandleToFD _ _ ok fd => if 0 ≤ ok then [fd] else []
  | Call.vkGetSemaphoreFdKHR _ _ res fd => if res = VK_SUCCESS then [fd] else []
  | Call.drmSyncobjExportSyncFile _ _ ok fd => if 0 ≤ ok then [fd] else []
  | _ => []

/-- The descriptors passed to a call. -/
def Call.fd_used : Call → List Int
  | Call.drmSyncobjImportSyncFile _ _ fd _ => [fd]
  | Call.vkImportSemaphoreFdKHR _ _ _ fd _ => [fd]
  | Call.close fd => [fd]
  | Call.drmSyncobjFDToHandle _ fd _ _ => [fd]
  | _ => []

/-- The descriptors whose ownership a call takes over from the caller: a
successful vkImportSemaphoreFdKHR takes the imported descriptor. -/
def Call.fd_transferred : Call → List Int
  | Call.vkImportSemaphoreFdKHR _ _ _ fd res => if res = VK_SUCCESS then [fd] else []
  | _ => []

/-- The descriptors a call closes. -/
def Call.fd_closed : Call → List Int
  | Call.close fd => [fd]
  | _ => []

/-- Effect of a call on the list of descriptors that were opened and are
neither closed nor transferred. -/
def open_fds_step (s : List Int) (e : Call) : List Int :=
  s.filter (fun d => !(e.fd_closed.contains d || e.fd_transferred.contains d)) ++ e.fd_opened

/-- The descriptors opened by the calls of a trace that are neither closed nor
transferred at its end. -/
def open_fds (t : List Call) : List Int :=
  t.foldl open_fds_step []

/-- Answers of a run of buffer_vk_fill in which only drmSyncobjExportSyncFile fails. -/
def fill_env_export_fails : FillEnv :=
  { fill_env_success with drmSyncobjExportSyncFile := (-1, 0) }

/-! ## Ownership of descriptors over the life of a slot -/

/-- What happens to a slot over time: a call issued by buffer_vk_fill, or a
display commit that is handed the descriptor `in_fence_fd`. -/
inductive SlotEv where
  | call (c : Call)
  | commit (in_fence_fd : Int)
deriving DecidableEq, Repr

/-- Modelled from the spec: the display engine operation
`commitBuffer(bufferHandle, inFenceFd)`, which "schedules the buffer for the
next scanout cycle, consuming inFenceFd".  The display commit is not part of
vulkan.c.  It is handed the slot's render_fence_fd; the slot itself stays as
it is: in vulkan.c only buffer_vk_create and buffer_vk_fill assign
render_fence_fd. -/
def commitBuffer (img : vk_image) : SlotEv × vk_image :=
  (SlotEv.commit img.buffer.render_fence_fd, img)

/-- One step in the life of a slot: an invocation of buffer_vk_fill with the
answers of its backends, or a display commit. -/
inductive SlotStep where
  | fill (frame_num : Int) (env : FillEnv)
  | commit
deriving DecidableEq, Repr

/-- The events of a sequence of buffer_vk_fill invocations and display commits
on one slot.  After `abort()` nothing more happens. -/
def slot_history (kms_fd : Int) : vk_image → List SlotStep → List SlotEv
  | _, [] => []
  | img, SlotStep.fill frame_num env :: t =>
    (buffer_vk_fill kms_fd img frame_num env).trace.map SlotEv.call ++
      (match (buffer_vk_fill kms_fd img frame_num env).outcome with
       | Outcome.aborted => []
       | Outcome.returned _ =>
         slot_history kms_fd (buffer_vk_fill kms_fd img frame_num env).img t)
  | img, SlotStep.commit :: t =>
    (commitBuffer img).1 :: slot_history kms_fd (commitBuffer img).2 t

/-- The descriptors buffer_vk_fill passes to a call.  The law constrains the
calls of buffer_vk_fill, so a commit counts as no use. -/
def SlotEv.fd_used : SlotEv → List Int
  | SlotEv.call c => c.fd_used
  | SlotEv.commit _ => []

/-- The descriptors an event hands to buffer_vk_fill. -/
def SlotEv.fd_opened : SlotEv → List Int
  | SlotEv.call c => c.fd_opened
  | SlotEv.commit _ => []

/-- The descriptors an event takes over.  `commit_consumes` says whether a
display commit takes over the descriptor it is handed. -/
def SlotEv.fd_passed (commit_consumes : Bool) : SlotEv → List Int
  | SlotEv.call c => c.fd_transferred
  | SlotEv.commit fd => if commit_consumes then [fd] else []

/-- Effect of an event on the list of descriptors that were passed on: a
descriptor number leaves the list when it is handed out anew. -/
def gone_step (commit_consumes : Bool) (gone : List Int) (e : SlotEv) : List Int :=
  gone.filter (fun d => decide (d ∉ e.fd_opened)) ++ e.fd_passed commit_consumes

/-- The descriptors that were passed on, after the events `l`. -/
def gone_after (commit_consumes : Bool) (gone : List Int) (l : List SlotEv) : List Int :=
  l.foldl (gone_step commit_consumes) gone

/-- The ownership-transfer law on a sequence of events: no call uses a
descriptor that was passed on before. -/
def respects_ownership (commit_consumes : Bool) : List Int → List SlotEv → Bool
  | _, [] => true
  | gone, e :: t =>
    e.fd_used.all (fun d => decide (d ∉ gone)) &&
      respects_ownership commit_consumes (gone_step commit_consumes gone e) t

/-- The backends hand out a descriptor number that the slot does not hold:
the answer of drmSyncobjHandleToFD differs from both descriptors of the slot. -/
def fresh_answers (img : vk_image) (env : FillEnv) : Prop :=
  env.drmSyncobjHandleToFD.2 ≠ img.buffer.render_fence_fd ∧
  env.drmSyncobjHandleToFD.2 ≠ img.buffer.kms_fence_fd

instance (img : vk_image) (env : FillEnv) : Decidable (fresh_answers img env) := by
  unfold fresh_answers
  infer_instance

/-- Every buffer_vk_fill of a sequence of steps gets fresh answers for the
slot as it is when the invocation starts. -/
def steps_fresh (kms_fd : Int) : vk_image → List SlotStep → Prop
  | _, [] => True
  | img, SlotStep.fill frame_num env :: t =>
    fresh_answers img env ∧ steps_fresh kms_fd (buffer_vk_fill kms_fd img frame_num env).img t
  | img, SlotStep.commit :: t => steps_fresh kms_fd (commitBuffer img).2 t

/-! ## vulkan.c : buffer_vk_destroy -/

/-- The value of `UINT64_MAX`. -/
def UINT64_MAX : Nat := 18446744073709551615

/-- The calls that `buffer_vk_destroy` issues, with their arguments (the
VkDevice and allocator arguments apart) and, for vkWaitForFences, the result
the backend returns.  `log` is a diagnostic written through `error` or
`vk_error`. -/
inductive DestroyCall where
  | log (msg : String)
  | vkWaitForFences (fences : List Nat) (waitAll : Bool) (timeout : Nat) (res : VkResult)
  | vkDestroyFence (fence : Nat)
  | vkDestroySemaphore (semaphore : Nat)
  | vkDestroyFramebuffer (fb : Nat)
  | vkDestroyImageView (image_view : Nat)
  | vkDestroyImage (image : Nat)
  | vkDestroyBuffer (ubo : Nat)
  | vkFreeMemory (memory : Nat)
  | gbm_bo_destroy (bo : Nat)
deriving DecidableEq, Repr

/-- Lines 1614-1623 of `buffer_vk_destroy`: the wait for the render fence,
guarded by `render_fence` and by `first`, and the destruction of the fence.
After `vk_error` on the wait the source goes on. -/
def buffer_vk_destroy_fence (img : vk_image) (vkWaitForFences : VkResult) : List DestroyCall :=
  if img.render_fence ≠ VK_NULL_HANDLE then
    (if ¬ img.first then
      DestroyCall.vkWaitForFences [img.render_fence] false UINT64_MAX vkWaitForFences ::
        (if vkWaitForFences ≠ VK_SUCCESS then [DestroyCall.log "vkWaitForFences"] else [])
     else [])
      ++ [DestroyCall.vkDestroyFence img.render_fence]
  else []

/-- Lines 1628-1662 of `buffer_vk_destroy`: the guarded destruction of the other
resources of the slot.  The loop over `memories` has an empty body. -/
def buffer_vk_destroy_rest (img : vk_image) : List DestroyCall :=
  (if img.buffer_semaphore ≠ VK_NULL_HANDLE then
      [DestroyCall.vkDestroySemaphore img.buffer_semaphore] else [])
    ++ (if img.render_semaphore ≠ VK_NULL_HANDLE then
      [DestroyCall.vkDestroySemaphore img.render_semaphore] else [])
    ++ (if img.fb ≠ VK_NULL_HANDLE then [DestroyCall.vkDestroyFramebuffer img.fb] else [])
    ++ (if img.image_view ≠ VK_NULL_HANDLE then
      [DestroyCall.vkDestroyImageView img.image_view] else [])
    ++ (if img.image ≠ VK_NULL_HANDLE then [DestroyCall.vkDestroyImage img.image] else [])
    ++ (if img.ubo ≠ VK_NULL_HANDLE then [DestroyCall.vkDestroyBuffer img.ubo] else [])
    ++ (if img.ubo_mem ≠ VK_NULL_HANDLE then [DestroyCall.vkFreeMemory img.ubo_mem] else [])
    ++ (if img.buffer.gbm_bo ≠ 0 then [DestroyCall.gbm_bo_destroy img.buffer.gbm_bo] else [])

/-- The function `buffer_vk_destroy`: the calls it issues.  `vk_dev` is
`device->vk_device` (0 for NULL), `vkWaitForFences` the result the backend
returns for the wait. -/
def buffer_vk_destroy (vk_dev : Nat) (img : vk_image) (vkWaitForFences : VkResult) :
    List DestroyCall :=
  if vk_dev = 0 then [DestroyCall.log "Expected vk_device in device"]
  else buffer_vk_destroy_fence img vkWaitForFences ++ buffer_vk_destroy_rest img

/-- A vkWaitForFences call. -/
def DestroyCall.is_wait : DestroyCall → Bool
  | DestroyCall.vkWaitForFences _ _ _ _ => true
  | _ => false

/-- A call that destroys or frees a resource of the slot. -/
def DestroyCall.is_release : DestroyCall → Bool
  | DestroyCall.log _ => false
  | DestroyCall.vkWaitForFences _ _ _ _ => false
  | _ => true

/-! ## vulkan2.c : vk_kms_image_new -/

/-- The handle type `VK_EXTERNAL_MEMORY_HANDLE_TYPE_DMA_BUF_BIT_EXT` of the
Vulkan headers. -/
def VK_EXTERNAL_MEMORY_HANDLE_TYPE_DMA_BUF_BIT_EXT : Nat := 0x200

/-- The `struct vk_kms_image` of vulkan2.c (pointers and handles are opaque
numbers, 0 being NULL). -/
structure vk_kms_image where
  bo : Nat
  width : Int
  height : Int
  drm_format : Nat
  gbm_format : Nat
  drm_modifier : Nat
  vk_format : Nat
  image : Nat
  memory : Nat
deriving DecidableEq, Repr

/-- The answer of vkGetPhysicalDeviceMemoryProperties as far as find_mem_type
reads it: `memoryTypeCount` and `memoryTypes[i].propertyFlags`. -/
structure VkPhysicalDeviceMemoryProperties where
  memoryTypeCount : Nat
  memoryTypes : Nat → Nat

/-- The loop of `find_mem_type` from index `i` on, with `n` indices left below
`memoryTypeCount`.  `req_bits` is a uint32_t and `1 << i` a 32-bit int: the `&`
sees its bit pattern, `2^i mod 2^32` (at i = 31 the pattern of INT_MIN). -/
def find_mem_type_loop (props : VkPhysicalDeviceMemoryProperties) (flags req_bits : Nat) :
    Nat → Nat → Int
  | 0, _ => -1
  | n + 1, i =>
    if req_bits &&& ((1 <<< i) % 2 ^ 32) ≠ 0 then
      if props.memoryTypes i &&& flags = flags then (i : Int)
      else find_mem_type_loop props flags req_bits n (i + 1)
    else find_mem_type_loop props flags req_bits n (i + 1)

/-- The function `find_mem_type`, the same text in vulkan.c and vulkan2.c;
`props` is what vkGetPhysicalDeviceMemoryProperties writes for `phdev`. -/
def find_mem_type (props : VkPhysicalDeviceMemoryProperties) (flags req_bits : Nat) : Int :=
  find_mem_type_loop props flags req_bits props.memoryTypeCount 0

/-- The value of an `int` converted to `uint32_t`. -/
def to_uint32 (x : Int) : Nat :=
  (x % 4294967296).toNat

/-- Calls issued by `vk_kms_image_new`, with their arguments (the VkDevice and
allocator arguments apart) and results.  `log` is a line written through
`LOG_ERROR` or `LOG_VK_ERROR`.  The extent of vkCreateImage and the size of
gbm_bo_create_with_modifiers are uint32_t. -/
inductive ImageCall where
  | log (msg : String)
  | vkCreateImage (width height : Nat) (vk_format : Nat) (drm_modifier : Nat)
      (res : VkResult) (image : Nat)
  | vkGetImageSubresourceLayout (image : Nat) (offset size rowPitch : Nat)
  | gbm_bo_create_with_modifiers (gbm_device : Nat) (width height : Nat) (gbm_format : Nat)
      (modifiers : List Nat) (bo : Nat)
  | gbm_bo_get_offset (bo : Nat) (plane : Nat) (offset : Nat)
  | gbm_bo_get_stride_for_plane (bo : Nat) (plane : Nat) (stride : Nat)
  | gbm_bo_get_fd (bo : Nat) (fd : Int)
  | vkGetDeviceProcAddr (name : String) (addr : Nat)
  | vkGetMemoryFdPropertiesKHR (handleType : Nat) (fd : Int) (res : VkResult)
      (memoryTypeBits : Nat)
  | vkGetImageMemoryRequirements2 (image : Nat) (memoryTypeBits : Nat)
  | vkGetPhysicalDeviceMemoryProperties (phdev : Nat)
  | vkAllocateMemory (allocationSize : Nat) (memoryTypeIndex : Int) (handleType : Nat)
      (fd : Int) (image : Nat) (res : VkResult) (memory : Nat)
  | vkBindImageMemory2 (image : Nat) (memory : Nat) (memoryOffset : Nat) (res : VkResult)
  | malloc (ok : Bool)
  | vkFreeMemory (memory : Nat)
  | gbm_bo_destroy (bo : Nat)
  | vkDestroyImage (image : Nat)
deriving DecidableEq, Repr

/-- Answers of the backends to the calls of one `vk_kms_image_new`, in source
order; an output handle is paired with the result of the call that writes it.
`layout_*` are the fields of the subresource layout, `malloc` says whether the
allocation of the struct succeeds. -/
structure ImageEnv where
  vkCreateImage : VkResult × Nat
  layout_offset : Nat
  layout_size : Nat
  layout_rowPitch : Nat
  gbm_bo_create_with_modifiers : Nat
  gbm_bo_get_offset : Nat
  gbm_bo_get_stride_for_plane : Nat
  gbm_bo_get_fd : Int
  vkGetDeviceProcAddr : Nat
  vkGetMemoryFdPropertiesKHR : VkResult × Nat
  vkGetImageMemoryRequirements2 : Nat
  vkGetPhysicalDeviceMemoryProperties : VkPhysicalDeviceMemoryProperties
  vkAllocateMemory : VkResult × Nat
  vkBindImageMemory2 : VkResult
  malloc : Bool

/-- Lines 635-751 of `vk_kms_image_new`, reached when the layout of the buffer
object matches the layout of the image: the import of the buffer object as
device memory, and the cleanup labels on failure.  `phdev` is
`dev->physical_device`. -/
def vk_kms_image_new_import (phdev : Nat) (width height : Int) (vk_format gbm_format
    drm_format drm_modifier : Nat) (env : ImageEnv) : List ImageCall × Option vk_kms_image :=
  let vkimg := env.vkCreateImage.2
  let bo := env.gbm_bo_create_with_modifiers
  let fd := env.gbm_bo_get_fd
  let get_fd := ImageCall.gbm_bo_get_fd bo fd
  let proc := ImageCall.vkGetDeviceProcAddr "vkGetMemoryFdPropertiesKHR" env.vkGetDeviceProcAddr
  let fd_props := ImageCall.vkGetMemoryFdPropertiesKHR
    VK_EXTERNAL_MEMORY_HANDLE_TYPE_DMA_BUF_BIT_EXT fd env.vkGetMemoryFdPropertiesKHR.1
    env.vkGetMemoryFdPropertiesKHR.2
  let reqs := ImageCall.vkGetImageMemoryRequirements2 vkimg env.vkGetImageMemoryRequirements2
  let mem := find_mem_type env.vkGetPhysicalDeviceMemoryProperties 0
    (env.vkGetImageMemoryRequirements2 &&& env.vkGetMemoryFdPropertiesKHR.2)
  let get_props := ImageCall.vkGetPhysicalDeviceMemoryProperties phdev
  let alloc := ImageCall.vkAllocateMemory env.layout_size mem
    VK_EXTERNAL_MEMORY_HANDLE_TYPE_DMA_BUF_BIT_EXT fd vkimg env.vkAllocateMemory.1
    env.vkAllocateMemory.2
  let img_device_memory := env.vkAllocateMemory.2
  let bind := ImageCall.vkBindImageMemory2 vkimg img_device_memory 0 env.vkBindImageMemory2
  let fail_destroy_bo := [ImageCall.gbm_bo_destroy bo, ImageCall.vkDestroyImage vkimg]
  let fail_free_device_memory := ImageCall.vkFreeMemory img_device_memory :: fail_destroy_bo
  if fd < 0 then
    (get_fd :: ImageCall.log "Couldn't get dmabuf fd for GBM buffer. gbm_bo_get_fd"
      :: fail_destroy_bo, none)
  else if env.vkGetDeviceProcAddr = 0 then
    ([get_fd, proc, ImageCall.log "Couldn't resolve vkGetMemoryFdPropertiesKHR."]
      ++ fail_destroy_bo, none)
  else if env.vkGetMemoryFdPropertiesKHR.1 ≠ VK_SUCCESS then
    ([get_fd, proc, fd_props, ImageCall.log
        "Couldn't get dmabuf memory properties. vkGetMemoryFdPropertiesKHR"]
      ++ fail_destroy_bo, none)
  else if mem < 0 then
    ([get_fd, proc, fd_props, reqs, get_props, ImageCall.log
        "Couldn't find a memory type that's both supported by the image and the dmabuffer."]
      ++ fail_destroy_bo, none)
  else if env.vkAllocateMemory.1 ≠ VK_SUCCESS then
    ([get_fd, proc, fd_props, reqs, get_props, alloc, ImageCall.log
        "Couldn't import dmabuf as vulkan device memory. vkAllocateMemory"]
      ++ fail_destroy_bo, none)
  else if env.vkBindImageMemory2 ≠ VK_SUCCESS then
    ([get_fd, proc, fd_props, reqs, get_props, alloc, bind, ImageCall.log
        "Couldn't bind dmabuf-backed vulkan device memory to vulkan image. vkBindImageMemory2"]
      ++ fail_free_device_memory, none)
  else if env.malloc = false then
    ([get_fd, proc, fd_props, reqs, get_props, alloc, bind, ImageCall.malloc false]
      ++ fail_free_device_memory, none)
  else
    ([get_fd, proc, fd_props, reqs, get_props, alloc, bind, ImageCall.malloc true],
     some { bo := bo, memory := img_device_memory, image := vkimg, width := width,
            height := height, drm_format := drm_format, gbm_format := gbm_format,
            drm_modifier := drm_modifier, vk_format := vk_format })

/-- The function `vk_kms_image_new`: the calls it issues and the image it
returns (`none` for NULL).  `phdev` is `dev->physical_device`. -/
def vk_kms_image_new (phdev : Nat) (gbm_device : Nat) (width height : Int)
    (vk_format gbm_format drm_format drm_modifier : Nat) (env : ImageEnv) :
    List ImageCall × Option vk_kms_image :=
  let vkimg := env.vkCreateImage.2
  let create := ImageCall.vkCreateImage (to_uint32 width) (to_uint32 height) vk_format
    drm_modifier env.vkCreateImage.1 vkimg
  let layout := ImageCall.vkGetImageSubresourceLayout vkimg env.layout_offset env.layout_size
    env.layout_rowPitch
  let bo := env.gbm_bo_create_with_modifiers
  let bo_create := ImageCall.gbm_bo_create_with_modifiers gbm_device (to_uint32 width)
    (to_uint32 height) gbm_format [drm_modifier] bo
  let get_offset := ImageCall.gbm_bo_get_offset bo 0 env.gbm_bo_get_offset
  let get_stride := ImageCall.gbm_bo_get_stride_for_plane bo 0 env.gbm_bo_get_stride_for_plane
  let mismatch := ImageCall.log
    "GBM BO layout doesn't match image layout. This is probably a driver / kernel bug."
  if env.vkCreateImage.1 ≠ VK_SUCCESS then
    ([create, ImageCall.log "Could not create Vulkan image. vkCreateImage"], none)
  else if bo = 0 then
    ([create, layout, bo_create,
      ImageCall.log "Could not create GBM BO. gbm_bo_create_with_modifiers",
      ImageCall.vkDestroyImage vkimg], none)
  else if env.gbm_bo_get_offset ≠ env.layout_offset then
    ([create, layout, bo_create, get_offset, mismatch,
      ImageCall.gbm_bo_destroy bo, ImageCall.vkDestroyImage vkimg], none)
  else if env.gbm_bo_get_stride_for_plane ≠ env.layout_rowPitch then
    ([create, layout, bo_create, get_offset, get_stride, mismatch,
      ImageCall.gbm_bo_destroy bo, ImageCall.vkDestroyImage vkimg], none)
  else
    ([create, layout, bo_create, get_offset, get_stride] ++
      (vk_kms_image_new_import phdev width height vk_format gbm_format drm_format drm_modifier
        env).1,
     (vk_kms_image_new_import phdev width height vk_format gbm_format drm_format drm_modifier
        env).2)

/-- A call that releases the buffer object `bo` or the Vulkan image `image`. -/
def ImageCall.releases (bo image : Nat) : ImageCall → Bool
  | ImageCall.gbm_bo_destroy b => b = bo
  | ImageCall.vkDestroyImage i => i = image
  | _ => false

/-- Memory properties with one memory type, without property flags. -/
def memory_properties_one : VkPhysicalDeviceMemoryProperties :=
  ⟨1, fun _ => 0⟩

/-- Answers of a run of vk_kms_image_new in which every call succeeds and the
layouts match. -/
def image_env_success : ImageEnv :=
  { vkCreateImage := (0, 201), layout_offset := 0, layout_size := 1228800,
    layout_rowPitch := 2560, gbm_bo_create_with_modifiers := 202, gbm_bo_get_offset := 0,
    gbm_bo_get_stride_for_plane := 2560, gbm_bo_get_fd := 5, vkGetDeviceProcAddr := 203,
    vkGetMemoryFdPropertiesKHR := (0, 1), vkGetImageMemoryRequirements2 := 1,
    vkGetPhysicalDeviceMemoryProperties := memory_properties_one,
    vkAllocateMemory := (0, 204), vkBindImageMemory2 := 0, malloc := true }

/-- Answers of a run of vk_kms_image_new in which the buffer object has a stride
other than the row pitch of the image. -/
def image_env_stride_differs : ImageEnv :=
  { image_env_success with gbm_bo_get_stride_for_plane := 2816 }

/-! ## Signal state of the fences of the loop -/

/-- The flag `VK_FENCE_CREATE_SIGNALED_BIT` of the Vulkan headers. -/
def VK_FENCE_CREATE_SIGNALED_BIT : Nat := 1

/-- Effect of a call on the list of fences that are signaled or have a signal
pending: a fence is created signaled only with VK_FENCE_CREATE_SIGNALED_BIT, a
successful vkQueueSubmit makes its fence signal, a successful vkResetFences
makes its fence unsignaled. -/
def fence_step (s : List Nat) : LoopEv → List Nat
  | LoopEv.vkCreateFence flags res fence =>
    if res = VK_SUCCESS then
      (if flags &&& VK_FENCE_CREATE_SIGNALED_BIT ≠ 0 then fence :: s
       else s.filter (fun f => decide (f ≠ fence)))
    else s
  | LoopEv.vkQueueSubmit _ _ _ _ fence res => if res = VK_SUCCESS then fence :: s else s
  | LoopEv.vkResetFences fence res =>
    if res = VK_SUCCESS then s.filter (fun f => decide (f ≠ fence)) else s
  | _ => s

/-- The fences that are signaled, or have a signal pending, after a trace. -/
def signaled_fences (t : List LoopEv) : List Nat :=
  t.foldl fence_step []

/-- Memory properties with three memory types: property flags 0, 6 and 7. -/
def memory_properties_three : VkPhysicalDeviceMemoryProperties :=
  ⟨3, fun i => if i = 0 then 0 else if i = 1 then 6 else 7⟩

/-! ## vulkan2.c : score_physical_device and the device selection of vkdev_new -/

/-- The flag `VK_QUEUE_GRAPHICS_BIT` of the Vulkan headers. -/
def VK_QUEUE_GRAPHICS_BIT : Nat := 1

/-- The device type `VK_PHYSICAL_DEVICE_TYPE_INTEGRATED_GPU` of the Vulkan headers. -/
def VK_PHYSICAL_DEVICE_TYPE_INTEGRATED_GPU : Nat := 1

/-- The device type `VK_PHYSICAL_DEVICE_TYPE_DISCRETE_GPU` of the Vulkan headers. -/
def VK_PHYSICAL_DEVICE_TYPE_DISCRETE_GPU : Nat := 2

/-- What the backend answers about one physical device: `deviceType` of
vkGetPhysicalDeviceProperties, the `queueFlags` of the queue families written by
vkGetPhysicalDeviceQueueFamilyProperties, and the answers of the two calls of
vkEnumerateDeviceExtensionProperties (result and count; result and the names
the driver has to write). -/
structure PhysicalDeviceInfo where
  deviceType : Nat
  queue_families : List Nat
  enumerate_count : VkResult × Nat
  enumerate_names : VkResult × List String
deriving DecidableEq, Repr

/-- The loop of `get_graphics_queue_family_index` over the queue families that
are left, `i` being the index of the first of them. -/
def get_graphics_queue_family_index_loop : List Nat → Nat → Int
  | [], _ => -1
  | queueFlags :: rest, i =>
    if queueFlags &&& VK_QUEUE_GRAPHICS_BIT ≠ 0 then (i : Int)
    else get_graphics_queue_family_index_loop rest (i + 1)

/-- The function `get_graphics_queue_family_index`. -/
def get_graphics_queue_family_index (device : PhysicalDeviceInfo) : Int :=
  get_graphics_queue_family_index_loop device.queue_families 0

/-- The array `available_extensions` of `score_physical_device` after the second
vkEnumerateDeviceExtensionProperties: its capacity is the count of the first
call, and the second call writes at most that many names and stores their
number in `n_available_extensions`. -/
def available_extensions (device : PhysicalDeviceInfo) : List String :=
  device.enumerate_names.2.take device.enumerate_count.2

/-- The inner loop of the extension check: whether `strcmp` finds `name` among
the available names. -/
def extension_found (available : List String) (name : String) : Bool :=
  available.any (fun a => decide (a = name))

/-- The outer loop of the extension check of `score_physical_device` over the
NULL-terminated list of required names: `false` when it reaches `return 0`. -/
def required_extensions_found (available : List String) : List String → Bool
  | [] => true
  | name :: rest =>
    if extension_found available name then required_extensions_found available rest else false

/-- The function `score_physical_device` (its diagnostics apart). -/
def score_physical_device (device : PhysicalDeviceInfo) (required_device_extensions : List String) :
    Int :=
  let score : Int :=
    if device.deviceType = VK_PHYSICAL_DEVICE_TYPE_DISCRETE_GPU then 1 + 15
    else if device.deviceType = VK_PHYSICAL_DEVICE_TYPE_INTEGRATED_GPU then 1 + 10
    else 1
  if get_graphics_queue_family_index device = -1 then 0
  else if device.enumerate_count.1 ≠ 0 then 0
  else if device.enumerate_names.1 ≠ 0 then 0
  else if required_extensions_found (available_extensions device) required_device_extensions
  then score
  else 0

/-- The device selection loop of `vkdev_new` (lines 360-370) over the physical
devices that are left; the accumulator is (`best_device`, `score`). -/
def vkdev_new_best_device (required_device_extensions : List String) :
    List (Nat × PhysicalDeviceInfo) → Nat × Int → Nat × Int
  | [], acc => acc
  | (this, info) :: rest, (best_device, score) =>
    if score_physical_device info required_device_extensions > score then
      vkdev_new_best_device required_device_extensions rest
        (this, score_physical_device info required_device_extensions)
    else vkdev_new_best_device required_device_extensions rest (best_device, score)

/-- Lines 360-375 of `vkdev_new`: the physical device it goes on with, or `none`
when it takes the `goto fail_maybe_destroy_messenger` of line 374.
`physical_devices` pairs each enumerated handle with what the backend answers
about it. -/
def vkdev_new_select_device (physical_devices : List (Nat × PhysicalDeviceInfo))
    (required_device_extensions : List String) : Option Nat :=
  let r := vkdev_new_best_device required_device_extensions physical_devices (VK_NULL_HANDLE, 0)
  if r.1 = VK_NULL_HANDLE then none else some r.1

/-- A discrete GPU with a graphics queue family and two extensions. -/
def device_discrete : PhysicalDeviceInfo :=
  ⟨VK_PHYSICAL_DEVICE_TYPE_DISCRETE_GPU, [4, 1], (0, 2),
   (0, ["VK_KHR_external_memory", "VK_KHR_external_memory_fd"])⟩

/-- An integrated GPU with a graphics queue family and two extensions. -/
def device_integrated : PhysicalDeviceInfo :=
  ⟨VK_PHYSICAL_DEVICE_TYPE_INTEGRATED_GPU, [1], (0, 2),
   (0, ["VK_KHR_external_memory", "VK_KHR_external_memory_fd"])⟩

/-- A discrete GPU without a graphics queue family. -/
def device_compute_only : PhysicalDeviceInfo :=
  ⟨VK_PHYSICAL_DEVICE_TYPE_DISCRETE_GPU, [2, 4], (0, 2),
   (0, ["VK_KHR_external_memory", "VK_KHR_external_memory_fd"])⟩

/-! ## vulkan2.c : the mode selection of create_and_configure_drmdev -/

/-- The flag `DRM_MODE_TYPE_PREFERRED` of drm_mode.h. -/
def DRM_MODE_TYPE_PREFERRED : Nat := 8

/-- The flag `DRM_MODE_FLAG_INTERLACE` of drm_mode.h. -/
def DRM_MODE_FLAG_INTERLACE : Nat := 16

/-- The fields of `drmModeModeInfo` that the mode selection reads (`hdisplay`
and `vdisplay` are uint16_t, the others uint32_t); `clock` tells modes apart. -/
structure drmModeModeInfo where
  clock : Nat
  hdisplay : Nat
  vdisplay : Nat
  vrefresh : Nat
  flags : Nat
  type : Nat
deriving DecidableEq, Repr

/-- The value of a C `int` expression whose mathematical value is `x`: the
32-bit two's complement result (signed overflow is undefined in C; this is what
the usual targets compute). -/
def to_int32 (x : Int) : Int :=
  (x + 2147483648) % 4294967296 - 2147483648

/-- The mode selection loop of `create_and_configure_drmdev` (lines 1783-1800)
over the modes that `for_each_mode_in_connector` still has to yield; `mode` is
the variable of that name (`none` for NULL). -/
def select_mode_loop : List drmModeModeInfo → Option drmModeModeInfo → Option drmModeModeInfo
  | [], mode => mode
  | mode_iter :: rest, mode =>
    if mode_iter.type &&& DRM_MODE_TYPE_PREFERRED ≠ 0 then some mode_iter
    else
      match mode with
      | none => select_mode_loop rest (some mode_iter)
      | some old =>
        let area : Int := to_int32 ((mode_iter.hdisplay : Int) * (mode_iter.vdisplay : Int))
        let old_area : Int := to_int32 ((old.hdisplay : Int) * (old.vdisplay : Int))
        if area > old_area ∨
            (area = old_area ∧ mode_iter.vrefresh > old.vrefresh) ∨
            (area = old_area ∧ mode_iter.vrefresh = old.vrefresh ∧
              old.flags &&& DRM_MODE_FLAG_INTERLACE = 0) then
          select_mode_loop rest (some mode_iter)
        else select_mode_loop rest (some old)

/-- The mode that `create_and_configure_drmdev` selects among the modes of the
connector, in the order in which `for_each_mode_in_connector` yields them. -/
def select_mode (modes : List drmModeModeInfo) : Option drmModeModeInfo :=
  select_mode_loop modes none

/-- A progressive mode 1920x1080 at 60 Hz. -/
def mode_1080p60 : drmModeModeInfo := ⟨148500, 1920, 1080, 60, 5, 64⟩

/-- An interlaced mode 1920x1080 at 60 Hz. -/
def mode_1080i60 : drmModeModeInfo := ⟨74250, 1920, 1080, 60, 21, 64⟩

/-- A progressive mode 1280x720 at 60 Hz. -/
def mode_720p60 : drmModeModeInfo := ⟨74250, 1280, 720, 60, 5, 64⟩

/-- A progressive mode 1920x1080 at 50 Hz. -/
def mode_1080p50 : drmModeModeInfo := ⟨148500, 1920, 1080, 50, 5, 64⟩

/-! ## vulkan2.c : the layer lists of vkdev_new -/

/-- The inner loop of the layer lookup of `vkdev_new`: whether `strcmp` finds
`name` among the names of `available_layers`. -/
def layer_available (available_layers : List String) (name : String) : Bool :=
  available_layers.any (fun a => decide (a = name))

/-- The loop of `vkdev_new` over `required_layers` (lines 204-216), for the names
that are left (a NULL pointer is as an empty list).  The state is `n_layers`
and the writes made to the array `layers` so far, each with the index
`n_layers` it was made at.  The result is the state when the loop is left and
whether it ran to its end: `false` stands for the `return NULL` of line 212,
which the writes made before it precede. -/
def vkdev_new_required_layers (available_layers : List String) :
    List String → Nat × List (Nat × String) → (Nat × List (Nat × String)) × Bool
  | [], s => (s, true)
  | name :: rest, (n_layers, writes) =>
    if layer_available available_layers name then
      vkdev_new_required_layers available_layers rest
        (n_layers + 1, writes ++ [(n_layers, name)])
    else ((n_layers, writes), false)

/-- The loop of `vkdev_new` over `optional_layers` (lines 218-231), for the names
that are left; a name that is not available is only reported. -/
def vkdev_new_optional_layers (available_layers : List String) :
    List String → Nat × List (Nat × String) → Nat × List (Nat × String)
  | [], s => s
  | name :: rest, (n_layers, writes) =>
    if layer_available available_layers name then
      vkdev_new_optional_layers available_layers rest (n_layers + 1, writes ++ [(n_layers, name)])
    else vkdev_new_optional_layers available_layers rest (n_layers, writes)

/-- Lines 202-231 of `vkdev_new`: `n_layers` and the writes made to the array
`layers`, whose capacity is `n_available_layers`, the length of
`available_layers`, and whether control goes on after line 231 (`false` when
the function returns NULL at line 212). -/
def vkdev_new_layers (available_layers required_layers optional_layers : List String) :
    (Nat × List (Nat × String)) × Bool :=
  if (vkdev_new_required_layers available_layers required_layers (0, [])).2 then
    (vkdev_new_optional_layers available_layers optional_layers
      (vkdev_new_required_layers available_layers required_layers (0, [])).1, true)
  else ((vkdev_new_required_layers available_layers required_layers (0, [])).1, false)

/-! ## vulkan.c : output_vulkan_setup -/

/-- The modifier `DRM_FORMAT_MOD_BROADCOM_UIF` of drm_fourcc.h. -/
def DRM_FORMAT_MOD_BROADCOM_UIF : Nat := 0x0700000000000001

/-- The result `VK_ERROR_FORMAT_NOT_SUPPORTED` of the Vulkan headers. -/
def VK_ERROR_FORMAT_NOT_SUPPORTED : VkResult := -11

/-- The flag `VK_EXTERNAL_MEMORY_FEATURE_IMPORTABLE_BIT` of the Vulkan headers. -/
def VK_EXTERNAL_MEMORY_FEATURE_IMPORTABLE_BIT : Nat := 4

/-- The fields of `struct output` (declared in kms-quads.h) that
`output_vulkan_setup` assigns or reads; `modifiers` is the array the pointer of
that name points to. -/
structure output where
  explicit_fencing : Bool
  num_modifiers : Nat
  modifiers : List Nat
deriving DecidableEq, Repr

/-- The loop of `output_vulkan_setup` (lines 925-953) over the modifiers that are
left; `smods` holds the modifiers stored so far (`smod_count` is its length).
`query mod` is what vkGetPhysicalDeviceImageFormatProperties2 answers for the
modifier: its result and `externalMemoryFeatures`.  `none` stands for the
`return false` after `vk_error`. -/
def output_vulkan_setup_loop (query : Nat → VkResult × Nat) :
    List Nat → List Nat → Option (List Nat)
  | [], smods => some smods
  | mod :: rest, smods =>
    if mod ≠ DRM_FORMAT_MOD_LINEAR ∧ mod ≠ DRM_FORMAT_MOD_BROADCOM_UIF then
      output_vulkan_setup_loop query rest smods
    else if (query mod).1 = VK_ERROR_FORMAT_NOT_SUPPORTED then
      output_vulkan_setup_loop query rest smods
    else if (query mod).1 ≠ VK_SUCCESS then none
    else if (query mod).2 &&& VK_EXTERNAL_MEMORY_FEATURE_IMPORTABLE_BIT = 0 then
      output_vulkan_setup_loop query rest smods
    else output_vulkan_setup_loop query rest (smods ++ [mod])

/-- The function `output_vulkan_setup` (its diagnostics apart): what it returns
and the output afterwards.  `output->device->vk_device` is not NULL
(`assert(vk_dev)`) and `calloc` succeeds (`assert(smods)`). -/
def output_vulkan_setup (out : output) (query : Nat → VkResult × Nat) : Bool × output :=
  let out1 : output := { out with explicit_fencing := true }
  if out.num_modifiers = 0 then (false, out1)
  else
    match output_vulkan_setup_loop query (out.modifiers.take out.num_modifiers) [] with
    | none => (false, out1)
    | some smods =>
      if smods.length = 0 then (false, out1)
      else (true, { out1 with num_modifiers := smods.length, modifiers := smods })

/-- Whether `output_vulkan_setup` keeps a modifier: it is LINEAR or BROADCOM_UIF,
the format query for it succeeds, and the importable feature bit is set. -/
def modifier_supported (query : Nat → VkResult × Nat) (mod : Nat) : Bool :=
  (decide (mod = DRM_FORMAT_MOD_LINEAR) || decide (mod = DRM_FORMAT_MOD_BROADCOM_UIF)) &&
    decide ((query mod).1 = VK_SUCCESS) &&
    decide ((query mod).2 &&& VK_EXTERNAL_MEMORY_FEATURE_IMPORTABLE_BIT ≠ 0)

/-- A physical device that can import LINEAR images only: BROADCOM_UIF is not
supported, every other modifier is answered with VK_SUCCESS and no feature. -/
def query_linear_only (mod : Nat) : VkResult × Nat :=
  if mod = DRM_FORMAT_MOD_LINEAR then (VK_SUCCESS, 7)
  else if mod = DRM_FORMAT_MOD_BROADCOM_UIF then (VK_ERROR_FORMAT_NOT_SUPPORTED, 0)
  else (VK_SUCCESS, 0)

/-- An output with three modifiers, the second of them LINEAR. -/
def output_three_modifiers : output :=
  ⟨false, 3, [DRM_FORMAT_MOD_BROADCOM_UIF, DRM_FORMAT_MOD_LINEAR, 0x0100000000000001]⟩

/-! ## vulkan2.c : the slot loop of vkkmscube_new -/

/-- Calls issued by the slot loop of `vkkmscube_new` (lines 1937-2011), with their
results; the device, pool and size arguments are left out, as are the reads of
the buffer object that feed drmModeAddFB2WithModifiers.  The argument of a
release call is the value of the C variable it is given: `none` when that
variable has not been assigned since the start of the loop pass
(an indeterminate value). -/
inductive CubeCall where
  | log (msg : String)
  | vk_kms_image_new (img : Nat)
  | drmModeAddFB2WithModifiers (img : Nat) (ok : Int) (fb_id : Nat)
  | pipeline_fb_new (img : Nat) (fb : Nat)
  | cube_gpu_buffer_new (gpubuf : Nat)
  | cube_pipeline_record (fb : Nat) (gpubuf : Nat) (cmdbuf : Nat)
  | vkFreeCommandBuffers (cmdbuf : Option Nat)
  | cube_gpu_buffer_destroy (gpubuf : Option Nat)
  | pipeline_fb_destroy (fb : Option Nat)
  | drmModeRmFB (fb_id : Option Nat)
  | vk_kms_image_destroy (img : Option Nat)
deriving DecidableEq, Repr

/-- Answers of the backends to the five creation calls of one pass of the slot
loop: a pointer or handle (0 for NULL), and for drmModeAddFB2WithModifiers the
result and the id it stores on success. -/
structure SlotEnv where
  vk_kms_image_new : Nat
  drmModeAddFB2WithModifiers : Int × Nat
  pipeline_fb_new : Nat
  cube_gpu_buffer_new : Nat
  cube_pipeline_record : Nat
deriving DecidableEq, Repr

/-- One pass of the body of the slot loop up to `fail_destroy_previous`: the
calls it issues, the entry of `cube->images[i]` it fills (`none` when the pass
has jumped to a failure label), and the value the local `gpubuf` has
afterwards (`none` when it was never assigned in this pass). -/
def vkkmscube_new_slot (env : SlotEnv) : List CubeCall × Option cube_image × Option Nat :=
  let img := env.vk_kms_image_new
  let fb_id := env.drmModeAddFB2WithModifiers.2
  let fb := env.pipeline_fb_new
  let gpubuf := env.cube_gpu_buffer_new
  let cmdbuf := env.cube_pipeline_record
  let c1 := CubeCall.vk_kms_image_new img
  let c2 := CubeCall.drmModeAddFB2WithModifiers img env.drmModeAddFB2WithModifiers.1 fb_id
  let c3 := CubeCall.pipeline_fb_new img fb
  let c4 := CubeCall.cube_gpu_buffer_new gpubuf
  let c5 := CubeCall.cube_pipeline_record fb gpubuf cmdbuf
  if img = 0 then
    ([c1, CubeCall.log "Couldn't create KMS image."], none, none)
  else if env.drmModeAddFB2WithModifiers.1 < 0 then
    ([c1, c2, CubeCall.log "Couldn't add GBM BO as kms image.",
      CubeCall.pipeline_fb_destroy none, CubeCall.drmModeRmFB none,
      CubeCall.vk_kms_image_destroy (some img)], none, none)
  else if fb = 0 then
    ([c1, c2, c3, CubeCall.log "Couldn't import KMS FB into pipeline.",
      CubeCall.vk_kms_image_destroy (some img)], none, none)
  else if gpubuf = 0 then
    ([c1, c2, c3, c4, CubeCall.log "Couldn't create a UBO/vertex buffer.",
      CubeCall.pipeline_fb_destroy (some fb), CubeCall.drmModeRmFB (some fb_id),
      CubeCall.vk_kms_image_destroy (some img)], none, some gpubuf)
  else if cmdbuf = VK_NULL_HANDLE then
    ([c1, c2, c3, c4, c5, CubeCall.log "Couldn't record rendering commands.",
      CubeCall.cube_gpu_buffer_destroy (some gpubuf),
      CubeCall.pipeline_fb_destroy (some fb), CubeCall.drmModeRmFB (some fb_id),
      CubeCall.vk_kms_image_destroy (some img)], none, some gpubuf)
  else
    ([c1, c2, c3, c4, c5], some ⟨img, fb, cmdbuf, fb_id, gpubuf⟩, some gpubuf)

/-- The loop at `fail_destroy_previous` (lines 2003-2009) over the slots created
before; `gpubuf` is the value of the local of that name. -/
def vkkmscube_new_destroy_previous (gpubuf : Option Nat) : List cube_image → List CubeCall
  | [] => []
  | prev :: rest =>
    [CubeCall.cube_gpu_buffer_destroy gpubuf,
     CubeCall.vkFreeCommandBuffers (some prev.cmdbuf),
     CubeCall.pipeline_fb_destroy (some prev.fb),
     CubeCall.drmModeRmFB (some prev.fb_id),
     CubeCall.vk_kms_image_destroy (some prev.image)]
      ++ vkkmscube_new_destroy_previous gpubuf rest

/-- The slot loop with `n` passes to go; `images` holds the entries
`cube->images[0..i-1]` filled so far and `envs i` the answers for pass `i`.
The result is `none` when control has reached `goto fail_destroy_gbm_device`. -/
def vkkmscube_new_images_from (envs : Nat → SlotEnv) :
    Nat → List cube_image → List CubeCall × Option (List cube_image)
  | 0, images => ([], some images)
  | n + 1, images =>
    match vkkmscube_new_slot (envs images.length) with
    | (t, some entry, _) =>
      (t ++ (vkkmscube_new_images_from envs n (images ++ [entry])).1,
       (vkkmscube_new_images_from envs n (images ++ [entry])).2)
    | (t, none, gpubuf) => (t ++ vkkmscube_new_destroy_previous gpubuf images, none)

/-- Lines 1937-2011 of `vkkmscube_new`: the loop `for (int i = 0; i < 4; i++)`. -/
def vkkmscube_new_images (envs : Nat → SlotEnv) : List CubeCall × Option (List cube_image) :=
  vkkmscube_new_images_from envs 4 []

/-- Answers of a pass for slot `i` in which every creation succeeds; the
resources of slot `i` are numbered from `10 * i + 1` on. -/
def slot_env_success (i : Nat) : SlotEnv :=
  ⟨10 * i + 1, (0, 10 * i + 2), 10 * i + 3, 10 * i + 4, 10 * i + 5⟩

/-- Answers in which slot 0 is created and cube_pipeline_record fails for slot 1. -/
def slot_envs_record_fails (i : Nat) : SlotEnv :=
  if i = 1 then { slot_env_success 1 with cube_pipeline_record := VK_NULL_HANDLE }
  else slot_env_success i

/-- Answers in which pipeline_fb_new fails for slot 0. -/
def slot_envs_fb_fails (i : Nat) : SlotEnv :=
  if i = 0 then { slot_env_success 0 with pipeline_fb_new := 0 } else slot_env_success i

/-- Answers in which drmModeAddFB2WithModifiers fails for slot 0. -/
def slot_envs_add_fb_fails (i : Nat) : SlotEnv :=
  if i = 0 then { slot_env_success 0 with drmModeAddFB2WithModifiers := (-1, 0) }
  else slot_env_success i

/-! ## Lemmas on the loop -/

theorem loop_iteration_of_ok (cube : vkkmscube) (fence i : Nat) (r : IterResp)
    (h : iter_ok r = true) :
    loop_iteration cube fence i r = (frame_events cube fence i r.drmModeSetCrtc, true) := by
  simp only [iter_ok, gpu_ok, Bool.and_eq_true, decide_eq_true_eq, Bool.not_eq_true',
    decide_eq_false_iff_not] at h
  obtain ⟨⟨⟨h1, h2⟩, h3⟩, h4⟩ := h
  simp [loop_iteration, frame_events, h1, h2, h3, h4]

theorem loop_iteration_of_not_ok (cube : vkkmscube) (fence i : Nat) (r : IterResp)
    (h : iter_ok r = false) :
    (loop_iteration cube fence i r).2 = false := by
  unfold loop_iteration
  split_ifs with h1 h2 h3 h4 <;> simp_all [iter_ok, gpu_ok]

theorem loop_from_cons_ok (cube : vkkmscube) (fence i : Nat) (r : IterResp) (rs : List IterResp)
    (h : iter_ok r = true) :
    loop_from cube fence i (r :: rs) =
      (frame_events cube fence i r.drmModeSetCrtc ++ (loop_from cube fence ((i + 1) % 4) rs).1,
       (loop_from cube fence ((i + 1) % 4) rs).2) := by
  simp [loop_from, loop_iteration_of_ok cube fence i r h]

theorem loop_from_cons_not_ok (cube : vkkmscube) (fence i : Nat) (r : IterResp)
    (rs : List IterResp) (h : iter_ok r = false) :
    loop_from cube fence i (r :: rs) = ((loop_iteration cube fence i r).1, LoopStatus.exited) := by
  simp [loop_from, loop_iteration_of_not_ok cube fence i r h]

/-- In a pass that leaves the loop, a drmModeSetCrtc call is preceded by the
update, the successful submission, wait and reset of the same slot. -/
theorem failing_iteration_commit (cube : vkkmscube) (fence i : Nat) (r : IterResp)
    (h : iter_ok r = false) (pre post : List LoopEv)
    (j : Nat) (fd : Int) (crtc fb conn mode : Nat) (ok : Int)
    (hd : (loop_iteration cube fence i r).1 =
      pre ++ LoopEv.drmModeSetCrtc j fd crtc fb conn mode ok :: post) :
    fb = (cube.images j).fb_id ∧
    pre = [LoopEv.cube_gpu_buffer_update_transforms j (cube.images j).gpubuf,
           LoopEv.vkQueueSubmit j [] [(cube.images j).cmdbuf] [] fence VK_SUCCESS,
           LoopEv.vkWaitForFences fence VK_SUCCESS,
           LoopEv.vkResetFences fence VK_SUCCESS] := by
  unfold loop_iteration at hd
  split_ifs at hd with h1 h2 h3 h4
  all_goals
    rcases pre with _ | ⟨p0, _ | ⟨p1, _ | ⟨p2, _ | ⟨p3, _ | ⟨p4, _ | ⟨p5, pre⟩⟩⟩⟩⟩⟩ <;>
      simp at hd
  · obtain ⟨rfl, rfl, rfl, rfl, ⟨rfl, -, -, rfl, -⟩, -⟩ := hd
    simp_all
  · simp_all [iter_ok, gpu_ok]

/-- In a complete pass, the drmModeSetCrtc call is the fifth call. -/
theorem frame_events_commit (cube : vkkmscube) (fence i : Nat) (ok0 : Int)
    (pre post : List LoopEv)
    (j : Nat) (fd : Int) (crtc fb conn mode : Nat) (ok : Int)
    (hd : frame_events cube fence i ok0 =
      pre ++ LoopEv.drmModeSetCrtc j fd crtc fb conn mode ok :: post) :
    fb = (cube.images j).fb_id ∧
    pre = [LoopEv.cube_gpu_buffer_update_transforms j (cube.images j).gpubuf,
           LoopEv.vkQueueSubmit j [] [(cube.images j).cmdbuf] [] fence VK_SUCCESS,
           LoopEv.vkWaitForFences fence VK_SUCCESS,
           LoopEv.vkResetFences fence VK_SUCCESS] := by
  unfold frame_events at hd
  rcases pre with _ | ⟨p0, _ | ⟨p1, _ | ⟨p2, _ | ⟨p3, _ | ⟨p4, _ | ⟨p5, pre⟩⟩⟩⟩⟩⟩ <;>
    simp at hd
  obtain ⟨rfl, rfl, rfl, rfl, ⟨rfl, -, -, rfl, -⟩, -⟩ := hd
  simp

theorem loop_from_commit (cube : vkkmscube) (fence : Nat) (rs : List IterResp) :
    ∀ (i : Nat) (pre post : List LoopEv)
      (j : Nat) (fd : Int) (crtc fb conn mode : Nat) (ok : Int),
      (loop_from cube fence i rs).1 =
        pre ++ LoopEv.drmModeSetCrtc j fd crtc fb conn mode ok :: post →
      fb = (cube.images j).fb_id ∧
      ∃ pre0, pre = pre0 ++
          [LoopEv.cube_gpu_buffer_update_transforms j (cube.images j).gpubuf,
           LoopEv.vkQueueSubmit j [] [(cube.images j).cmdbuf] [] fence VK_SUCCESS,
           LoopEv.vkWaitForFences fence VK_SUCCESS,
           LoopEv.vkResetFences fence VK_SUCCESS] := by
  induction rs with
  | nil => intro i pre post j fd crtc fb conn mode ok h; simp [loop_from] at h
  | cons r rs ih =>
    intro i pre post j fd crtc fb conn mode ok h
    cases hok : iter_ok r with
    | false =>
      rw [loop_from_cons_not_ok cube fence i r rs hok] at h
      obtain ⟨h1, h2⟩ := failing_iteration_commit cube fence i r hok pre post j fd crtc fb conn
        mode ok h
      exact ⟨h1, [], by simpa using h2⟩
    | true =>
      rw [loop_from_cons_ok cube fence i r rs hok] at h
      rcases List.append_eq_append_iff.mp h with ⟨a, ha, hb⟩ | ⟨c, hc, hd⟩
      · obtain ⟨h1, pre0, h2⟩ := ih _ a post j fd crtc fb conn mode ok hb
        refine ⟨h1, frame_events cube fence i r.drmModeSetCrtc ++ pre0, ?_⟩
        rw [ha, h2, List.append_assoc]
      · rcases c with _ | ⟨x, c⟩
        · simp only [List.nil_append] at hd
          obtain ⟨h1, pre0, h2⟩ := ih _ [] post j fd crtc fb conn mode ok (by simpa using hd.symm)
          simp at h2
        · simp only [List.cons_append, List.cons.injEq] at hd
          obtain ⟨rfl, -⟩ := hd
          obtain ⟨h1, h2⟩ := frame_events_commit cube fence i _ pre c j fd crtc fb conn mode ok hc
          exact ⟨h1, [], by simpa using h2⟩

/-- C1: in every execution of vkkmscube_loop, each drmModeSetCrtc call commits
the fb_id of the slot of its own pass and comes directly after, in that pass,
the vkQueueSubmit of that slot's command buffer signalling the loop fence, the
vkWaitForFences on that fence and the vkResetFences, all three having returned
VK_SUCCESS. -/
theorem commit_only_after_render_confirmed (cube : vkkmscube) (cf : VkResult × Nat)
    (rs : List IterResp) (pre post : List LoopEv)
    (j : Nat) (fd : Int) (crtc fb conn mode : Nat) (ok : Int)
    (h : (vkkmscube_loop cube cf rs).1 =
      pre ++ LoopEv.drmModeSetCrtc j fd crtc fb conn mode ok :: post) :
    fb = (cube.images j).fb_id ∧
    ∃ pre0, pre = pre0 ++
      [LoopEv.cube_gpu_buffer_update_transforms j (cube.images j).gpubuf,
       LoopEv.vkQueueSubmit j [] [(cube.images j).cmdbuf] [] cf.2 VK_SUCCESS,
       LoopEv.vkWaitForFences cf.2 VK_SUCCESS,
       LoopEv.vkResetFences cf.2 VK_SUCCESS] := by
  unfold vkkmscube_loop at h
  split_ifs at h with hcf
  · rcases pre with _ | ⟨p0, _ | ⟨p1, _ | ⟨p2, pre⟩⟩⟩ <;> simp at h
  · simp only at h
    rcases List.append_eq_append_iff.mp h with ⟨a, ha, hb⟩ | ⟨c, hc, hd⟩
    · obtain ⟨h1, pre0, h2⟩ := loop_from_commit cube cf.2 rs 0 a post j fd crtc fb conn mode ok hb
      refine ⟨h1, [LoopEv.vkCreateFence 0 cf.1 cf.2, LoopEv.gettimeofday, LoopEv.log "looping"]
        ++ pre0, ?_⟩
      rw [ha, h2, List.append_assoc]
    · rcases c with _ | ⟨x, c⟩
      · simp only [List.nil_append] at hd
        obtain ⟨h1, pre0, h2⟩ := loop_from_commit cube cf.2 rs 0 [] post j fd crtc fb conn mode ok
          (by simpa using hd.symm)
        simp at h2
      · simp only [List.cons_append, List.cons.injEq] at hd
        obtain ⟨rfl, -⟩ := hd
        rcases pre with _ | ⟨p0, _ | ⟨p1, _ | ⟨p2, _ | ⟨p3, pre⟩⟩⟩⟩ <;> simp at hc

/-- In any pass, the vkQueueSubmit call is the second call, after the update. -/
theorem loop_iteration_submit (cube : vkkmscube) (fence i : Nat) (r : IterResp)
    (pre post : List LoopEv) (j : Nat) (ws cbs ss : List Nat) (f : Nat) (res : VkResult)
    (hd : (loop_iteration cube fence i r).1 =
      pre ++ LoopEv.vkQueueSubmit j ws cbs ss f res :: post) :
    pre = [LoopEv.cube_gpu_buffer_update_transforms i (cube.images i).gpubuf] ∧ j = i
      ∧ f = fence := by
  unfold loop_iteration at hd
  split_ifs at hd with h1 h2 h3 h4
  all_goals
    rcases pre with _ | ⟨p0, _ | ⟨p1, _ | ⟨p2, _ | ⟨p3, _ | ⟨p4, _ | ⟨p5, pre⟩⟩⟩⟩⟩⟩ <;>
      simp at hd
  all_goals
    obtain ⟨rfl, ⟨rfl, -, -, -, rfl, -⟩, -⟩ := hd
    simp

theorem in_flight_step_frame_events (cube : vkkmscube) (fence i : Nat) (ok : Int)
    (t : List LoopEv) :
    (frame_events cube fence i ok ++ t).foldl in_flight_step [] = t.foldl in_flight_step [] := by
  simp [frame_events, in_flight_step]

theorem loop_from_submit (cube : vkkmscube) (fence : Nat) (rs : List IterResp) :
    ∀ (i : Nat) (pre post : List LoopEv) (j : Nat) (ws cbs ss : List Nat) (f : Nat)
      (res : VkResult),
      (loop_from cube fence i rs).1 = pre ++ LoopEv.vkQueueSubmit j ws cbs ss f res :: post →
      in_flight pre = [] ∧ f = fence ∧
      ((pre = [LoopEv.cube_gpu_buffer_update_transforms i (cube.images i).gpubuf] ∧ j = i) ∨
       ∃ pre0 i0 ok0 g,
        pre = pre0 ++
          [LoopEv.vkQueueSubmit i0 [] [(cube.images i0).cmdbuf] [] fence VK_SUCCESS,
           LoopEv.vkWaitForFences fence VK_SUCCESS,
           LoopEv.vkResetFences fence VK_SUCCESS,
           LoopEv.drmModeSetCrtc i0 cube.drm_fd cube.crtc_id (cube.images i0).fb_id
             cube.connector_id cube.selected_mode ok0,
           LoopEv.cube_gpu_buffer_update_transforms j g]) := by
  induction rs with
  | nil => intro i pre post j ws cbs ss f res h; simp [loop_from] at h
  | cons r rs ih =>
    intro i pre post j ws cbs ss f res h
    cases hok : iter_ok r with
    | false =>
      rw [loop_from_cons_not_ok cube fence i r rs hok] at h
      obtain ⟨h2, h3, h4⟩ := loop_iteration_submit cube fence i r pre post j ws cbs ss f res h
      subst h2
      exact ⟨by simp [in_flight, in_flight_step], h4, Or.inl ⟨rfl, h3⟩⟩
    | true =>
      have hit := loop_iteration_of_ok cube fence i r hok
      rw [loop_from_cons_ok cube fence i r rs hok] at h
      rcases List.append_eq_append_iff.mp h with ⟨a, ha, hb⟩ | ⟨c, hc, hd⟩
      · obtain ⟨h1, hf, h2⟩ := ih _ a post j ws cbs ss f res hb
        subst ha
        refine ⟨?_, hf, Or.inr ?_⟩
        · unfold in_flight at h1 ⊢
          rw [in_flight_step_frame_events, h1]
        · rcases h2 with h2 | ⟨pre0, i0, ok0, g, h2⟩
          · obtain ⟨h2, hj⟩ := h2
            subst h2
            exact ⟨[LoopEv.cube_gpu_buffer_update_transforms i (cube.images i).gpubuf], i,
              r.drmModeSetCrtc, (cube.images ((i + 1) % 4)).gpubuf, by simp [frame_events, hj]⟩
          · exact ⟨frame_events cube fence i r.drmModeSetCrtc ++ pre0, i0, ok0, g, by
              rw [h2, List.append_assoc]⟩
      · rcases c with _ | ⟨x, c⟩
        · simp only [List.nil_append] at hd
          simp only [List.append_nil] at hc
          obtain ⟨h1, -, h2⟩ := ih _ [] post j ws cbs ss f res (by simpa using hd.symm)
          simp at h2
        · simp only [List.cons_append, List.cons.injEq] at hd
          obtain ⟨rfl, -⟩ := hd
          have hfe : (loop_iteration cube fence i r).1 = frame_events cube fence i r.drmModeSetCrtc := by
            rw [hit]
          rw [← hfe] at hc
          obtain ⟨h2, h3, h4⟩ := loop_iteration_submit cube fence i r pre c j ws cbs ss f res hc
          subst h2
          exact ⟨by simp [in_flight, in_flight_step], h4, Or.inl ⟨rfl, h3⟩⟩

/-- C3: in every execution of vkkmscube_loop, no command buffer is in flight
when a vkQueueSubmit is issued (every earlier successful submission has been
retired by a successful vkWaitForFences on its fence), and every vkQueueSubmit
other than the first comes directly after the previous pass, whose
vkQueueSubmit and vkWaitForFences on the same fence both returned VK_SUCCESS. -/
theorem submit_only_after_previous_wait (cube : vkkmscube) (cf : VkResult × Nat)
    (rs : List IterResp) (pre post : List LoopEv)
    (j : Nat) (ws cbs ss : List Nat) (f : Nat) (res : VkResult)
    (h : (vkkmscube_loop cube cf rs).1 =
      pre ++ LoopEv.vkQueueSubmit j ws cbs ss f res :: post) :
    in_flight pre = [] ∧
    ((∃ e ∈ pre, e.is_submit = true) →
      ∃ pre0 i0 ok0 g,
        pre = pre0 ++
          [LoopEv.vkQueueSubmit i0 [] [(cube.images i0).cmdbuf] [] f VK_SUCCESS,
           LoopEv.vkWaitForFences f VK_SUCCESS,
           LoopEv.vkResetFences f VK_SUCCESS,
           LoopEv.drmModeSetCrtc i0 cube.drm_fd cube.crtc_id (cube.images i0).fb_id
             cube.connector_id cube.selected_mode ok0,
           LoopEv.cube_gpu_buffer_update_transforms j g]) := by
  unfold vkkmscube_loop at h
  split_ifs at h with hcf
  · rcases pre with _ | ⟨p0, _ | ⟨p1, _ | ⟨p2, pre⟩⟩⟩ <;> simp at h
  · simp only at h
    rcases List.append_eq_append_iff.mp h with ⟨a, ha, hb⟩ | ⟨c, hc, hd⟩
    · obtain ⟨h1, hf, h2⟩ := loop_from_submit cube cf.2 rs 0 a post j ws cbs ss f res hb
      subst ha
      refine ⟨?_, ?_⟩
      · unfold in_flight at h1 ⊢
        simpa [in_flight_step] using h1
      · intro hprev
        rcases h2 with ⟨h2, -⟩ | ⟨pre0, i0, ok0, g, h2⟩
        · subst h2
          simp [LoopEv.is_submit] at hprev
        · exact ⟨[LoopEv.vkCreateFence 0 cf.1 cf.2, LoopEv.gettimeofday, LoopEv.log "looping"]
            ++ pre0, i0, ok0, g, by rw [h2, hf, List.append_assoc]⟩
    · rcases c with _ | ⟨x, c⟩
      · simp only [List.nil_append] at hd
        obtain ⟨h1, -, h2⟩ := loop_from_submit cube cf.2 rs 0 [] post j ws cbs ss f res
          (by simpa using hd.symm)
        simp at h2
      · simp only [List.cons_append, List.cons.injEq] at hd
        obtain ⟨rfl, -⟩ := hd
        rcases pre with _ | ⟨p0, _ | ⟨p1, _ | ⟨p2, _ | ⟨p3, pre⟩⟩⟩⟩ <;> simp at hc

/-- Passes that all succeed contribute five calls each, one submission and one
commit among them, and leave the loop at the slot index advanced by their number. -/
theorem loop_from_append_ok (cube : vkkmscube) (fence : Nat) (pre : List IterResp) :
    ∀ (i : Nat) (rest : List IterResp), i < 4 → (∀ x ∈ pre, iter_ok x = true) →
      ∃ t : List LoopEv, t.length = 5 * pre.length ∧
        t.countP LoopEv.is_submit = pre.length ∧ t.countP LoopEv.is_commit = pre.length ∧
        loop_from cube fence i (pre ++ rest) =
          (t ++ (loop_from cube fence ((i + pre.length) % 4) rest).1,
           (loop_from cube fence ((i + pre.length) % 4) rest).2) := by
  induction pre with
  | nil =>
    intro i rest hi _
    refine ⟨[], rfl, rfl, rfl, ?_⟩
    simp [Nat.mod_eq_of_lt hi]
  | cons x pre ih =>
    intro i rest hi h
    have hx : iter_ok x = true := h x (List.mem_cons_self _ _)
    obtain ⟨t, h1, h2, h3, h4⟩ := ih ((i + 1) % 4) rest (Nat.mod_lt _ (by decide))
      (fun y hy => h y (List.mem_cons_of_mem _ hy))
    refine ⟨frame_events cube fence i x.drmModeSetCrtc ++ t, ?_, ?_, ?_, ?_⟩
    · simp [frame_events, h1]; omega
    · simp [frame_events, h2, LoopEv.is_submit, List.countP_cons]
    · simp [frame_events, h3, LoopEv.is_commit, List.countP_cons]
    · have e : ((i + 1) % 4 + pre.length) % 4 = (i + (x :: pre).length) % 4 := by
        simp only [List.length_cons]; omega
      rw [List.cons_append, loop_from_cons_ok cube fence i x _ hx, h4, e, List.append_assoc]

/-- Every event of the loop started at an index below 4 reads a slot below 4. -/
theorem loop_from_slot_lt (cube : vkkmscube) (fence : Nat) (rs : List IterResp) :
    ∀ i : Nat, i < 4 → ∀ e ∈ (loop_from cube fence i rs).1, ∀ s, e.slot = some s → s < 4 := by
  induction rs with
  | nil => intro i _ e he; simp [loop_from] at he
  | cons r rs ih =>
    intro i hi e he s hs
    have hbody0 : ∀ e ∈ (loop_iteration cube fence i r).1, ∀ s, e.slot = some s → s = i := by
      unfold loop_iteration
      split_ifs <;> simp [LoopEv.slot]
    have hbody : ∀ e ∈ (loop_iteration cube fence i r).1, ∀ s, e.slot = some s → s < 4 := by
      intro e he s hs
      rw [hbody0 e he s hs]
      exact hi
    cases hok : iter_ok r with
    | false =>
      rw [loop_from_cons_not_ok cube fence i r rs hok] at he
      exact hbody e he s hs
    | true =>
      have hit := loop_iteration_of_ok cube fence i r hok
      rw [loop_from_cons_ok cube fence i r rs hok] at he
      rcases List.mem_append.mp he with h1 | h1
      · exact hbody e (by rw [hit]; exact h1) s hs
      · exact ih _ (Nat.mod_lt _ (by decide)) e h1 s hs

/-- C2: in vkkmscube_loop the pass number k (counting from 0, reached when the
k passes before it succeeded) works on slot k mod 4: its update, its submitted
command buffer and, once the GPU calls succeeded, its committed framebuffer id
are those of images[k mod 4]; and every slot index used by the loop is below 4. -/
theorem loop_round_robin (cube : vkkmscube) (fence : Nat) (pre : List IterResp) (r : IterResp)
    (post : List IterResp) (hpre : ∀ x ∈ pre, iter_ok x = true) :
    (vkkmscube_loop cube (VK_SUCCESS, fence) (pre ++ r :: post)).1[3 + 5 * pre.length]? =
      some (LoopEv.cube_gpu_buffer_update_transforms (pre.length % 4)
        (cube.images (pre.length % 4)).gpubuf) ∧
    (vkkmscube_loop cube (VK_SUCCESS, fence) (pre ++ r :: post)).1[3 + 5 * pre.length + 1]? =
      some (LoopEv.vkQueueSubmit (pre.length % 4) [] [(cube.images (pre.length % 4)).cmdbuf] []
        fence r.vkQueueSubmit) ∧
    (gpu_ok r = true →
      (vkkmscube_loop cube (VK_SUCCESS, fence) (pre ++ r :: post)).1[3 + 5 * pre.length + 4]? =
        some (LoopEv.drmModeSetCrtc (pre.length % 4) cube.drm_fd cube.crtc_id
          (cube.images (pre.length % 4)).fb_id cube.connector_id cube.selected_mode
          r.drmModeSetCrtc)) ∧
    (∀ e ∈ (vkkmscube_loop cube (VK_SUCCESS, fence) (pre ++ r :: post)).1,
      ∀ s, e.slot = some s → s < 4) := by
  obtain ⟨t, h1, -, -, h4⟩ := loop_from_append_ok cube fence pre 0 (r :: post) (by decide) hpre
  have hlen : ([LoopEv.vkCreateFence 0 VK_SUCCESS fence, LoopEv.gettimeofday, LoopEv.log "looping"]
      ++ t).length = 3 + 5 * pre.length := by
    simp [h1]; omega
  have htr : (vkkmscube_loop cube (VK_SUCCESS, fence) (pre ++ r :: post)).1 =
      ([LoopEv.vkCreateFence 0 VK_SUCCESS fence, LoopEv.gettimeofday, LoopEv.log "looping"] ++ t)
        ++ (loop_from cube fence (pre.length % 4) (r :: post)).1 := by
    simp [vkkmscube_loop, h4]
  refine ⟨?_, ?_, ?_, ?_⟩
  · rw [htr, List.getElem?_append_right (by omega), hlen]
    unfold loop_from loop_iteration
    split_ifs <;> simp
  · rw [htr, List.getElem?_append_right (by omega), hlen]
    unfold loop_from loop_iteration
    split_ifs <;> simp
  · intro hg
    simp only [gpu_ok, Bool.and_eq_true, decide_eq_true_eq] at hg
    obtain ⟨⟨g1, g2⟩, g3⟩ := hg
    rw [htr, List.getElem?_append_right (by omega), hlen]
    unfold loop_from loop_iteration
    split_ifs <;> simp_all
  · intro e he s hs
    simp only [vkkmscube_loop] at he
    simp at he
    rcases he with rfl | rfl | rfl | he
    · simp [LoopEv.slot] at hs
    · simp [LoopEv.slot] at hs
    · simp [LoopEv.slot] at hs
    · exact loop_from_slot_lt cube fence _ 0 (by decide) e he s hs

/-- A pass issues exactly one submission, and a commit exactly when the three
GPU calls succeeded. -/
theorem loop_iteration_counts (cube : vkkmscube) (fence i : Nat) (r : IterResp) :
    (loop_iteration cube fence i r).1.countP LoopEv.is_submit = 1 ∧
    (loop_iteration cube fence i r).1.countP LoopEv.is_commit =
      (if gpu_ok r = true then 1 else 0) := by
  unfold loop_iteration
  split_ifs <;> simp_all [List.countP_cons, LoopEv.is_submit, LoopEv.is_commit, gpu_ok]

/-- Responses recorded after a failing pass are never consulted. -/
theorem loop_from_ignores_after_failure (cube : vkkmscube) (fence : Nat) (r : IterResp)
    (post : List IterResp) (hnot : iter_ok r = false) (pre : List IterResp) :
    ∀ i : Nat, loop_from cube fence i (pre ++ r :: post) = loop_from cube fence i (pre ++ [r]) := by
  induction pre with
  | nil =>
    intro i
    simp only [List.nil_append]
    rw [loop_from_cons_not_ok cube fence i r post hnot,
      loop_from_cons_not_ok cube fence i r [] hnot]
  | cons x pre ih =>
    intro i
    cases hx : iter_ok x with
    | false =>
      simp only [List.cons_append]
      rw [loop_from_cons_not_ok cube fence i x _ hx, loop_from_cons_not_ok cube fence i x _ hx]
    | true =>
      simp only [List.cons_append]
      rw [loop_from_cons_ok cube fence i x _ hx, loop_from_cons_ok cube fence i x _ hx, ih]

/-- C8: if in some pass of vkkmscube_loop one of vkQueueSubmit, vkWaitForFences,
vkResetFences returns a non-success result or drmModeSetCrtc fails, the loop
is left in that pass: whatever the backends would answer afterwards is never
asked for, the trace holds exactly one submission per pass up to the failing one
and no later one, one commit per earlier pass, and a commit call for the failing
pass only when its three GPU calls succeeded. -/
theorem loop_stops_at_failure (cube : vkkmscube) (fence : Nat) (pre : List IterResp)
    (r : IterResp) (post : List IterResp) (hpre : ∀ x ∈ pre, iter_ok x = true)
    (hr : r.vkQueueSubmit ≠ VK_SUCCESS ∨ r.vkWaitForFences ≠ VK_SUCCESS ∨
      r.vkResetFences ≠ VK_SUCCESS ∨ r.drmModeSetCrtc < 0) :
    (vkkmscube_loop cube (VK_SUCCESS, fence) (pre ++ r :: post)).2 = LoopStatus.exited ∧
    vkkmscube_loop cube (VK_SUCCESS, fence) (pre ++ r :: post) =
      vkkmscube_loop cube (VK_SUCCESS, fence) (pre ++ [r]) ∧
    (vkkmscube_loop cube (VK_SUCCESS, fence) (pre ++ r :: post)).1.countP LoopEv.is_submit =
      pre.length + 1 ∧
    (vkkmscube_loop cube (VK_SUCCESS, fence) (pre ++ r :: post)).1.countP LoopEv.is_commit =
      pre.length + (if r.vkQueueSubmit = VK_SUCCESS ∧ r.vkWaitForFences = VK_SUCCESS ∧
        r.vkResetFences = VK_SUCCESS then 1 else 0) := by
  have hnot : iter_ok r = false := by
    simp only [iter_ok, gpu_ok, Bool.and_eq_false_imp, Bool.and_eq_true, decide_eq_true_eq,
      Bool.not_eq_false', and_imp]
    intro h1 h2 h3
    rcases hr with h | h | h | h
    · exact absurd h1 h
    · exact absurd h2 h
    · exact absurd h3 h
    · exact h
  obtain ⟨t, -, h2, h3, h4⟩ := loop_from_append_ok cube fence pre 0 (r :: post) (by decide) hpre
  simp only [Nat.zero_add] at h4
  have e1 := loop_from_cons_not_ok cube fence (pre.length % 4) r post hnot
  obtain ⟨c1, c2⟩ := loop_iteration_counts cube fence (pre.length % 4) r
  have hg : (gpu_ok r = true) ↔ (r.vkQueueSubmit = VK_SUCCESS ∧ r.vkWaitForFences = VK_SUCCESS ∧
        r.vkResetFences = VK_SUCCESS) := by
    simp [gpu_ok, and_assoc]
  have htr : vkkmscube_loop cube (VK_SUCCESS, fence) (pre ++ r :: post) =
      ([LoopEv.vkCreateFence 0 VK_SUCCESS fence, LoopEv.gettimeofday, LoopEv.log "looping"] ++
        (t ++ (loop_iteration cube fence (pre.length % 4) r).1), LoopStatus.exited) := by
    simp [vkkmscube_loop, h4, e1]
  refine ⟨by rw [htr], ?_, ?_, ?_⟩
  · simp only [vkkmscube_loop]
    rw [loop_from_ignores_after_failure cube fence r post hnot pre 0]
  · rw [htr]
    simp [List.countP_cons, LoopEv.is_submit, h2, c1]
  · rw [htr]
    simp only [List.countP_append, c2, h3, hg]
    simp [List.countP_cons, LoopEv.is_commit]

/-! ## Lemmas on buffer_vk_fill -/

/-- Splitting a trace at an event that cannot occur in its first part. -/
theorem split_after {α : Type} (P : α → Prop) (t l pre post : List α) (x : α)
    (ht : ∀ e ∈ t, ¬ P e) (hx : P x) (h : t ++ l = pre ++ x :: post) :
    ∃ a, pre = t ++ a ∧ l = a ++ x :: post := by
  rcases List.append_eq_append_iff.mp h with ⟨a, ha, hb⟩ | ⟨c, hc, hd⟩
  · exact ⟨a, ha, hb⟩
  · rcases c with _ | ⟨y, c⟩
    · exact ⟨[], by simpa using hc.symm, by simpa using hd.symm⟩
    · simp only [List.cons_append, List.cons.injEq] at hd
      obtain ⟨rfl, -⟩ := hd
      exact absurd hx (ht x (by rw [hc]; simp))

/-- An event of a kind that occurs nowhere else in a trace determines the split. -/
theorem unique_split {α : Type} (P : α → Prop) (a b pre post : List α) (x y : α)
    (ha : ∀ e ∈ a, ¬ P e) (hb : ∀ e ∈ b, ¬ P e) (hy : P y)
    (h : a ++ x :: b = pre ++ y :: post) :
    pre = a ∧ y = x ∧ post = b := by
  obtain ⟨c, hc, hd⟩ := split_after P a (x :: b) pre post y ha hy h
  rcases c with _ | ⟨z, c⟩
  · simp only [List.nil_append, List.cons.injEq] at hd
    exact ⟨by simpa using hc, hd.1.symm, hd.2.symm⟩
  · simp only [List.cons_append, List.cons.injEq] at hd
    exact absurd hy (hb y (by rw [hd.2]; simp))

/-- An event of a kind that does not occur in a trace is not in it. -/
theorem no_split {α : Type} (P : α → Prop) (l pre post : List α) (y : α)
    (hl : ∀ e ∈ l, ¬ P e) (hy : P y) (h : l = pre ++ y :: post) : False :=
  hl y (by rw [h]; simp) hy

/-- Shape of the part of buffer_vk_fill up to vkCreateSemaphore: prologue calls
followed by the vkCreateSemaphore call; of the slot only `first` and
`render_semaphore` change. -/
theorem buffer_vk_fill_begin_shape (img : vk_image) (frame_num : Int) (env : FillEnv) :
    ∃ t0 : List Call, (∀ e ∈ t0, e.is_prologue = true) ∧
      (buffer_vk_fill_begin img frame_num env).1 =
        t0 ++ [Call.vkCreateSemaphore VK_EXTERNAL_SEMAPHORE_HANDLE_TYPE_OPAQUE_FD_BIT
                env.vkCreateSemaphore.1 env.vkCreateSemaphore.2] ∧
      (buffer_vk_fill_begin img frame_num env).2 =
        { img with first := false, render_semaphore := env.vkCreateSemaphore.2 } := by
  refine ⟨Call.ubo_write img.ubo_map frame_num ::
    (if ¬ img.first then
      [Call.vkGetFenceStatus img.render_fence env.vkGetFenceStatus]
        ++ (if env.vkGetFenceStatus ≠ VK_SUCCESS then [Call.log "Invalid render_fence status"]
            else [])
        ++ [Call.vkResetFences img.render_fence env.vkResetFences]
        ++ (if env.vkResetFences ≠ VK_SUCCESS then [Call.log "vkResetFences"] else [])
    else []) ++
    (if (if ¬ img.first then img else { img with first := false }).buffer_semaphore
        ≠ VK_NULL_HANDLE then
      [Call.vkDestroySemaphore
        (if ¬ img.first then img else { img with first := false }).render_semaphore]
    else []), ?_, ?_, ?_⟩
  · split_ifs <;> simp [Call.is_prologue]
  · simp [buffer_vk_fill_begin]
  · unfold buffer_vk_fill_begin
    by_cases hf : img.first = true
    · simp [hf]
    · have hf2 : img.first = false := by simpa using hf
      cases img
      simp_all

theorem not_submit_of_prologue (e : Call) (h : e.is_prologue = true) : ¬ (e.is_submit = true) := by
  cases e <;> simp_all [Call.is_prologue, Call.is_submit]

theorem not_sync_import_of_prologue (e : Call) (h : e.is_prologue = true) :
    e.is_sync_import = false := by
  cases e <;> simp_all [Call.is_prologue, Call.is_sync_import]

/-- The four ways through buffer_vk_fill, by stage. -/
theorem buffer_vk_fill_cases (kms_fd : Int) (img : vk_image) (frame_num : Int) (env : FillEnv) :
    (env.vkCreateSemaphore.1 ≠ VK_SUCCESS ∧
      buffer_vk_fill kms_fd img frame_num env =
        ⟨(buffer_vk_fill_begin img frame_num env).1 ++ [Call.log "vkCreateSemaphore"],
         (buffer_vk_fill_begin img frame_num env).2, Outcome.returned false⟩) ∨
    (env.vkCreateSemaphore.1 = VK_SUCCESS ∧ img.buffer.kms_fence_fd ≠ -1 ∧
      (buffer_vk_fill_import kms_fd (buffer_vk_fill_begin img frame_num env).2 env).2 = false ∧
      buffer_vk_fill kms_fd img frame_num env =
        ⟨(buffer_vk_fill_begin img frame_num env).1 ++
          (buffer_vk_fill_import kms_fd (buffer_vk_fill_begin img frame_num env).2 env).1,
         (buffer_vk_fill_begin img frame_num env).2, Outcome.aborted⟩) ∨
    (env.vkCreateSemaphore.1 = VK_SUCCESS ∧ img.buffer.kms_fence_fd ≠ -1 ∧
      (buffer_vk_fill_import kms_fd (buffer_vk_fill_begin img frame_num env).2 env).2 = true ∧
      buffer_vk_fill kms_fd img frame_num env =
        ⟨(buffer_vk_fill_begin img frame_num env).1 ++
          (buffer_vk_fill_import kms_fd (buffer_vk_fill_begin img frame_num env).2 env).1 ++
          (buffer_vk_fill_submit kms_fd (buffer_vk_fill_begin img frame_num env).2 env true).trace,
         (buffer_vk_fill_submit kms_fd (buffer_vk_fill_begin img frame_num env).2 env true).img,
         (buffer_vk_fill_submit kms_fd (buffer_vk_fill_begin img frame_num env).2 env
            true).outcome⟩) ∨
    (env.vkCreateSemaphore.1 = VK_SUCCESS ∧ img.buffer.kms_fence_fd = -1 ∧
      buffer_vk_fill kms_fd img frame_num env =
        ⟨(buffer_vk_fill_begin img frame_num env).1 ++
          (buffer_vk_fill_submit kms_fd (buffer_vk_fill_begin img frame_num env).2 env
            false).trace,
         (buffer_vk_fill_submit kms_fd (buffer_vk_fill_begin img frame_num env).2 env false).img,
         (buffer_vk_fill_submit kms_fd (buffer_vk_fill_begin img frame_num env).2 env
            false).outcome⟩) := by
  obtain ⟨t0, -, -, hs2⟩ := buffer_vk_fill_begin_shape img frame_num env
  have hk : (buffer_vk_fill_begin img frame_num env).2.buffer.kms_fence_fd =
      img.buffer.kms_fence_fd := by rw [hs2]
  unfold buffer_vk_fill
  simp only [hk]
  by_cases c1 : env.vkCreateSemaphore.1 = VK_SUCCESS
  · by_cases c2 : img.buffer.kms_fence_fd = -1
    · simp [c1, c2]
    · cases c3 : (buffer_vk_fill_import kms_fd (buffer_vk_fill_begin img frame_num env).2 env).2
        <;> simp [c1, c2, c3]
  · simp [c1]

/-- The import stage issues no vkQueueSubmit; when it completes, its four calls
all succeeded. -/
theorem buffer_vk_fill_import_shape (kms_fd : Int) (img : vk_image) (env : FillEnv) :
    (∀ e ∈ (buffer_vk_fill_import kms_fd img env).1, ¬ (e.is_submit = true)) ∧
    ((buffer_vk_fill_import kms_fd img env).2 = true →
      (0 ≤ env.drmSyncobjCreate.1 ∧ 0 ≤ env.drmSyncobjImportSyncFile ∧
        0 ≤ env.drmSyncobjHandleToFD.1 ∧ env.vkImportSemaphoreFdKHR = VK_SUCCESS) ∧
      (buffer_vk_fill_import kms_fd img env).1 =
        [Call.drmSyncobjCreate kms_fd 0 env.drmSyncobjCreate.1 env.drmSyncobjCreate.2,
         Call.drmSyncobjImportSyncFile kms_fd env.drmSyncobjCreate.2 img.buffer.kms_fence_fd
           env.drmSyncobjImportSyncFile,
         Call.drmSyncobjHandleToFD kms_fd env.drmSyncobjCreate.2 env.drmSyncobjHandleToFD.1
           env.drmSyncobjHandleToFD.2,
         Call.vkImportSemaphoreFdKHR img.buffer_semaphore VK_SEMAPHORE_IMPORT_TEMPORARY_BIT
           VK_EXTERNAL_SEMAPHORE_HANDLE_TYPE_OPAQUE_FD_BIT env.drmSyncobjHandleToFD.2
           VK_SUCCESS]) := by
  unfold buffer_vk_fill_import
  split_ifs with c1 c2 c3 c4 <;> simp [Call.is_submit]
  simp only [not_not] at c4
  simp only [not_lt] at c1 c2 c3
  exact ⟨⟨c1, c2, c3, c4⟩, c4⟩

/-- The export stage issues no vkQueueSubmit. -/
theorem buffer_vk_fill_export_no_submit (kms_fd : Int) (img : vk_image) (env : FillEnv) :
    ∀ e ∈ (buffer_vk_fill_export kms_fd img env).trace, ¬ (e.is_submit = true) := by
  unfold buffer_vk_fill_export buffer_vk_fill_close
  split_ifs <;> simp [Call.is_submit]

/-- The submission stage issues its vkQueueSubmit first, and only one. -/
theorem buffer_vk_fill_submit_trace (kms_fd : Int) (img : vk_image) (env : FillEnv)
    (b : Bool) :
    ∃ tail : List Call, (∀ e ∈ tail, ¬ (e.is_submit = true)) ∧
      (buffer_vk_fill_submit kms_fd img env b).trace =
        Call.vkQueueSubmit (if b then [img.buffer_semaphore] else []) [img.cb]
          [img.render_semaphore] img.render_fence env.vkQueueSubmit :: tail := by
  by_cases c : env.vkQueueSubmit = VK_SUCCESS
  · exact ⟨(buffer_vk_fill_export kms_fd img env).trace,
      buffer_vk_fill_export_no_submit kms_fd img env, by simp [buffer_vk_fill_submit, c]⟩
  · exact ⟨[Call.log "vkQueueSubmit"], by simp [Call.is_submit],
      by simp [buffer_vk_fill_submit, c]⟩

/-- C4: the vkQueueSubmit of buffer_vk_fill waits on exactly one semaphore if
and only if kms_fence_fd is not -1 on entry.  In that case the semaphore is
the buffer_semaphore of the slot and the submission comes directly after the
successful chain that moved kms_fence_fd into it (drmSyncobjCreate,
drmSyncobjImportSyncFile of kms_fence_fd, drmSyncobjHandleToFD,
vkImportSemaphoreFdKHR).  When kms_fence_fd is -1 the submission has no wait
semaphore and no sync-object or semaphore-import call precedes it. -/
theorem fill_wait_semaphore (kms_fd : Int) (img : vk_image) (frame_num : Int) (env : FillEnv)
    (pre post : List Call) (ws cbs ss : List Nat) (f : Nat) (res : VkResult)
    (h : (buffer_vk_fill kms_fd img frame_num env).trace =
      pre ++ Call.vkQueueSubmit ws cbs ss f res :: post) :
    (ws.length = 1 ↔ img.buffer.kms_fence_fd ≠ -1) ∧
    (img.buffer.kms_fence_fd ≠ -1 →
      ws = [img.buffer_semaphore] ∧
      (0 ≤ env.drmSyncobjCreate.1 ∧ 0 ≤ env.drmSyncobjImportSyncFile ∧
        0 ≤ env.drmSyncobjHandleToFD.1) ∧
      ∃ pre0, pre = pre0 ++
        [Call.drmSyncobjCreate kms_fd 0 env.drmSyncobjCreate.1 env.drmSyncobjCreate.2,
         Call.drmSyncobjImportSyncFile kms_fd env.drmSyncobjCreate.2 img.buffer.kms_fence_fd
           env.drmSyncobjImportSyncFile,
         Call.drmSyncobjHandleToFD kms_fd env.drmSyncobjCreate.2 env.drmSyncobjHandleToFD.1
           env.drmSyncobjHandleToFD.2,
         Call.vkImportSemaphoreFdKHR img.buffer_semaphore VK_SEMAPHORE_IMPORT_TEMPORARY_BIT
           VK_EXTERNAL_SEMAPHORE_HANDLE_TYPE_OPAQUE_FD_BIT env.drmSyncobjHandleToFD.2
           VK_SUCCESS]) ∧
    (img.buffer.kms_fence_fd = -1 → ws = [] ∧ ∀ e ∈ pre, e.is_sync_import = false) := by
  obtain ⟨t0, ht0, hs1, hs2⟩ := buffer_vk_fill_begin_shape img frame_num env
  have hbegin : ∀ e ∈ (buffer_vk_fill_begin img frame_num env).1, ¬ (e.is_submit = true) := by
    rw [hs1]
    intro e he
    rcases List.mem_append.mp he with h1 | h1
    · exact not_submit_of_prologue e (ht0 e h1)
    · simp only [List.mem_singleton] at h1
      subst h1
      simp [Call.is_submit]
  have hbegin2 : ∀ e ∈ (buffer_vk_fill_begin img frame_num env).1, e.is_sync_import = false := by
    rw [hs1]
    intro e he
    rcases List.mem_append.mp he with h1 | h1
    · exact not_sync_import_of_prologue e (ht0 e h1)
    · simp only [List.mem_singleton] at h1
      subst h1
      simp [Call.is_sync_import]
  have hy : (Call.vkQueueSubmit ws cbs ss f res).is_submit = true := rfl
  obtain ⟨himp1, himp2⟩ := buffer_vk_fill_import_shape kms_fd
    (buffer_vk_fill_begin img frame_num env).2 env
  rcases buffer_vk_fill_cases kms_fd img frame_num env with
    ⟨-, e⟩ | ⟨-, -, -, e⟩ | ⟨-, c2, c3, e⟩ | ⟨-, c2, e⟩
  · rw [e] at h
    refine (no_split (fun e => e.is_submit = true) _ pre post _ ?_ hy h).elim
    intro x hx
    rcases List.mem_append.mp hx with h1 | h1
    · exact hbegin x h1
    · simp only [List.mem_singleton] at h1
      subst h1
      simp [Call.is_submit]
  · rw [e] at h
    refine (no_split (fun e => e.is_submit = true) _ pre post _ ?_ hy h).elim
    intro x hx
    rcases List.mem_append.mp hx with h1 | h1
    · exact hbegin x h1
    · exact himp1 x h1
  · rw [e] at h
    obtain ⟨tail, htail, hsub⟩ := buffer_vk_fill_submit_trace kms_fd
      (buffer_vk_fill_begin img frame_num env).2 env true
    simp only [hsub] at h
    obtain ⟨hpre, hev, -⟩ := unique_split (fun e => e.is_submit = true) _ tail pre post _ _
      (by
        intro x hx
        rcases List.mem_append.mp hx with h1 | h1
        · exact hbegin x h1
        · exact himp1 x h1) htail hy h
    obtain ⟨hok, himp⟩ := himp2 c3
    simp only [Call.vkQueueSubmit.injEq, if_true] at hev
    obtain ⟨rfl, -⟩ := hev
    have hb : (buffer_vk_fill_begin img frame_num env).2.buffer.kms_fence_fd =
        img.buffer.kms_fence_fd := by rw [hs2]
    have hsem : (buffer_vk_fill_begin img frame_num env).2.buffer_semaphore =
        img.buffer_semaphore := by rw [hs2]
    refine ⟨by simp [c2, hs2], fun _ => ⟨by rw [hs2], ⟨hok.1, hok.2.1, hok.2.2.1⟩, ?_⟩,
      fun hc => absurd hc c2⟩
    exact ⟨(buffer_vk_fill_begin img frame_num env).1, by rw [hpre, himp, hb, hsem]⟩
  · rw [e] at h
    obtain ⟨tail, htail, hsub⟩ := buffer_vk_fill_submit_trace kms_fd
      (buffer_vk_fill_begin img frame_num env).2 env false
    simp only [hsub] at h
    obtain ⟨hpre, hev, -⟩ := unique_split (fun e => e.is_submit = true) _ tail pre post _ _
      hbegin htail hy h
    simp only [Call.vkQueueSubmit.injEq] at hev
    obtain ⟨rfl, -⟩ := hev
    refine ⟨by simp [c2], fun hc => absurd c2 hc, fun _ => ⟨by simp, ?_⟩⟩
    rw [hpre]
    exact hbegin2

/-- A property that fails on prologue calls and on vkCreateSemaphore fails on
every call issued up to vkCreateSemaphore. -/
theorem buffer_vk_fill_begin_forall (P : Call → Prop) (img : vk_image) (frame_num : Int)
    (env : FillEnv) (hp : ∀ e, e.is_prologue = true → ¬ P e)
    (hc : ∀ a b c, ¬ P (Call.vkCreateSemaphore a b c)) :
    ∀ e ∈ (buffer_vk_fill_begin img frame_num env).1, ¬ P e := by
  obtain ⟨t0, ht0, hs1, -⟩ := buffer_vk_fill_begin_shape img frame_num env
  rw [hs1]
  intro e he
  rcases List.mem_append.mp he with h1 | h1
  · exact hp e (ht0 e h1)
  · simp only [List.mem_singleton] at h1
    subst h1
    exact hc _ _ _

/-- The import stage issues none of the export calls. -/
theorem buffer_vk_fill_import_no_export (kms_fd : Int) (img : vk_image) (env : FillEnv) :
    ∀ e ∈ (buffer_vk_fill_import kms_fd img env).1,
      ¬ (e.is_semaphore_export = true) ∧ ¬ (e.is_sync_file_export = true) := by
  unfold buffer_vk_fill_import
  split_ifs <;> simp [Call.is_semaphore_export, Call.is_sync_file_export]

/-- The submission stage: a failed vkQueueSubmit is followed by its log line
only, a successful one by the export stage. -/
theorem buffer_vk_fill_submit_eq (kms_fd : Int) (img : vk_image) (env : FillEnv) (b : Bool) :
    (env.vkQueueSubmit ≠ VK_SUCCESS ∧
      buffer_vk_fill_submit kms_fd img env b =
        ⟨[Call.vkQueueSubmit (if b then [img.buffer_semaphore] else []) [img.cb]
            [img.render_semaphore] img.render_fence env.vkQueueSubmit,
          Call.log "vkQueueSubmit"], img, Outcome.returned false⟩) ∨
    (env.vkQueueSubmit = VK_SUCCESS ∧
      buffer_vk_fill_submit kms_fd img env b =
        ⟨Call.vkQueueSubmit (if b then [img.buffer_semaphore] else []) [img.cb]
            [img.render_semaphore] img.render_fence VK_SUCCESS ::
          (buffer_vk_fill_export kms_fd img env).trace,
         (buffer_vk_fill_export kms_fd img env).img,
         (buffer_vk_fill_export kms_fd img env).outcome⟩) := by
  by_cases c : env.vkQueueSubmit = VK_SUCCESS
  · exact Or.inr ⟨c, by simp [buffer_vk_fill_submit, c]⟩
  · exact Or.inl ⟨c, by simp [buffer_vk_fill_submit, c]⟩

/-- The five ways through the export stage: after at most a close call, the
calls up to the first failing one, or all four. -/
theorem buffer_vk_fill_export_cases (kms_fd : Int) (img : vk_image) (env : FillEnv) :
    (env.vkGetSemaphoreFdKHR.1 ≠ VK_SUCCESS ∧
      (buffer_vk_fill_export kms_fd img env).outcome = Outcome.aborted ∧
      (buffer_vk_fill_export kms_fd img env).trace = buffer_vk_fill_close img ++
        [Call.vkGetSemaphoreFdKHR img.render_semaphore
          VK_EXTERNAL_SEMAPHORE_HANDLE_TYPE_OPAQUE_FD_BIT
          env.vkGetSemaphoreFdKHR.1 env.vkGetSemaphoreFdKHR.2,
         Call.log "vkGetSemaphoreFdKHR"]) ∨
    (env.vkGetSemaphoreFdKHR.1 = VK_SUCCESS ∧ env.drmSyncobjFDToHandle.1 < 0 ∧
      (buffer_vk_fill_export kms_fd img env).outcome = Outcome.aborted ∧
      (buffer_vk_fill_export kms_fd img env).trace = buffer_vk_fill_close img ++
        [Call.vkGetSemaphoreFdKHR img.render_semaphore
          VK_EXTERNAL_SEMAPHORE_HANDLE_TYPE_OPAQUE_FD_BIT
          VK_SUCCESS env.vkGetSemaphoreFdKHR.2,
         Call.drmSyncobjFDToHandle kms_fd env.vkGetSemaphoreFdKHR.2
          env.drmSyncobjFDToHandle.1 env.drmSyncobjFDToHandle.2,
         Call.log "Couldn't convert syncobj fd to syncobj handle. drmSyncobjFDToHandle"]) ∨
    (env.vkGetSemaphoreFdKHR.1 = VK_SUCCESS ∧ 0 ≤ env.drmSyncobjFDToHandle.1 ∧
      env.drmSyncobjWait < 0 ∧
      (buffer_vk_fill_export kms_fd img env).outcome = Outcome.aborted ∧
      (buffer_vk_fill_export kms_fd img env).trace = buffer_vk_fill_close img ++
        [Call.vkGetSemaphoreFdKHR img.render_semaphore
          VK_EXTERNAL_SEMAPHORE_HANDLE_TYPE_OPAQUE_FD_BIT
          VK_SUCCESS env.vkGetSemaphoreFdKHR.2,
         Call.drmSyncobjFDToHandle kms_fd env.vkGetSemaphoreFdKHR.2
          env.drmSyncobjFDToHandle.1 env.drmSyncobjFDToHandle.2,
         Call.drmSyncobjWait kms_fd [env.drmSyncobjFDToHandle.2] INT64_MAX
          DRM_SYNCOBJ_WAIT_FLAGS_WAIT_FOR_SUBMIT env.drmSyncobjWait,
         Call.log "Couldn't wait for syncobj submit. drmSyncobjWait"]) ∨
    (env.vkGetSemaphoreFdKHR.1 = VK_SUCCESS ∧ 0 ≤ env.drmSyncobjFDToHandle.1 ∧
      0 ≤ env.drmSyncobjWait ∧ env.drmSyncobjExportSyncFile.1 < 0 ∧
      (buffer_vk_fill_export kms_fd img env).outcome = Outcome.aborted ∧
      (buffer_vk_fill_export kms_fd img env).trace = buffer_vk_fill_close img ++
        [Call.vkGetSemaphoreFdKHR img.render_semaphore
          VK_EXTERNAL_SEMAPHORE_HANDLE_TYPE_OPAQUE_FD_BIT
          VK_SUCCESS env.vkGetSemaphoreFdKHR.2,
         Call.drmSyncobjFDToHandle kms_fd env.vkGetSemaphoreFdKHR.2
          env.drmSyncobjFDToHandle.1 env.drmSyncobjFDToHandle.2,
         Call.drmSyncobjWait kms_fd [env.drmSyncobjFDToHandle.2] INT64_MAX
          DRM_SYNCOBJ_WAIT_FLAGS_WAIT_FOR_SUBMIT env.drmSyncobjWait,
         Call.drmSyncobjExportSyncFile kms_fd env.drmSyncobjFDToHandle.2
          env.drmSyncobjExportSyncFile.1 env.drmSyncobjExportSyncFile.2,
         Call.log "Couldn't export syncfile of syncobj handle. drmSyncobjExportSyncFile"]) ∨
    (env.vkGetSemaphoreFdKHR.1 = VK_SUCCESS ∧ 0 ≤ env.drmSyncobjFDToHandle.1 ∧
      0 ≤ env.drmSyncobjWait ∧ 0 ≤ env.drmSyncobjExportSyncFile.1 ∧
      (buffer_vk_fill_export kms_fd img env).outcome = Outcome.returned true ∧
      (buffer_vk_fill_export kms_fd img env).trace = buffer_vk_fill_close img ++
        [Call.vkGetSemaphoreFdKHR img.render_semaphore
          VK_EXTERNAL_SEMAPHORE_HANDLE_TYPE_OPAQUE_FD_BIT
          VK_SUCCESS env.vkGetSemaphoreFdKHR.2,
         Call.drmSyncobjFDToHandle kms_fd env.vkGetSemaphoreFdKHR.2
          env.drmSyncobjFDToHandle.1 env.drmSyncobjFDToHandle.2,
         Call.drmSyncobjWait kms_fd [env.drmSyncobjFDToHandle.2] INT64_MAX
          DRM_SYNCOBJ_WAIT_FLAGS_WAIT_FOR_SUBMIT env.drmSyncobjWait,
         Call.drmSyncobjExportSyncFile kms_fd env.drmSyncobjFDToHandle.2
          env.drmSyncobjExportSyncFile.1 env.drmSyncobjExportSyncFile.2]) := by
  by_cases c1 : env.vkGetSemaphoreFdKHR.1 = VK_SUCCESS
  · by_cases c2 : env.drmSyncobjFDToHandle.1 < 0
    · simp [buffer_vk_fill_export, c1, c2]
    · by_cases c3 : env.drmSyncobjWait < 0
      · simp [buffer_vk_fill_export, c1, c2, c3]
        omega
      · by_cases c4 : env.drmSyncobjExportSyncFile.1 < 0
        · simp [buffer_vk_fill_export, c1, c2, c3, c4]
          omega
        · simp [buffer_vk_fill_export, c1, c2, c3, c4]
          omega
  · simp [buffer_vk_fill_export, c1]

theorem not_export_of_prologue (e : Call) (h : e.is_prologue = true) :
    ¬ (e.is_semaphore_export = true) ∧ ¬ (e.is_sync_file_export = true) := by
  cases e <;> simp_all [Call.is_prologue, Call.is_semaphore_export, Call.is_sync_file_export]

theorem buffer_vk_fill_close_forall (img : vk_image) :
    ∀ e ∈ buffer_vk_fill_close img, ∃ fd, e = Call.close fd := by
  unfold buffer_vk_fill_close
  split_ifs <;> simp

/-- Where the submission stage exports the semaphore: directly after a
successful vkQueueSubmit signalling it, with at most a close in between. -/
theorem buffer_vk_fill_submit_export (kms_fd : Int) (img : vk_image) (env : FillEnv) (b : Bool)
    (A pre post : List Call) (sem ht : Nat) (res : VkResult) (fd : Int)
    (hA : ∀ e ∈ A, ¬ (e.is_semaphore_export = true))
    (h : A ++ (buffer_vk_fill_submit kms_fd img env b).trace =
      pre ++ Call.vkGetSemaphoreFdKHR sem ht res fd :: post) :
    sem = img.render_semaphore ∧
    pre = A ++ Call.vkQueueSubmit (if b then [img.buffer_semaphore] else []) [img.cb]
      [img.render_semaphore] img.render_fence VK_SUCCESS :: buffer_vk_fill_close img := by
  have hy : (Call.vkGetSemaphoreFdKHR sem ht res fd).is_semaphore_export = true := rfl
  have hclose : ∀ e ∈ buffer_vk_fill_close img, ¬ (e.is_semaphore_export = true) := by
    intro e he
    obtain ⟨fd0, rfl⟩ := buffer_vk_fill_close_forall img e he
    simp [Call.is_semaphore_export]
  rcases buffer_vk_fill_submit_eq kms_fd img env b with ⟨-, e⟩ | ⟨-, e⟩
  · rw [e] at h
    refine (no_split (fun e => e.is_semaphore_export = true) _ pre post _ ?_ hy h).elim
    intro x hx
    rcases List.mem_append.mp hx with h1 | h1
    · exact hA x h1
    · simp at h1
      rcases h1 with rfl | rfl <;> simp [Call.is_semaphore_export]
  · rw [e] at h
    have hA2 : ∀ e ∈ A ++ Call.vkQueueSubmit (if b then [img.buffer_semaphore] else []) [img.cb]
        [img.render_semaphore] img.render_fence VK_SUCCESS :: buffer_vk_fill_close img,
        ¬ (e.is_semaphore_export = true) := by
      intro x hx
      rcases List.mem_append.mp hx with h1 | h1
      · exact hA x h1
      · rcases List.mem_cons.mp h1 with rfl | h2
        · simp [Call.is_semaphore_export]
        · exact hclose x h2
    rcases buffer_vk_fill_export_cases kms_fd img env with
      ⟨-, -, e2⟩ | ⟨-, -, -, e2⟩ | ⟨-, -, -, -, e2⟩ | ⟨-, -, -, -, -, e2⟩ | ⟨-, -, -, -, -, e2⟩
    all_goals
      simp only [e2] at h
      rw [← List.cons_append, ← List.append_assoc] at h
      obtain ⟨hpre, hev, -⟩ := unique_split (fun e => e.is_semaphore_export = true) _ _ pre post
        _ _ hA2 (by simp [Call.is_semaphore_export]) hy h
      simp only [Call.vkGetSemaphoreFdKHR.injEq] at hev
      exact ⟨hev.1, hpre⟩

/-- C6: in buffer_vk_fill every vkGetSemaphoreFdKHR call exports the semaphore
created in this call, and is preceded, with nothing but a close call in
between, by a vkQueueSubmit that returned VK_SUCCESS and has that very
semaphore as its signal semaphore. -/
theorem export_only_after_submit (kms_fd : Int) (img : vk_image) (frame_num : Int)
    (env : FillEnv) (pre post : List Call) (sem ht : Nat) (res : VkResult) (fd : Int)
    (h : (buffer_vk_fill kms_fd img frame_num env).trace =
      pre ++ Call.vkGetSemaphoreFdKHR sem ht res fd :: post) :
    sem = env.vkCreateSemaphore.2 ∧
    ∃ pre0 ws cbs f mid,
      pre = pre0 ++ Call.vkQueueSubmit ws cbs [sem] f VK_SUCCESS :: mid ∧
      ∀ e ∈ mid, ∃ fd0, e = Call.close fd0 := by
  obtain ⟨t0, ht0, hs1, hs2⟩ := buffer_vk_fill_begin_shape img frame_num env
  have hsem : (buffer_vk_fill_begin img frame_num env).2.render_semaphore =
      env.vkCreateSemaphore.2 := by rw [hs2]
  have hbegin := buffer_vk_fill_begin_forall (fun e => e.is_semaphore_export = true) img
    frame_num env (fun e he => (not_export_of_prologue e he).1)
    (fun a b c => by simp [Call.is_semaphore_export])
  have himp := buffer_vk_fill_import_no_export kms_fd (buffer_vk_fill_begin img frame_num env).2
    env
  have hy : (Call.vkGetSemaphoreFdKHR sem ht res fd).is_semaphore_export = true := rfl
  rcases buffer_vk_fill_cases kms_fd img frame_num env with
    ⟨-, e⟩ | ⟨-, -, -, e⟩ | ⟨-, -, -, e⟩ | ⟨-, -, e⟩
  · rw [e] at h
    refine (no_split (fun e => e.is_semaphore_export = true) _ pre post _ ?_ hy h).elim
    intro x hx
    rcases List.mem_append.mp hx with h1 | h1
    · exact hbegin x h1
    · simp only [List.mem_singleton] at h1
      subst h1
      simp [Call.is_semaphore_export]
  · rw [e] at h
    refine (no_split (fun e => e.is_semaphore_export = true) _ pre post _ ?_ hy h).elim
    intro x hx
    rcases List.mem_append.mp hx with h1 | h1
    · exact hbegin x h1
    · exact (himp x h1).1
  · rw [e] at h
    obtain ⟨h1, h2⟩ := buffer_vk_fill_submit_export kms_fd _ env true _ pre post sem ht res fd
      (by
        intro x hx
        rcases List.mem_append.mp hx with h1 | h1
        · exact hbegin x h1
        · exact (himp x h1).1) h
    rw [hsem] at h1 h2
    subst h1
    exact ⟨rfl, _, _, _, _, _, h2, buffer_vk_fill_close_forall _⟩
  · rw [e] at h
    obtain ⟨h1, h2⟩ := buffer_vk_fill_submit_export kms_fd _ env false _ pre post sem ht res fd
      hbegin h
    rw [hsem] at h1 h2
    subst h1
    exact ⟨rfl, _, _, _, _, _, h2, buffer_vk_fill_close_forall _⟩

/-- Where the submission stage re-exports the sync object: directly after the
export of the semaphore, the conversion of the descriptor to a handle and the
wait for submission on that handle, all three successful. -/
theorem buffer_vk_fill_submit_sync_file (kms_fd : Int) (img : vk_image) (env : FillEnv)
    (b : Bool) (A pre post : List Call) (kfd : Int) (handle : Nat) (ok : Int) (fd : Int)
    (hA : ∀ e ∈ A, ¬ (e.is_sync_file_export = true))
    (h : A ++ (buffer_vk_fill_submit kms_fd img env b).trace =
      pre ++ Call.drmSyncobjExportSyncFile kfd handle ok fd :: post) :
    (0 ≤ env.drmSyncobjFDToHandle.1 ∧ 0 ≤ env.drmSyncobjWait) ∧
    handle = env.drmSyncobjFDToHandle.2 ∧
    ∃ pre0, pre = pre0 ++
      [Call.vkGetSemaphoreFdKHR img.render_semaphore
          VK_EXTERNAL_SEMAPHORE_HANDLE_TYPE_OPAQUE_FD_BIT VK_SUCCESS env.vkGetSemaphoreFdKHR.2,
       Call.drmSyncobjFDToHandle kms_fd env.vkGetSemaphoreFdKHR.2
          env.drmSyncobjFDToHandle.1 env.drmSyncobjFDToHandle.2,
       Call.drmSyncobjWait kms_fd [env.drmSyncobjFDToHandle.2] INT64_MAX
          DRM_SYNCOBJ_WAIT_FLAGS_WAIT_FOR_SUBMIT env.drmSyncobjWait] := by
  have hy : (Call.drmSyncobjExportSyncFile kfd handle ok fd).is_sync_file_export = true := rfl
  have hclose : ∀ e ∈ buffer_vk_fill_close img, ¬ (e.is_sync_file_export = true) := by
    intro e he
    obtain ⟨fd0, rfl⟩ := buffer_vk_fill_close_forall img e he
    simp [Call.is_sync_file_export]
  rcases buffer_vk_fill_submit_eq kms_fd img env b with ⟨-, e⟩ | ⟨-, e⟩
  · rw [e] at h
    refine (no_split (fun e => e.is_sync_file_export = true) _ pre post _ ?_ hy h).elim
    intro x hx
    rcases List.mem_append.mp hx with h1 | h1
    · exact hA x h1
    · simp at h1
      rcases h1 with rfl | rfl <;> simp [Call.is_sync_file_export]
  · rw [e] at h
    have hA2 : ∀ e ∈ A ++ Call.vkQueueSubmit (if b then [img.buffer_semaphore] else []) [img.cb]
        [img.render_semaphore] img.render_fence VK_SUCCESS :: buffer_vk_fill_close img,
        ¬ (e.is_sync_file_export = true) := by
      intro x hx
      rcases List.mem_append.mp hx with h1 | h1
      · exact hA x h1
      · rcases List.mem_cons.mp h1 with rfl | h2
        · simp [Call.is_sync_file_export]
        · exact hclose x h2
    rcases buffer_vk_fill_export_cases kms_fd img env with
      ⟨-, -, e2⟩ | ⟨-, -, -, e2⟩ | ⟨-, -, -, -, e2⟩ | ⟨-, g1, g2, -, -, e2⟩ | ⟨-, g1, g2, -, -, e2⟩
    all_goals
      simp only [e2] at h
      rw [← List.cons_append, ← List.append_assoc] at h
      obtain ⟨a, ha, hb⟩ := split_after (fun e => e.is_sync_file_export = true) _ _ pre post _
        hA2 hy h
      clear h
      rcases a with _ | ⟨a0, _ | ⟨a1, _ | ⟨a2, _ | ⟨a3, _ | ⟨a4, _ | ⟨a5, a⟩⟩⟩⟩⟩⟩ <;>
        simp at hb
    all_goals
      obtain ⟨rfl, rfl, rfl, ⟨-, rfl, -, -⟩, -⟩ := hb
      exact ⟨⟨g1, g2⟩, rfl, _, ha⟩

/-- C7 (amended): in buffer_vk_fill every drmSyncobjExportSyncFile call comes
directly after, in this order, the successful export of the completion
semaphore to a descriptor (vkGetSemaphoreFdKHR), the successful conversion of
that descriptor to a sync-object handle (drmSyncobjFDToHandle) and a successful
drmSyncobjWait with WAIT_FOR_SUBMIT on that handle, and it re-exports that
same handle. -/
theorem bridge_export_after_wait (kms_fd : Int) (img : vk_image) (frame_num : Int)
    (env : FillEnv) (pre post : List Call) (kfd : Int) (handle : Nat) (ok : Int) (fd : Int)
    (h : (buffer_vk_fill kms_fd img frame_num env).trace =
      pre ++ Call.drmSyncobjExportSyncFile kfd handle ok fd :: post) :
    (0 ≤ env.drmSyncobjFDToHandle.1 ∧ 0 ≤ env.drmSyncobjWait) ∧
    handle = env.drmSyncobjFDToHandle.2 ∧
    ∃ pre0, pre = pre0 ++
      [Call.vkGetSemaphoreFdKHR env.vkCreateSemaphore.2
          VK_EXTERNAL_SEMAPHORE_HANDLE_TYPE_OPAQUE_FD_BIT VK_SUCCESS env.vkGetSemaphoreFdKHR.2,
       Call.drmSyncobjFDToHandle kms_fd env.vkGetSemaphoreFdKHR.2
          env.drmSyncobjFDToHandle.1 handle,
       Call.drmSyncobjWait kms_fd [handle] INT64_MAX
          DRM_SYNCOBJ_WAIT_FLAGS_WAIT_FOR_SUBMIT env.drmSyncobjWait] := by
  obtain ⟨t0, ht0, hs1, hs2⟩ := buffer_vk_fill_begin_shape img frame_num env
  have hsem : (buffer_vk_fill_begin img frame_num env).2.render_semaphore =
      env.vkCreateSemaphore.2 := by rw [hs2]
  have hbegin := buffer_vk_fill_begin_forall (fun e => e.is_sync_file_export = true) img
    frame_num env (fun e he => (not_export_of_prologue e he).2)
    (fun a b c => by simp [Call.is_sync_file_export])
  have himp := buffer_vk_fill_import_no_export kms_fd (buffer_vk_fill_begin img frame_num env).2
    env
  have hy : (Call.drmSyncobjExportSyncFile kfd handle ok fd).is_sync_file_export = true := rfl
  rcases buffer_vk_fill_cases kms_fd img frame_num env with
    ⟨-, e⟩ | ⟨-, -, -, e⟩ | ⟨-, -, -, e⟩ | ⟨-, -, e⟩
  · rw [e] at h
    refine (no_split (fun e => e.is_sync_file_export = true) _ pre post _ ?_ hy h).elim
    intro x hx
    rcases List.mem_append.mp hx with h1 | h1
    · exact hbegin x h1
    · simp only [List.mem_singleton] at h1
      subst h1
      simp [Call.is_sync_file_export]
  · rw [e] at h
    refine (no_split (fun e => e.is_sync_file_export = true) _ pre post _ ?_ hy h).elim
    intro x hx
    rcases List.mem_append.mp hx with h1 | h1
    · exact hbegin x h1
    · exact (himp x h1).2
  · rw [e] at h
    obtain ⟨h1, h2, pre0, h3⟩ := buffer_vk_fill_submit_sync_file kms_fd _ env true _ pre post
      kfd handle ok fd
      (by
        intro x hx
        rcases List.mem_append.mp hx with h1 | h1
        · exact hbegin x h1
        · exact (himp x h1).2) h
    rw [hsem] at h3
    exact ⟨h1, h2, pre0, by rw [h3, h2]⟩
  · rw [e] at h
    obtain ⟨h1, h2, pre0, h3⟩ := buffer_vk_fill_submit_sync_file kms_fd _ env false _ pre post
      kfd handle ok fd hbegin h
    rw [hsem] at h3
    exact ⟨h1, h2, pre0, by rw [h3, h2]⟩

/-- C7 (as stated) fails: on a slot without a pending release fence, with every
backend call succeeding, buffer_vk_fill returns true and re-exports a sync file
although it has neither created a sync object nor imported a sync file: the
descriptor is turned into a handle by drmSyncobjFDToHandle. -/
theorem bridge_without_create_or_import :
    (buffer_vk_fill 3 slot_no_in_fence 0 fill_env_success).outcome = Outcome.returned true ∧
    (buffer_vk_fill 3 slot_no_in_fence 0 fill_env_success).trace =
      [Call.ubo_write 108 0,
       Call.vkGetFenceStatus 112 0,
       Call.vkResetFences 112 0,
       Call.vkDestroySemaphore 113,
       Call.vkCreateSemaphore 1 0 50,
       Call.vkQueueSubmit [] [110] [50] 112 0,
       Call.close 21,
       Call.vkGetSemaphoreFdKHR 50 1 0 80,
       Call.drmSyncobjFDToHandle 3 80 0 90,
       Call.drmSyncobjWait 3 [90] 9223372036854775807 2 0,
       Call.drmSyncobjExportSyncFile 3 90 0 100] ∧
    (∀ e ∈ (buffer_vk_fill 3 slot_no_in_fence 0 fill_env_success).trace,
      e.is_create_or_import_file = false) := by
  decide

theorem all_succeed_append (a b : List Call) (ha : all_succeed a) (hb : all_succeed b) :
    all_succeed (a ++ b) := by
  intro e he
  rcases List.mem_append.mp he with h | h
  · exact ha e h
  · exact hb e h

theorem fails_last_append (a b : List Call) (ha : all_succeed a) (hb : fails_last b) :
    fails_last (a ++ b) := by
  obtain ⟨t0, e, msg, h1, h2, h3⟩ := hb
  exact ⟨a ++ t0, e, msg, by rw [h1, List.append_assoc], h2, all_succeed_append a t0 ha h3⟩

theorem all_succeed_close (img : vk_image) : all_succeed (buffer_vk_fill_close img) := by
  intro e he
  obtain ⟨fd0, rfl⟩ := buffer_vk_fill_close_forall img e he
  rfl

/-- The export stage either completes with every call successful, or aborts
right after its first failing call. -/
theorem buffer_vk_fill_export_failure (kms_fd : Int) (img : vk_image) (env : FillEnv) :
    ((buffer_vk_fill_export kms_fd img env).outcome = Outcome.returned true ∧
      all_succeed (buffer_vk_fill_export kms_fd img env).trace) ∨
    ((buffer_vk_fill_export kms_fd img env).outcome ≠ Outcome.returned true ∧
      fails_last (buffer_vk_fill_export kms_fd img env).trace) := by
  have hc := all_succeed_close img
  rcases buffer_vk_fill_export_cases kms_fd img env with
    ⟨g0, o, e⟩ | ⟨g0, g1, o, e⟩ | ⟨g0, g1, g2, o, e⟩ | ⟨g0, g1, g2, g3, o, e⟩ |
    ⟨g0, g1, g2, g3, o, e⟩
  · refine Or.inr ⟨by rw [o]; simp, ?_⟩
    rw [e]
    exact fails_last_append _ _ hc ⟨[], _, _, rfl, by simp [Call.failed, g0], by
      simp [all_succeed]⟩
  · refine Or.inr ⟨by rw [o]; simp, ?_⟩
    rw [e]
    exact fails_last_append _ _ hc ⟨[_], _, _, rfl, by simp [Call.failed, g1], by
      simp [all_succeed, Call.failed]⟩
  · refine Or.inr ⟨by rw [o]; simp, ?_⟩
    rw [e]
    exact fails_last_append _ _ hc ⟨[_, _], _, _, rfl, by simp [Call.failed, g2], by
      simp [all_succeed, Call.failed, g1]⟩
  · refine Or.inr ⟨by rw [o]; simp, ?_⟩
    rw [e]
    exact fails_last_append _ _ hc ⟨[_, _, _], _, _, rfl, by simp [Call.failed, g3], by
      simp [all_succeed, Call.failed, g1, g2]⟩
  · refine Or.inl ⟨o, ?_⟩
    rw [e]
    exact all_succeed_append _ _ hc (by simp [all_succeed, Call.failed, g1, g2, g3])

/-- The submission stage either completes with every call successful, or stops
right after its first failing call. -/
theorem buffer_vk_fill_submit_failure (kms_fd : Int) (img : vk_image) (env : FillEnv)
    (b : Bool) :
    ((buffer_vk_fill_submit kms_fd img env b).outcome = Outcome.returned true ∧
      all_succeed (buffer_vk_fill_submit kms_fd img env b).trace) ∨
    ((buffer_vk_fill_submit kms_fd img env b).outcome ≠ Outcome.returned true ∧
      fails_last (buffer_vk_fill_submit kms_fd img env b).trace) := by
  rcases buffer_vk_fill_submit_eq kms_fd img env b with ⟨c, e⟩ | ⟨c, e⟩
  · rw [e]
    exact Or.inr ⟨by simp, [], _, _, rfl, by simp [Call.failed, c], by simp [all_succeed]⟩
  · rw [e]
    have hs : all_succeed [Call.vkQueueSubmit (if b then [img.buffer_semaphore] else [])
        [img.cb] [img.render_semaphore] img.render_fence VK_SUCCESS] := by
      simp [all_succeed, Call.failed]
    rcases buffer_vk_fill_export_failure kms_fd img env with ⟨o, h⟩ | ⟨o, h⟩
    · exact Or.inl ⟨o, all_succeed_append [_] _ hs h⟩
    · exact Or.inr ⟨o, fails_last_append [_] _ hs h⟩

/-- The import stage either completes with every call successful, or aborts
right after its first failing call. -/
theorem buffer_vk_fill_import_failure (kms_fd : Int) (img : vk_image) (env : FillEnv) :
    ((buffer_vk_fill_import kms_fd img env).2 = true ∧
      all_succeed (buffer_vk_fill_import kms_fd img env).1) ∨
    ((buffer_vk_fill_import kms_fd img env).2 = false ∧
      fails_last (buffer_vk_fill_import kms_fd img env).1) := by
  unfold buffer_vk_fill_import
  split_ifs with c1 c2 c3 c4
  · exact Or.inr ⟨rfl, [], _, _, rfl, by simp [Call.failed, c1], by simp [all_succeed]⟩
  · exact Or.inr ⟨rfl, [_], _, _, rfl, by simp [Call.failed, c2], by
      simp [all_succeed, Call.failed]; omega⟩
  · exact Or.inr ⟨rfl, [_, _], _, _, rfl, by simp [Call.failed, c3], by
      simp [all_succeed, Call.failed]; omega⟩
  · exact Or.inr ⟨rfl, [_, _, _], _, _, rfl, by simp [Call.failed, c4], by
      simp [all_succeed, Call.failed]; omega⟩
  · refine Or.inl ⟨rfl, ?_⟩
    simp only [not_not] at c4
    simp [all_succeed, Call.failed, c4]
    omega

/-- The whole of buffer_vk_fill either returns true with every checked call
successful, or does not return true and stops right after its first failing
checked call. -/
theorem buffer_vk_fill_failure (kms_fd : Int) (img : vk_image) (frame_num : Int)
    (env : FillEnv) :
    ((buffer_vk_fill kms_fd img frame_num env).outcome = Outcome.returned true ∧
      all_succeed (buffer_vk_fill kms_fd img frame_num env).trace) ∨
    ((buffer_vk_fill kms_fd img frame_num env).outcome ≠ Outcome.returned true ∧
      fails_last (buffer_vk_fill kms_fd img frame_num env).trace) := by
  obtain ⟨t0, ht0, hs1, -⟩ := buffer_vk_fill_begin_shape img frame_num env
  have ht0s : all_succeed t0 := by
    intro e he
    have := ht0 e he
    cases e <;> simp_all [Call.is_prologue, Call.failed]
  rcases buffer_vk_fill_cases kms_fd img frame_num env with
    ⟨c, e⟩ | ⟨c, -, c3, e⟩ | ⟨c, -, c3, e⟩ | ⟨c, -, e⟩
  · rw [e, hs1]
    exact Or.inr ⟨by simp, t0, Call.vkCreateSemaphore
      VK_EXTERNAL_SEMAPHORE_HANDLE_TYPE_OPAQUE_FD_BIT env.vkCreateSemaphore.1
      env.vkCreateSemaphore.2, "vkCreateSemaphore", by simp, by simp [Call.failed, c], ht0s⟩
  all_goals
    have hb : all_succeed (buffer_vk_fill_begin img frame_num env).1 := by
      rw [hs1]
      exact all_succeed_append _ _ ht0s (by simp [all_succeed, Call.failed, c])
  · rw [e]
    rcases buffer_vk_fill_import_failure kms_fd (buffer_vk_fill_begin img frame_num env).2 env
      with ⟨o, h⟩ | ⟨o, h⟩
    · rw [o] at c3
      exact absurd c3 (by simp)
    · exact Or.inr ⟨by simp, fails_last_append _ _ hb h⟩
  · rw [e]
    rcases buffer_vk_fill_import_failure kms_fd (buffer_vk_fill_begin img frame_num env).2 env
      with ⟨o, h⟩ | ⟨o, h⟩
    · rcases buffer_vk_fill_submit_failure kms_fd (buffer_vk_fill_begin img frame_num env).2 env
        true with ⟨o2, h2⟩ | ⟨o2, h2⟩
      · exact Or.inl ⟨o2, all_succeed_append _ _ (all_succeed_append _ _ hb h) h2⟩
      · exact Or.inr ⟨o2, fails_last_append _ _ (all_succeed_append _ _ hb h) h2⟩
    · rw [o] at c3
      exact absurd c3 (by simp)
  · rw [e]
    rcases buffer_vk_fill_submit_failure kms_fd (buffer_vk_fill_begin img frame_num env).2 env
      false with ⟨o2, h2⟩ | ⟨o2, h2⟩
    · exact Or.inl ⟨o2, all_succeed_append _ _ hb h2⟩
    · exact Or.inr ⟨o2, fails_last_append _ _ hb h2⟩

/-- C9: if in buffer_vk_fill one of the GPU calls (semaphore creation, semaphore
import, queue submit, semaphore export) or one of the kernel sync-object calls
fails, the invocation does not return true and the failing call is followed by
nothing but the log line that reports it; hence buffer_vk_fill returns true
only if every such call it issued succeeded. -/
theorem fill_fails_fast (kms_fd : Int) (img : vk_image) (frame_num : Int) (env : FillEnv)
    (pre post : List Call) (e : Call)
    (h : (buffer_vk_fill kms_fd img frame_num env).trace = pre ++ e :: post)
    (hf : e.failed = true) :
    (buffer_vk_fill kms_fd img frame_num env).outcome ≠ Outcome.returned true ∧
    (∃ msg, post = [Call.log msg]) ∧ all_succeed pre := by
  rcases buffer_vk_fill_failure kms_fd img frame_num env with ⟨-, hs⟩ | ⟨o, t0, e0, msg, ht, -, hs⟩
  · have := hs e (by rw [h]; simp)
    rw [this] at hf
    exact absurd hf (by simp)
  · rw [ht] at h
    have h2 : t0 ++ e0 :: [Call.log msg] = pre ++ e :: post := by simpa using h
    obtain ⟨hpre, -, hpost⟩ := unique_split (fun x => x.failed = true) t0 [Call.log msg] pre post
      e0 e (fun x hx => by simp [hs x hx]) (by simp [Call.failed]) hf h2
    exact ⟨o, ⟨msg, hpost⟩, by rw [hpre]; exact hs⟩

/-! ## Evaluations of the code at concrete inputs -/

/-- C5: the code at a failing input.  On a slot that has been submitted before
(first is false) whose render fence reports VK_NOT_READY, buffer_vk_fill only
logs the status, then submits the command buffer of the slot and returns true. -/
theorem fill_resubmits_unsignaled_slot :
    slot_no_in_fence.first = false ∧
    (buffer_vk_fill 3 slot_no_in_fence 1
      { fill_env_success with vkGetFenceStatus := VK_NOT_READY }).outcome =
        Outcome.returned true ∧
    (buffer_vk_fill 3 slot_no_in_fence 1
      { fill_env_success with vkGetFenceStatus := VK_NOT_READY }).trace =
      [Call.ubo_write 108 1,
       Call.vkGetFenceStatus 112 1,
       Call.log "Invalid render_fence status",
       Call.vkResetFences 112 0,
       Call.vkDestroySemaphore 113,
       Call.vkCreateSemaphore 1 0 50,
       Call.vkQueueSubmit [] [slot_no_in_fence.cb] [50] 112 0,
       Call.close 21,
       Call.vkGetSemaphoreFdKHR 50 1 0 80,
       Call.drmSyncobjFDToHandle 3 80 0 90,
       Call.drmSyncobjWait 3 [90] 9223372036854775807 2 0,
       Call.drmSyncobjExportSyncFile 3 90 0 100] := by
  decide

/-- The function buffer_vk_create never assigns `first`: the returned slot has
the value the block had when malloc handed it out. -/
theorem buffer_vk_create_first (output : Nat) (mem : vk_image) (env : CreateEnv)
    (slot : vk_image) (h : buffer_vk_create output (some mem) env = some slot) :
    slot.first = mem.first := by
  unfold buffer_vk_create at h
  simp only at h
  split_ifs at h
  simp only [Option.some.injEq] at h
  rw [← h]

/-- C10: the code at a failing input.  When malloc hands out a zeroed block and
every call of buffer_vk_create succeeds, the returned slot has first = false,
and the first buffer_vk_fill on it does query the status of the never
submitted render fence. -/
theorem create_leaves_first_unset :
    buffer_vk_create 1 (some zeroed_block) create_env_success = some created_slot ∧
    created_slot.first = false ∧
    Call.vkGetFenceStatus created_slot.render_fence VK_NOT_READY ∈
      (buffer_vk_fill 3 created_slot 0
        { fill_env_success with vkGetFenceStatus := VK_NOT_READY }).trace := by
  decide

/-! ## Witnesses -/

/-- Witness of C1: one successful pass on the example cube. -/
theorem commit_only_after_render_confirmed_witness :
    (vkkmscube_loop cube_example (VK_SUCCESS, 7) [iter_resp_ok]).1 =
      [LoopEv.vkCreateFence 0 0 7, LoopEv.gettimeofday, LoopEv.log "looping",
       LoopEv.cube_gpu_buffer_update_transforms 0 500,
       LoopEv.vkQueueSubmit 0 [] [300] [] 7 0,
       LoopEv.vkWaitForFences 7 0,
       LoopEv.vkResetFences 7 0] ++ LoopEv.drmModeSetCrtc 0 3 10 400 20 30 0 :: [] ∧
    (400 = (cube_example.images 0).fb_id ∧
     ∃ pre0, [LoopEv.vkCreateFence 0 0 7, LoopEv.gettimeofday, LoopEv.log "looping",
       LoopEv.cube_gpu_buffer_update_transforms 0 500,
       LoopEv.vkQueueSubmit 0 [] [300] [] 7 0,
       LoopEv.vkWaitForFences 7 0,
       LoopEv.vkResetFences 7 0] = pre0 ++
      [LoopEv.cube_gpu_buffer_update_transforms 0 (cube_example.images 0).gpubuf,
       LoopEv.vkQueueSubmit 0 [] [(cube_example.images 0).cmdbuf] [] 7 VK_SUCCESS,
       LoopEv.vkWaitForFences 7 VK_SUCCESS,
       LoopEv.vkResetFences 7 VK_SUCCESS]) :=
  ⟨by decide,
   commit_only_after_render_confirmed cube_example (VK_SUCCESS, 7) [iter_resp_ok] _ []
     0 3 10 400 20 30 0 (by decide)⟩

/-- Witness of C2: the sixth pass (k = 5) works on slot 1. -/
theorem loop_round_robin_witness :
    (∀ x ∈ [iter_resp_ok, iter_resp_ok, iter_resp_ok, iter_resp_ok, iter_resp_ok],
      iter_ok x = true) ∧
    (vkkmscube_loop cube_example (VK_SUCCESS, 7)
      ([iter_resp_ok, iter_resp_ok, iter_resp_ok, iter_resp_ok, iter_resp_ok] ++
        iter_resp_ok :: [])).1[3 + 5 * 5]? =
      some (LoopEv.cube_gpu_buffer_update_transforms (5 % 4) (cube_example.images (5 % 4)).gpubuf) :=
  ⟨by decide,
   (loop_round_robin cube_example 7
     [iter_resp_ok, iter_resp_ok, iter_resp_ok, iter_resp_ok, iter_resp_ok] iter_resp_ok []
     (by decide)).1⟩

/-- Witness of C3: the second submission of a two-pass run. -/
theorem submit_only_after_previous_wait_witness :
    (vkkmscube_loop cube_example (VK_SUCCESS, 7) [iter_resp_ok, iter_resp_ok]).1 =
      [LoopEv.vkCreateFence 0 0 7, LoopEv.gettimeofday, LoopEv.log "looping",
       LoopEv.cube_gpu_buffer_update_transforms 0 500,
       LoopEv.vkQueueSubmit 0 [] [300] [] 7 0,
       LoopEv.vkWaitForFences 7 0,
       LoopEv.vkResetFences 7 0,
       LoopEv.drmModeSetCrtc 0 3 10 400 20 30 0,
       LoopEv.cube_gpu_buffer_update_transforms 1 501] ++
      LoopEv.vkQueueSubmit 1 [] [301] [] 7 0 ::
        [LoopEv.vkWaitForFences 7 0, LoopEv.vkResetFences 7 0,
         LoopEv.drmModeSetCrtc 1 3 10 401 20 30 0] ∧
    in_flight
      [LoopEv.vkCreateFence 0 0 7, LoopEv.gettimeofday, LoopEv.log "looping",
       LoopEv.cube_gpu_buffer_update_transforms 0 500,
       LoopEv.vkQueueSubmit 0 [] [300] [] 7 0,
       LoopEv.vkWaitForFences 7 0,
       LoopEv.vkResetFences 7 0,
       LoopEv.drmModeSetCrtc 0 3 10 400 20 30 0,
       LoopEv.cube_gpu_buffer_update_transforms 1 501] = [] :=
  ⟨by decide,
   (submit_only_after_previous_wait cube_example (VK_SUCCESS, 7) [iter_resp_ok, iter_resp_ok]
     [LoopEv.vkCreateFence 0 0 7, LoopEv.gettimeofday, LoopEv.log "looping",
      LoopEv.cube_gpu_buffer_update_transforms 0 500,
      LoopEv.vkQueueSubmit 0 [] [300] [] 7 0,
      LoopEv.vkWaitForFences 7 0,
      LoopEv.vkResetFences 7 0,
      LoopEv.drmModeSetCrtc 0 3 10 400 20 30 0,
      LoopEv.cube_gpu_buffer_update_transforms 1 501]
     [LoopEv.vkWaitForFences 7 0, LoopEv.vkResetFences 7 0,
      LoopEv.drmModeSetCrtc 1 3 10 401 20 30 0]
     1 [] [301] [] 7 0 (by decide)).1⟩

/-- Witness of C8: the wait fails in the third pass; two later answers are
never asked for. -/
theorem loop_stops_at_failure_witness :
    (∀ x ∈ [iter_resp_ok, iter_resp_ok], iter_ok x = true) ∧
    (iter_resp_wait_fails.vkQueueSubmit ≠ VK_SUCCESS ∨
      iter_resp_wait_fails.vkWaitForFences ≠ VK_SUCCESS ∨
      iter_resp_wait_fails.vkResetFences ≠ VK_SUCCESS ∨
      iter_resp_wait_fails.drmModeSetCrtc < 0) ∧
    (vkkmscube_loop cube_example (VK_SUCCESS, 7)
      ([iter_resp_ok, iter_resp_ok] ++ iter_resp_wait_fails :: [iter_resp_ok, iter_resp_ok])).2 =
      LoopStatus.exited :=
  ⟨by decide, by decide,
   (loop_stops_at_failure cube_example 7 [iter_resp_ok, iter_resp_ok] iter_resp_wait_fails
     [iter_resp_ok, iter_resp_ok] (by decide) (by decide)).1⟩

/-- Witness of C4: a slot with a pending release fence (descriptor 33). -/
theorem fill_wait_semaphore_witness :
    (buffer_vk_fill 3 slot_in_use 0 fill_env_success).trace =
      [Call.ubo_write 108 0,
       Call.vkGetFenceStatus 112 0,
       Call.vkResetFences 112 0,
       Call.vkDestroySemaphore 113,
       Call.vkCreateSemaphore 1 0 50,
       Call.drmSyncobjCreate 3 0 0 60,
       Call.drmSyncobjImportSyncFile 3 60 33 0,
       Call.drmSyncobjHandleToFD 3 60 0 70,
       Call.vkImportSemaphoreFdKHR 111 1 1 70 0] ++
      Call.vkQueueSubmit [111] [110] [50] 112 0 ::
        [Call.close 21,
         Call.vkGetSemaphoreFdKHR 50 1 0 80,
         Call.drmSyncobjFDToHandle 3 80 0 90,
         Call.drmSyncobjWait 3 [90] 9223372036854775807 2 0,
         Call.drmSyncobjExportSyncFile 3 90 0 100] ∧
    (([111] : List Nat).length = 1 ↔ slot_in_use.buffer.kms_fence_fd ≠ -1) :=
  ⟨by decide,
   (fill_wait_semaphore 3 slot_in_use 0 fill_env_success
     [Call.ubo_write 108 0,
      Call.vkGetFenceStatus 112 0,
      Call.vkResetFences 112 0,
      Call.vkDestroySemaphore 113,
      Call.vkCreateSemaphore 1 0 50,
      Call.drmSyncobjCreate 3 0 0 60,
      Call.drmSyncobjImportSyncFile 3 60 33 0,
      Call.drmSyncobjHandleToFD 3 60 0 70,
      Call.vkImportSemaphoreFdKHR 111 1 1 70 0]
     [Call.close 21,
      Call.vkGetSemaphoreFdKHR 50 1 0 80,
      Call.drmSyncobjFDToHandle 3 80 0 90,
      Call.drmSyncobjWait 3 [90] 9223372036854775807 2 0,
      Call.drmSyncobjExportSyncFile 3 90 0 100]
     [111] [110] [50] 112 0 (by decide)).1⟩

/-- Witness of C6: the export in a fully successful invocation. -/
theorem export_only_after_submit_witness :
    (buffer_vk_fill 3 slot_no_in_fence 0 fill_env_success).trace =
      [Call.ubo_write 108 0,
       Call.vkGetFenceStatus 112 0,
       Call.vkResetFences 112 0,
       Call.vkDestroySemaphore 113,
       Call.vkCreateSemaphore 1 0 50,
       Call.vkQueueSubmit [] [110] [50] 112 0,
       Call.close 21] ++
      Call.vkGetSemaphoreFdKHR 50 1 0 80 ::
        [Call.drmSyncobjFDToHandle 3 80 0 90,
         Call.drmSyncobjWait 3 [90] 9223372036854775807 2 0,
         Call.drmSyncobjExportSyncFile 3 90 0 100] ∧
    50 = fill_env_success.vkCreateSemaphore.2 :=
  ⟨by decide,
   (export_only_after_submit 3 slot_no_in_fence 0 fill_env_success
     [Call.ubo_write 108 0,
      Call.vkGetFenceStatus 112 0,
      Call.vkResetFences 112 0,
      Call.vkDestroySemaphore 113,
      Call.vkCreateSemaphore 1 0 50,
      Call.vkQueueSubmit [] [110] [50] 112 0,
      Call.close 21]
     [Call.drmSyncobjFDToHandle 3 80 0 90,
      Call.drmSyncobjWait 3 [90] 9223372036854775807 2 0,
      Call.drmSyncobjExportSyncFile 3 90 0 100]
     50 1 0 80 (by decide)).1⟩

/-- Witness of C7: the re-export in a fully successful invocation. -/
theorem bridge_export_after_wait_witness :
    (buffer_vk_fill 3 slot_no_in_fence 0 fill_env_success).trace =
      [Call.ubo_write 108 0,
       Call.vkGetFenceStatus 112 0,
       Call.vkResetFences 112 0,
       Call.vkDestroySemaphore 113,
       Call.vkCreateSemaphore 1 0 50,
       Call.vkQueueSubmit [] [110] [50] 112 0,
       Call.close 21,
       Call.vkGetSemaphoreFdKHR 50 1 0 80,
       Call.drmSyncobjFDToHandle 3 80 0 90,
       Call.drmSyncobjWait 3 [90] 9223372036854775807 2 0] ++
      Call.drmSyncobjExportSyncFile 3 90 0 100 :: [] ∧
    (0 ≤ fill_env_success.drmSyncobjFDToHandle.1 ∧ 0 ≤ fill_env_success.drmSyncobjWait) :=
  ⟨by decide,
   (bridge_export_after_wait 3 slot_no_in_fence 0 fill_env_success
     [Call.ubo_write 108 0,
      Call.vkGetFenceStatus 112 0,
      Call.vkResetFences 112 0,
      Call.vkDestroySemaphore 113,
      Call.vkCreateSemaphore 1 0 50,
      Call.vkQueueSubmit [] [110] [50] 112 0,
      Call.close 21,
      Call.vkGetSemaphoreFdKHR 50 1 0 80,
      Call.drmSyncobjFDToHandle 3 80 0 90,
      Call.drmSyncobjWait 3 [90] 9223372036854775807 2 0]
     [] 3 90 0 100 (by decide)).1⟩

/-- Witness of C9: drmSyncobjWait fails; only its log line follows. -/
theorem fill_fails_fast_witness :
    (buffer_vk_fill 3 slot_no_in_fence 0 { fill_env_success with drmSyncobjWait := -1 }).trace =
      [Call.ubo_write 108 0,
       Call.vkGetFenceStatus 112 0,
       Call.vkResetFences 112 0,
       Call.vkDestroySemaphore 113,
       Call.vkCreateSemaphore 1 0 50,
       Call.vkQueueSubmit [] [110] [50] 112 0,
       Call.close 21,
       Call.vkGetSemaphoreFdKHR 50 1 0 80,
       Call.drmSyncobjFDToHandle 3 80 0 90] ++
      Call.drmSyncobjWait 3 [90] 9223372036854775807 2 (-1) ::
        [Call.log "Couldn't wait for syncobj submit. drmSyncobjWait"] ∧
    (Call.drmSyncobjWait 3 [90] 9223372036854775807 2 (-1)).failed = true ∧
    (buffer_vk_fill 3 slot_no_in_fence 0
      { fill_env_success with drmSyncobjWait := -1 }).outcome ≠ Outcome.returned true :=
  ⟨by decide, by decide,
   (fill_fails_fast 3 slot_no_in_fence 0 { fill_env_success with drmSyncobjWait := -1 }
     [Call.ubo_write 108 0,
      Call.vkGetFenceStatus 112 0,
      Call.vkResetFences 112 0,
      Call.vkDestroySemaphore 113,
      Call.vkCreateSemaphore 1 0 50,
      Call.vkQueueSubmit [] [110] [50] 112 0,
      Call.close 21,
      Call.vkGetSemaphoreFdKHR 50 1 0 80,
      Call.drmSyncobjFDToHandle 3 80 0 90]
     [Call.log "Couldn't wait for syncobj submit. drmSyncobjWait"]
     (Call.drmSyncobjWait 3 [90] 9223372036854775807 2 (-1))
     (by decide) (by decide)).1⟩

/-! ## Slot creation -/

/-- C12: a slot returned by buffer_vk_create has no pending fence in either
direction: kms_fence_fd and render_fence_fd are -1, in_use is false and fb_id
is 0. -/
theorem create_no_pending_fence (output : Nat) (mem : vk_image) (env : CreateEnv)
    (slot : vk_image) (h : buffer_vk_create output (some mem) env = some slot) :
    slot.buffer.kms_fence_fd = -1 ∧ slot.buffer.render_fence_fd = -1 ∧
    slot.buffer.in_use = false ∧ slot.buffer.fb_id = 0 := by
  unfold buffer_vk_create at h
  simp only at h
  split_ifs at h
  simp only [Option.some.injEq] at h
  rw [← h]
  exact ⟨rfl, rfl, rfl, rfl⟩

/-- Witness of C12: creation on a zeroed block with every call succeeding. -/
theorem create_no_pending_fence_witness :
    buffer_vk_create 1 (some zeroed_block) create_env_success = some created_slot ∧
    (created_slot.buffer.kms_fence_fd = -1 ∧ created_slot.buffer.render_fence_fd = -1 ∧
      created_slot.buffer.in_use = false ∧ created_slot.buffer.fb_id = 0) :=
  ⟨by decide,
   create_no_pending_fence 1 zeroed_block create_env_success created_slot (by decide)⟩

/-! ## The firstUse protocol and the semaphore re-creation -/

/-- The slot after the first stage: only `first` and `render_semaphore` change. -/
theorem buffer_vk_fill_begin_img (img : vk_image) (frame_num : Int) (env : FillEnv) :
    (buffer_vk_fill_begin img frame_num env).2 =
      { img with first := false, render_semaphore := env.vkCreateSemaphore.2 } := by
  obtain ⟨t0, -, -, h⟩ := buffer_vk_fill_begin_shape img frame_num env
  exact h

/-- Where the submission sits in a trace of buffer_vk_fill, and what it submits. -/
theorem buffer_vk_fill_submit_split (kms_fd : Int) (img : vk_image) (frame_num : Int)
    (env : FillEnv) (pre post : List Call) (ws cbs ss : List Nat) (f : Nat) (res : VkResult)
    (h : (buffer_vk_fill kms_fd img frame_num env).trace =
      pre ++ Call.vkQueueSubmit ws cbs ss f res :: post) :
    env.vkCreateSemaphore.1 = VK_SUCCESS ∧
    (pre = (buffer_vk_fill_begin img frame_num env).1 ∨
      pre = (buffer_vk_fill_begin img frame_num env).1 ++
        (buffer_vk_fill_import kms_fd (buffer_vk_fill_begin img frame_num env).2 env).1) ∧
    cbs = [img.cb] ∧ ss = [env.vkCreateSemaphore.2] ∧ f = img.render_fence ∧
    res = env.vkQueueSubmit ∧
    ws = (if img.buffer.kms_fence_fd ≠ -1 then [img.buffer_semaphore] else []) := by
  have hs2 := buffer_vk_fill_begin_img img frame_num env
  have hbegin := buffer_vk_fill_begin_forall (fun e => e.is_submit = true) img
    frame_num env (fun e he => not_submit_of_prologue e he)
    (fun a b c => by simp [Call.is_submit])
  have hy : (Call.vkQueueSubmit ws cbs ss f res).is_submit = true := rfl
  obtain ⟨himp1, -⟩ := buffer_vk_fill_import_shape kms_fd
    (buffer_vk_fill_begin img frame_num env).2 env
  rcases buffer_vk_fill_cases kms_fd img frame_num env with
    ⟨-, e⟩ | ⟨-, -, -, e⟩ | ⟨c1, c2, -, e⟩ | ⟨c1, c2, e⟩
  · rw [e] at h
    refine (no_split (fun e => e.is_submit = true) _ pre post _ ?_ hy h).elim
    intro x hx
    rcases List.mem_append.mp hx with h1 | h1
    · exact hbegin x h1
    · simp only [List.mem_singleton] at h1
      subst h1
      simp [Call.is_submit]
  · rw [e] at h
    refine (no_split (fun e => e.is_submit = true) _ pre post _ ?_ hy h).elim
    intro x hx
    rcases List.mem_append.mp hx with h1 | h1
    · exact hbegin x h1
    · exact himp1 x h1
  · rw [e] at h
    obtain ⟨tail, htail, hsub⟩ := buffer_vk_fill_submit_trace kms_fd
      (buffer_vk_fill_begin img frame_num env).2 env true
    simp only [hsub] at h
    obtain ⟨hpre, hev, -⟩ := unique_split (fun e => e.is_submit = true) _ tail pre post _ _
      (by
        intro x hx
        rcases List.mem_append.mp hx with h1 | h1
        · exact hbegin x h1
        · exact himp1 x h1) htail hy h
    simp only [Call.vkQueueSubmit.injEq, if_true] at hev
    obtain ⟨h1, h2, h3, h4, h5⟩ := hev
    rw [hs2] at h1 h2 h3 h4
    exact ⟨c1, Or.inr hpre, h2, h3, h4, h5, by rw [if_pos c2]; exact h1⟩
  · rw [e] at h
    obtain ⟨tail, htail, hsub⟩ := buffer_vk_fill_submit_trace kms_fd
      (buffer_vk_fill_begin img frame_num env).2 env false
    simp only [hsub] at h
    obtain ⟨hpre, hev, -⟩ := unique_split (fun e => e.is_submit = true) _ tail pre post _ _
      hbegin htail hy h
    simp only [Call.vkQueueSubmit.injEq] at hev
    obtain ⟨h1, h2, h3, h4, h5⟩ := hev
    rw [hs2] at h2 h3 h4
    exact ⟨c1, Or.inl hpre, h2, h3, h4, h5, by rw [if_neg (not_not.mpr c2)]; simpa using h1⟩

/-- The export stage changes nothing of the slot but render_fence_fd. -/
theorem buffer_vk_fill_export_img (kms_fd : Int) (img : vk_image) (env : FillEnv) :
    (buffer_vk_fill_export kms_fd img env).img =
      { img with buffer := { img.buffer with
          render_fence_fd := (buffer_vk_fill_export kms_fd img env).img.buffer.render_fence_fd } } := by
  unfold buffer_vk_fill_export
  split_ifs <;> rfl

/-- The submission stage changes nothing of the slot but render_fence_fd. -/
theorem buffer_vk_fill_submit_img (kms_fd : Int) (img : vk_image) (env : FillEnv) (b : Bool) :
    (buffer_vk_fill_submit kms_fd img env b).img =
      { img with buffer := { img.buffer with
          render_fence_fd :=
            (buffer_vk_fill_submit kms_fd img env b).img.buffer.render_fence_fd } } := by
  rcases buffer_vk_fill_submit_eq kms_fd img env b with ⟨-, e⟩ | ⟨-, e⟩
  · rw [e]
  · rw [e]
    exact buffer_vk_fill_export_img kms_fd img env

/-- Frame of buffer_vk_fill: of the slot only `first`, `render_semaphore` and
`render_fence_fd` can change; `first` ends false and `render_semaphore` is the
handle written by vkCreateSemaphore. -/
theorem buffer_vk_fill_img (kms_fd : Int) (img : vk_image) (frame_num : Int) (env : FillEnv) :
    (buffer_vk_fill kms_fd img frame_num env).img =
      { img with
        first := false
        render_semaphore := env.vkCreateSemaphore.2
        buffer := { img.buffer with
          render_fence_fd :=
            (buffer_vk_fill kms_fd img frame_num env).img.buffer.render_fence_fd } } := by
  have hs2 := buffer_vk_fill_begin_img img frame_num env
  rcases buffer_vk_fill_cases kms_fd img frame_num env with
    ⟨-, e⟩ | ⟨-, -, -, e⟩ | ⟨-, -, -, e⟩ | ⟨-, -, e⟩
  · rw [e, hs2]
  · rw [e, hs2]
  · rw [e]
    have h := buffer_vk_fill_submit_img kms_fd (buffer_vk_fill_begin img frame_num env).2 env true
    rw [hs2] at h ⊢
    exact h
  · rw [e]
    have h := buffer_vk_fill_submit_img kms_fd (buffer_vk_fill_begin img frame_num env).2 env false
    rw [hs2] at h ⊢
    exact h

/-- The fence status query and the fence reset of the first stage: none when
`first` is set, one of each on the render fence otherwise. -/
theorem buffer_vk_fill_begin_fence_check (img : vk_image) (frame_num : Int) (env : FillEnv) :
    (buffer_vk_fill_begin img frame_num env).1.countP Call.is_fence_status =
      (if img.first = true then 0 else 1) ∧
    (buffer_vk_fill_begin img frame_num env).1.countP Call.is_fence_reset =
      (if img.first = true then 0 else 1) ∧
    (∀ e ∈ (buffer_vk_fill_begin img frame_num env).1,
      (e.is_fence_status = true → e = Call.vkGetFenceStatus img.render_fence env.vkGetFenceStatus) ∧
      (e.is_fence_reset = true → e = Call.vkResetFences img.render_fence env.vkResetFences)) := by
  unfold buffer_vk_fill_begin
  by_cases hf : img.first = true
  · simp only [hf, not_true_eq_false, if_false, if_true]
    split_ifs <;>
      simp [List.countP_cons, Call.is_fence_status, Call.is_fence_reset]
  · simp only [hf, not_false_eq_true, if_true, if_false]
    split_ifs <;>
      simp [List.countP_cons, Call.is_fence_status, Call.is_fence_reset]

/-- The import stage issues only calls of the later stages. -/
theorem buffer_vk_fill_import_stage2 (kms_fd : Int) (img : vk_image) (env : FillEnv) :
    ∀ e ∈ (buffer_vk_fill_import kms_fd img env).1, e.is_stage2 = true := by
  unfold buffer_vk_fill_import
  split_ifs <;> simp [Call.is_stage2]

/-- The export stage issues only calls of the later stages. -/
theorem buffer_vk_fill_export_stage2 (kms_fd : Int) (img : vk_image) (env : FillEnv) :
    ∀ e ∈ (buffer_vk_fill_export kms_fd img env).trace, e.is_stage2 = true := by
  have hclose : ∀ e ∈ buffer_vk_fill_close img, e.is_stage2 = true := by
    intro e he
    obtain ⟨fd0, rfl⟩ := buffer_vk_fill_close_forall img e he
    rfl
  rcases buffer_vk_fill_export_cases kms_fd img env with
    ⟨-, -, e2⟩ | ⟨-, -, -, e2⟩ | ⟨-, -, -, -, e2⟩ | ⟨-, -, -, -, -, e2⟩ | ⟨-, -, -, -, -, e2⟩
  all_goals
    rw [e2]
    intro x hx
    rcases List.mem_append.mp hx with h1 | h1
    · exact hclose x h1
    · clear hx
      revert x
      simp [Call.is_stage2]

/-- The submission stage issues only calls of the later stages. -/
theorem buffer_vk_fill_submit_stage2 (kms_fd : Int) (img : vk_image) (env : FillEnv)
    (b : Bool) :
    ∀ e ∈ (buffer_vk_fill_submit kms_fd img env b).trace, e.is_stage2 = true := by
  rcases buffer_vk_fill_submit_eq kms_fd img env b with ⟨-, e⟩ | ⟨-, e⟩
  · rw [e]
    simp [Call.is_stage2]
  · rw [e]
    intro x hx
    rcases List.mem_cons.mp hx with rfl | hx
    · rfl
    · exact buffer_vk_fill_export_stage2 kms_fd img env x hx

/-- A trace of buffer_vk_fill is the trace of its first stage followed by calls
of the later stages only. -/
theorem buffer_vk_fill_trace_split (kms_fd : Int) (img : vk_image) (frame_num : Int)
    (env : FillEnv) :
    ∃ rest : List Call, (∀ e ∈ rest, e.is_stage2 = true) ∧
      (buffer_vk_fill kms_fd img frame_num env).trace =
        (buffer_vk_fill_begin img frame_num env).1 ++ rest := by
  have himp := buffer_vk_fill_import_stage2 kms_fd (buffer_vk_fill_begin img frame_num env).2 env
  rcases buffer_vk_fill_cases kms_fd img frame_num env with
    ⟨-, e⟩ | ⟨-, -, -, e⟩ | ⟨-, -, -, e⟩ | ⟨-, -, e⟩
  · exact ⟨[Call.log "vkCreateSemaphore"], by simp [Call.is_stage2], by rw [e]⟩
  · exact ⟨_, himp, by rw [e]⟩
  · refine ⟨(buffer_vk_fill_import kms_fd (buffer_vk_fill_begin img frame_num env).2 env).1 ++
      (buffer_vk_fill_submit kms_fd (buffer_vk_fill_begin img frame_num env).2 env true).trace,
      ?_, by rw [e, List.append_assoc]⟩
    intro x hx
    rcases List.mem_append.mp hx with h1 | h1
    · exact himp x h1
    · exact buffer_vk_fill_submit_stage2 kms_fd _ env true x h1
  · exact ⟨_, buffer_vk_fill_submit_stage2 kms_fd _ env false, by rw [e]⟩

theorem not_fence_check_of_stage2 (e : Call) (h : e.is_stage2 = true) :
    e.is_fence_status = false ∧ e.is_fence_reset = false := by
  cases e <;> simp_all [Call.is_stage2, Call.is_fence_status, Call.is_fence_reset]

theorem countP_eq_zero_of_forall {α : Type} (p : α → Bool) (l : List α)
    (h : ∀ e ∈ l, p e = false) : l.countP p = 0 := by
  rw [List.countP_eq_zero]
  intro e he
  simp [h e he]

/-- C11: the firstUse protocol of buffer_vk_fill.  Every invocation leaves
`first` false, whatever its outcome.  The fence status query and the fence
reset are both skipped when `first` was true on entry and are issued, once each
and on the render fence of the slot, when it was false; they precede any
submission. -/
theorem first_use_protocol (kms_fd : Int) (img : vk_image) (frame_num : Int) (env : FillEnv) :
    (buffer_vk_fill kms_fd img frame_num env).img.first = false ∧
    (buffer_vk_fill kms_fd img frame_num env).trace.countP Call.is_fence_status =
      (if img.first = true then 0 else 1) ∧
    (buffer_vk_fill kms_fd img frame_num env).trace.countP Call.is_fence_reset =
      (if img.first = true then 0 else 1) ∧
    (∀ e ∈ (buffer_vk_fill kms_fd img frame_num env).trace,
      (e.is_fence_status = true →
        e = Call.vkGetFenceStatus img.render_fence env.vkGetFenceStatus) ∧
      (e.is_fence_reset = true → e = Call.vkResetFences img.render_fence env.vkResetFences)) ∧
    (∀ pre post ws cbs ss f res,
      (buffer_vk_fill kms_fd img frame_num env).trace =
        pre ++ Call.vkQueueSubmit ws cbs ss f res :: post →
      pre.countP Call.is_fence_status = (if img.first = true then 0 else 1) ∧
      pre.countP Call.is_fence_reset = (if img.first = true then 0 else 1)) := by
  obtain ⟨b1, b2, b3⟩ := buffer_vk_fill_begin_fence_check img frame_num env
  obtain ⟨rest, hrest, htr⟩ := buffer_vk_fill_trace_split kms_fd img frame_num env
  have himp := buffer_vk_fill_import_stage2 kms_fd (buffer_vk_fill_begin img frame_num env).2 env
  refine ⟨?_, ?_, ?_, ?_, ?_⟩
  · rw [buffer_vk_fill_img]
  · rw [htr, List.countP_append, b1,
      countP_eq_zero_of_forall _ rest (fun e he => (not_fence_check_of_stage2 e (hrest e he)).1)]
    simp
  · rw [htr, List.countP_append, b2,
      countP_eq_zero_of_forall _ rest (fun e he => (not_fence_check_of_stage2 e (hrest e he)).2)]
    simp
  · intro e he
    rw [htr] at he
    rcases List.mem_append.mp he with h1 | h1
    · exact b3 e h1
    · have := not_fence_check_of_stage2 e (hrest e h1)
      simp [this.1, this.2]
  · intro pre post ws cbs ss f res h
    obtain ⟨-, hpre, -⟩ := buffer_vk_fill_submit_split kms_fd img frame_num env pre post ws cbs
      ss f res h
    rcases hpre with hpre | hpre
    · rw [hpre]
      exact ⟨b1, b2⟩
    · rw [hpre, List.countP_append, List.countP_append, b1, b2,
        countP_eq_zero_of_forall _ _ (fun e he => (not_fence_check_of_stage2 e (himp e he)).1),
        countP_eq_zero_of_forall _ _ (fun e he => (not_fence_check_of_stage2 e (himp e he)).2)]
      simp

/-- Witness of C11: a slot with `first` set and a slot with `first` cleared. -/
theorem first_use_protocol_witness :
    (buffer_vk_fill 3 slot_fresh 0 fill_env_success).img.first = false ∧
    (buffer_vk_fill 3 slot_fresh 0 fill_env_success).trace.countP Call.is_fence_status = 0 ∧
    (buffer_vk_fill 3 slot_no_in_fence 0 fill_env_success).trace.countP Call.is_fence_status
      = 1 :=
  ⟨(first_use_protocol 3 slot_fresh 0 fill_env_success).1,
   (first_use_protocol 3 slot_fresh 0 fill_env_success).2.1,
   (first_use_protocol 3 slot_no_in_fence 0 fill_env_success).2.1⟩

/-- What the export stage stores in render_fence_fd: the re-exported sync file
when it completes, -1 otherwise. -/
theorem buffer_vk_fill_export_fd (kms_fd : Int) (img : vk_image) (env : FillEnv) :
    ((buffer_vk_fill_export kms_fd img env).outcome = Outcome.returned true →
      (buffer_vk_fill_export kms_fd img env).img.buffer.render_fence_fd =
        env.drmSyncobjExportSyncFile.2) ∧
    ((buffer_vk_fill_export kms_fd img env).outcome ≠ Outcome.returned true →
      (buffer_vk_fill_export kms_fd img env).img.buffer.render_fence_fd = -1) := by
  unfold buffer_vk_fill_export
  split_ifs <;> simp

/-- An invocation that returns true has passed through the complete export
stage: its trace ends with the four export calls, all successful, and
render_fence_fd holds the descriptor of the last of them. -/
theorem buffer_vk_fill_returned_true (kms_fd : Int) (img : vk_image) (frame_num : Int)
    (env : FillEnv)
    (h : (buffer_vk_fill kms_fd img frame_num env).outcome = Outcome.returned true) :
    (env.vkQueueSubmit = VK_SUCCESS ∧ 0 ≤ env.drmSyncobjFDToHandle.1 ∧ 0 ≤ env.drmSyncobjWait ∧
      0 ≤ env.drmSyncobjExportSyncFile.1) ∧
    (buffer_vk_fill kms_fd img frame_num env).img.buffer.render_fence_fd =
      env.drmSyncobjExportSyncFile.2 ∧
    ∃ pre0, (buffer_vk_fill kms_fd img frame_num env).trace = pre0 ++
      [Call.vkGetSemaphoreFdKHR env.vkCreateSemaphore.2
          VK_EXTERNAL_SEMAPHORE_HANDLE_TYPE_OPAQUE_FD_BIT VK_SUCCESS env.vkGetSemaphoreFdKHR.2,
       Call.drmSyncobjFDToHandle kms_fd env.vkGetSemaphoreFdKHR.2
          env.drmSyncobjFDToHandle.1 env.drmSyncobjFDToHandle.2,
       Call.drmSyncobjWait kms_fd [env.drmSyncobjFDToHandle.2] INT64_MAX
          DRM_SYNCOBJ_WAIT_FLAGS_WAIT_FOR_SUBMIT env.drmSyncobjWait,
       Call.drmSyncobjExportSyncFile kms_fd env.drmSyncobjFDToHandle.2
          env.drmSyncobjExportSyncFile.1 env.drmSyncobjExportSyncFile.2] := by
  have hs2 := buffer_vk_fill_begin_img img frame_num env
  have hsem : (buffer_vk_fill_begin img frame_num env).2.render_semaphore =
      env.vkCreateSemaphore.2 := by rw [hs2]
  have key : ∀ (b : Bool) (A : List Call),
      (buffer_vk_fill_submit kms_fd (buffer_vk_fill_begin img frame_num env).2 env b).outcome =
        Outcome.returned true →
      (env.vkQueueSubmit = VK_SUCCESS ∧ 0 ≤ env.drmSyncobjFDToHandle.1 ∧
        0 ≤ env.drmSyncobjWait ∧ 0 ≤ env.drmSyncobjExportSyncFile.1) ∧
      (buffer_vk_fill_submit kms_fd (buffer_vk_fill_begin img frame_num env).2 env
        b).img.buffer.render_fence_fd = env.drmSyncobjExportSyncFile.2 ∧
      ∃ pre0, A ++ (buffer_vk_fill_submit kms_fd (buffer_vk_fill_begin img frame_num env).2 env
          b).trace = pre0 ++
        [Call.vkGetSemaphoreFdKHR env.vkCreateSemaphore.2
            VK_EXTERNAL_SEMAPHORE_HANDLE_TYPE_OPAQUE_FD_BIT VK_SUCCESS env.vkGetSemaphoreFdKHR.2,
         Call.drmSyncobjFDToHandle kms_fd env.vkGetSemaphoreFdKHR.2
            env.drmSyncobjFDToHandle.1 env.drmSyncobjFDToHandle.2,
         Call.drmSyncobjWait kms_fd [env.drmSyncobjFDToHandle.2] INT64_MAX
            DRM_SYNCOBJ_WAIT_FLAGS_WAIT_FOR_SUBMIT env.drmSyncobjWait,
         Call.drmSyncobjExportSyncFile kms_fd env.drmSyncobjFDToHandle.2
            env.drmSyncobjExportSyncFile.1 env.drmSyncobjExportSyncFile.2] := by
    intro b A ho
    rcases buffer_vk_fill_submit_eq kms_fd (buffer_vk_fill_begin img frame_num env).2 env b with
      ⟨-, e⟩ | ⟨c, e⟩
    · rw [e] at ho
      simp at ho
    · rw [e] at ho ⊢
      simp only at ho ⊢
      have hfd := (buffer_vk_fill_export_fd kms_fd (buffer_vk_fill_begin img frame_num env).2
        env).1 ho
      rcases buffer_vk_fill_export_cases kms_fd (buffer_vk_fill_begin img frame_num env).2 env
        with ⟨-, o, -⟩ | ⟨-, -, o, -⟩ | ⟨-, -, -, o, -⟩ | ⟨-, -, -, -, o, -⟩ |
          ⟨-, g1, g2, g3, -, e2⟩
      · rw [o] at ho; simp at ho
      · rw [o] at ho; simp at ho
      · rw [o] at ho; simp at ho
      · rw [o] at ho; simp at ho
      · refine ⟨⟨c, g1, g2, g3⟩, hfd, ?_⟩
        rw [e2, hsem]
        exact ⟨A ++ Call.vkQueueSubmit
          (if b = true then [(buffer_vk_fill_begin img frame_num env).2.buffer_semaphore] else [])
          [(buffer_vk_fill_begin img frame_num env).2.cb] [env.vkCreateSemaphore.2]
          (buffer_vk_fill_begin img frame_num env).2.render_fence VK_SUCCESS ::
          buffer_vk_fill_close (buffer_vk_fill_begin img frame_num env).2, by simp⟩
  rcases buffer_vk_fill_cases kms_fd img frame_num env with
    ⟨-, e⟩ | ⟨-, -, -, e⟩ | ⟨-, -, -, e⟩ | ⟨-, -, e⟩
  · rw [e] at h; simp at h
  · rw [e] at h; simp at h
  · rw [e] at h ⊢
    exact key true _ h
  · rw [e] at h ⊢
    exact key false _ h

/-- C14: whenever buffer_vk_fill returns true, render_fence_fd of the slot is
the descriptor returned by drmSyncobjExportSyncFile, the last call of the
invocation, applied to the handle that drmSyncobjFDToHandle produced from the
descriptor of the semaphore exported by vkGetSemaphoreFdKHR in the same
invocation. -/
theorem fill_records_exported_fd (kms_fd : Int) (img : vk_image) (frame_num : Int)
    (env : FillEnv)
    (h : (buffer_vk_fill kms_fd img frame_num env).outcome = Outcome.returned true) :
    ∃ pre0 sem fd0 ok1 handle ok2 ok3,
      (buffer_vk_fill kms_fd img frame_num env).trace = pre0 ++
        [Call.vkGetSemaphoreFdKHR sem VK_EXTERNAL_SEMAPHORE_HANDLE_TYPE_OPAQUE_FD_BIT
            VK_SUCCESS fd0,
         Call.drmSyncobjFDToHandle kms_fd fd0 ok1 handle,
         Call.drmSyncobjWait kms_fd [handle] INT64_MAX DRM_SYNCOBJ_WAIT_FLAGS_WAIT_FOR_SUBMIT ok2,
         Call.drmSyncobjExportSyncFile kms_fd handle ok3
            (buffer_vk_fill kms_fd img frame_num env).img.buffer.render_fence_fd] ∧
      0 ≤ ok1 ∧ 0 ≤ ok2 ∧ 0 ≤ ok3 := by
  obtain ⟨⟨-, g1, g2, g3⟩, hfd, pre0, htr⟩ :=
    buffer_vk_fill_returned_true kms_fd img frame_num env h
  exact ⟨pre0, _, _, _, _, _, _, by rw [htr, hfd], g1, g2, g3⟩

/-- Witness of C14: a fully successful invocation stores descriptor 100. -/
theorem fill_records_exported_fd_witness :
    (buffer_vk_fill 3 slot_in_use 0 fill_env_success).outcome = Outcome.returned true ∧
    (buffer_vk_fill 3 slot_in_use 0 fill_env_success).img.buffer.render_fence_fd = 100 ∧
    ∃ pre0 sem fd0 ok1 handle ok2 ok3,
      (buffer_vk_fill 3 slot_in_use 0 fill_env_success).trace = pre0 ++
        [Call.vkGetSemaphoreFdKHR sem VK_EXTERNAL_SEMAPHORE_HANDLE_TYPE_OPAQUE_FD_BIT
            VK_SUCCESS fd0,
         Call.drmSyncobjFDToHandle 3 fd0 ok1 handle,
         Call.drmSyncobjWait 3 [handle] INT64_MAX DRM_SYNCOBJ_WAIT_FLAGS_WAIT_FOR_SUBMIT ok2,
         Call.drmSyncobjExportSyncFile 3 handle ok3
            (buffer_vk_fill 3 slot_in_use 0 fill_env_success).img.buffer.render_fence_fd] ∧
      0 ≤ ok1 ∧ 0 ≤ ok2 ∧ 0 ≤ ok3 :=
  ⟨by decide, by decide, fill_records_exported_fd 3 slot_in_use 0 fill_env_success (by decide)⟩

/-- The first stage issues no in-fence import call. -/
theorem buffer_vk_fill_begin_no_import (img : vk_image) (frame_num : Int) (env : FillEnv) :
    ∀ e ∈ (buffer_vk_fill_begin img frame_num env).1, e.is_in_fence_import = false := by
  have h := buffer_vk_fill_begin_forall (fun e => e.is_in_fence_import = true) img frame_num env
    (fun e he => by cases e <;> simp_all [Call.is_prologue, Call.is_in_fence_import])
    (fun a b c => by simp [Call.is_in_fence_import])
  intro e he
  simpa using h e he

/-- The export stage issues only calls of its own kind. -/
theorem buffer_vk_fill_export_stage3 (kms_fd : Int) (img : vk_image) (env : FillEnv) :
    ∀ e ∈ (buffer_vk_fill_export kms_fd img env).trace, e.is_stage3 = true := by
  have hclose : ∀ e ∈ buffer_vk_fill_close img, e.is_stage3 = true := by
    intro e he
    obtain ⟨fd0, rfl⟩ := buffer_vk_fill_close_forall img e he
    rfl
  rcases buffer_vk_fill_export_cases kms_fd img env with
    ⟨-, -, e2⟩ | ⟨-, -, -, e2⟩ | ⟨-, -, -, -, e2⟩ | ⟨-, -, -, -, -, e2⟩ | ⟨-, -, -, -, -, e2⟩
  all_goals
    rw [e2]
    intro x hx
    rcases List.mem_append.mp hx with h1 | h1
    · exact hclose x h1
    · clear hx
      revert x
      simp [Call.is_stage3]

/-- The submission stage issues only calls of the submission and export stages. -/
theorem buffer_vk_fill_submit_stage3 (kms_fd : Int) (img : vk_image) (env : FillEnv)
    (b : Bool) :
    ∀ e ∈ (buffer_vk_fill_submit kms_fd img env b).trace, e.is_stage3 = true := by
  rcases buffer_vk_fill_submit_eq kms_fd img env b with ⟨-, e⟩ | ⟨-, e⟩
  · rw [e]
    simp [Call.is_stage3]
  · rw [e]
    intro x hx
    rcases List.mem_cons.mp hx with rfl | hx
    · rfl
    · exact buffer_vk_fill_export_stage3 kms_fd img env x hx

/-- The submission stage issues no in-fence import call. -/
theorem buffer_vk_fill_submit_no_import (kms_fd : Int) (img : vk_image) (env : FillEnv)
    (b : Bool) :
    ∀ e ∈ (buffer_vk_fill_submit kms_fd img env b).trace, e.is_in_fence_import = false := by
  intro e he
  have := buffer_vk_fill_submit_stage3 kms_fd img env b e he
  cases e <;> simp_all [Call.is_stage3, Call.is_in_fence_import]

theorem not_all_succeed_of_fails_last (t : List Call) (h : fails_last t) : ¬ all_succeed t := by
  obtain ⟨t0, e, msg, ht, hf, -⟩ := h
  intro hall
  have := hall e (by rw [ht]; simp)
  rw [this] at hf
  exact absurd hf (by simp)

/-- C15: on a slot with no predecessor fence (kms_fence_fd is -1) buffer_vk_fill
issues no in-fence import call and its submission has no wait semaphore; if
moreover none of the checked backend calls it makes fails, it returns true,
having submitted, and render_fence_fd holds the descriptor returned by the
sync-file export. -/
theorem fill_without_predecessor (kms_fd : Int) (img : vk_image) (frame_num : Int)
    (env : FillEnv) (hk : img.buffer.kms_fence_fd = -1) :
    (∀ e ∈ (buffer_vk_fill kms_fd img frame_num env).trace, e.is_in_fence_import = false) ∧
    (∀ pre post ws cbs ss f res,
      (buffer_vk_fill kms_fd img frame_num env).trace =
        pre ++ Call.vkQueueSubmit ws cbs ss f res :: post → ws = []) ∧
    (all_succeed (buffer_vk_fill kms_fd img frame_num env).trace →
      (buffer_vk_fill kms_fd img frame_num env).outcome = Outcome.returned true ∧
      (buffer_vk_fill kms_fd img frame_num env).img.buffer.render_fence_fd =
        env.drmSyncobjExportSyncFile.2 ∧
      0 ≤ env.drmSyncobjExportSyncFile.1 ∧
      Call.vkQueueSubmit [] [img.cb] [env.vkCreateSemaphore.2] img.render_fence VK_SUCCESS ∈
        (buffer_vk_fill kms_fd img frame_num env).trace) := by
  have hbegin := buffer_vk_fill_begin_no_import img frame_num env
  have hs2 := buffer_vk_fill_begin_img img frame_num env
  refine ⟨?_, ?_, ?_⟩
  · rcases buffer_vk_fill_cases kms_fd img frame_num env with
      ⟨-, e⟩ | ⟨-, c, -, -⟩ | ⟨-, c, -, -⟩ | ⟨-, -, e⟩
    · rw [e]
      intro x hx
      rcases List.mem_append.mp hx with h1 | h1
      · exact hbegin x h1
      · simp only [List.mem_singleton] at h1
        subst h1
        rfl
    · exact absurd hk c
    · exact absurd hk c
    · rw [e]
      intro x hx
      rcases List.mem_append.mp hx with h1 | h1
      · exact hbegin x h1
      · exact buffer_vk_fill_submit_no_import kms_fd _ env false x h1
  · intro pre post ws cbs ss f res h
    obtain ⟨-, -, -, -, -, -, hws⟩ := buffer_vk_fill_submit_split kms_fd img frame_num env pre
      post ws cbs ss f res h
    rw [hws]
    simp [hk]
  · intro hall
    rcases buffer_vk_fill_failure kms_fd img frame_num env with ⟨o, -⟩ | ⟨-, hf⟩
    · obtain ⟨⟨g0, -, -, g3⟩, hfd, -⟩ := buffer_vk_fill_returned_true kms_fd img frame_num env o
      refine ⟨o, hfd, g3, ?_⟩
      rcases buffer_vk_fill_cases kms_fd img frame_num env with
        ⟨-, e⟩ | ⟨-, c, -, -⟩ | ⟨-, c, -, -⟩ | ⟨-, -, e⟩
      · rw [e] at o
        simp at o
      · exact absurd hk c
      · exact absurd hk c
      · rw [e]
        rcases buffer_vk_fill_submit_eq kms_fd (buffer_vk_fill_begin img frame_num env).2 env
          false with ⟨c, -⟩ | ⟨-, e2⟩
        · exact absurd g0 c
        · rw [e2, hs2]
          simp
    · exact absurd hall (not_all_succeed_of_fails_last _ hf)

/-- Witness of C15: the first frame of a fresh slot, every call succeeding. -/
theorem fill_without_predecessor_witness :
    slot_fresh.buffer.kms_fence_fd = -1 ∧
    all_succeed (buffer_vk_fill 3 slot_fresh 0 fill_env_success).trace ∧
    (buffer_vk_fill 3 slot_fresh 0 fill_env_success).outcome = Outcome.returned true ∧
    (buffer_vk_fill 3 slot_fresh 0 fill_env_success).img.buffer.render_fence_fd = 100 :=
  ⟨by decide, by unfold all_succeed; decide,
   ((fill_without_predecessor 3 slot_fresh 0 fill_env_success (by decide)).2.2
      (by unfold all_succeed; decide)).1,
   ((fill_without_predecessor 3 slot_fresh 0 fill_env_success (by decide)).2.2
      (by unfold all_succeed; decide)).2.1⟩

/-- On a slot with a buffer_semaphore the first stage ends with the destruction
of the old render semaphore followed by the creation of the new one; these are
its only semaphore calls, and it issues no submission. -/
theorem buffer_vk_fill_begin_recreate (img : vk_image) (frame_num : Int) (env : FillEnv)
    (hslot : img.buffer_semaphore ≠ VK_NULL_HANDLE) :
    ∃ a : List Call,
      (∀ e ∈ a, e.is_semaphore_destroy = false ∧ e.is_semaphore_create = false ∧
        e.is_submit = false) ∧
      (buffer_vk_fill_begin img frame_num env).1 = a ++
        [Call.vkDestroySemaphore img.render_semaphore,
         Call.vkCreateSemaphore VK_EXTERNAL_SEMAPHORE_HANDLE_TYPE_OPAQUE_FD_BIT
           env.vkCreateSemaphore.1 env.vkCreateSemaphore.2] := by
  refine ⟨Call.ubo_write img.ubo_map frame_num ::
    (if ¬ img.first then
      [Call.vkGetFenceStatus img.render_fence env.vkGetFenceStatus]
        ++ (if env.vkGetFenceStatus ≠ VK_SUCCESS then [Call.log "Invalid render_fence status"]
            else [])
        ++ [Call.vkResetFences img.render_fence env.vkResetFences]
        ++ (if env.vkResetFences ≠ VK_SUCCESS then [Call.log "vkResetFences"] else [])
    else []), ?_, ?_⟩
  · split_ifs <;> simp [Call.is_semaphore_destroy, Call.is_semaphore_create, Call.is_submit]
  · unfold buffer_vk_fill_begin
    by_cases hf : img.first = true
    · simp [hf, hslot]
    · simp [hf, hslot]

theorem not_semaphore_lifecycle_of_stage2 (e : Call) (h : e.is_stage2 = true) :
    e.is_semaphore_destroy = false ∧ e.is_semaphore_create = false := by
  cases e <;> simp_all [Call.is_stage2, Call.is_semaphore_destroy, Call.is_semaphore_create]

/-- The import stage reaches `has_in_fence = true` exactly when its four calls
succeed. -/
theorem buffer_vk_fill_import_ok_iff (kms_fd : Int) (img : vk_image) (env : FillEnv) :
    (buffer_vk_fill_import kms_fd img env).2 = true ↔
      (0 ≤ env.drmSyncobjCreate.1 ∧ 0 ≤ env.drmSyncobjImportSyncFile ∧
        0 ≤ env.drmSyncobjHandleToFD.1 ∧ env.vkImportSemaphoreFdKHR = VK_SUCCESS) := by
  constructor
  · intro h
    exact ((buffer_vk_fill_import_shape kms_fd img env).2 h).1
  · rintro ⟨h1, h2, h3, h4⟩
    have c1 : ¬ env.drmSyncobjCreate.1 < 0 := by omega
    have c2 : ¬ env.drmSyncobjImportSyncFile < 0 := by omega
    have c3 : ¬ env.drmSyncobjHandleToFD.1 < 0 := by omega
    simp [buffer_vk_fill_import, c1, c2, c3, h4]

/-- Whether buffer_vk_fill issues its submission.  When vkCreateSemaphore
succeeds and the in-fence import, if there is one, succeeds, the trace is the
first stage, the import calls, the vkQueueSubmit of the command buffer of the
slot, signalling the new semaphore and the render fence, and calls that are no
submission.  Otherwise the trace holds no submission and the invocation does
not return true. -/
theorem buffer_vk_fill_submit_issued (kms_fd : Int) (img : vk_image) (frame_num : Int)
    (env : FillEnv) :
    ((env.vkCreateSemaphore.1 = VK_SUCCESS ∧
        (img.buffer.kms_fence_fd = -1 ∨
          (0 ≤ env.drmSyncobjCreate.1 ∧ 0 ≤ env.drmSyncobjImportSyncFile ∧
            0 ≤ env.drmSyncobjHandleToFD.1 ∧ env.vkImportSemaphoreFdKHR = VK_SUCCESS))) →
      ∃ b tail, (∀ e ∈ b, e.is_stage2 = true ∧ e.is_submit = false) ∧
        (∀ e ∈ tail, e.is_submit = false) ∧
        (buffer_vk_fill kms_fd img frame_num env).trace =
          (buffer_vk_fill_begin img frame_num env).1 ++ b ++
            Call.vkQueueSubmit
              (if img.buffer.kms_fence_fd ≠ -1 then [img.buffer_semaphore] else [])
              [img.cb] [env.vkCreateSemaphore.2] img.render_fence env.vkQueueSubmit :: tail) ∧
    (¬ (env.vkCreateSemaphore.1 = VK_SUCCESS ∧
        (img.buffer.kms_fence_fd = -1 ∨
          (0 ≤ env.drmSyncobjCreate.1 ∧ 0 ≤ env.drmSyncobjImportSyncFile ∧
            0 ≤ env.drmSyncobjHandleToFD.1 ∧ env.vkImportSemaphoreFdKHR = VK_SUCCESS))) →
      (∀ e ∈ (buffer_vk_fill kms_fd img frame_num env).trace, e.is_submit = false) ∧
      (buffer_vk_fill kms_fd img frame_num env).outcome ≠ Outcome.returned true) := by
  have hs2 := buffer_vk_fill_begin_img img frame_num env
  have hbegin : ∀ e ∈ (buffer_vk_fill_begin img frame_num env).1, e.is_submit = false := by
    intro e he
    have := buffer_vk_fill_begin_forall (fun e => e.is_submit = true) img
      frame_num env (fun e he => not_submit_of_prologue e he)
      (fun a b c => by simp [Call.is_submit]) e he
    simpa using this
  have himp : ∀ e ∈ (buffer_vk_fill_import kms_fd (buffer_vk_fill_begin img frame_num env).2
      env).1, e.is_stage2 = true ∧ e.is_submit = false := by
    intro e he
    refine ⟨buffer_vk_fill_import_stage2 kms_fd _ env e he, ?_⟩
    have := (buffer_vk_fill_import_shape kms_fd (buffer_vk_fill_begin img frame_num env).2
      env).1 e he
    simpa using this
  have hiff := buffer_vk_fill_import_ok_iff kms_fd (buffer_vk_fill_begin img frame_num env).2 env
  have hsub : ∀ b : Bool, ∃ tail : List Call, (∀ e ∈ tail, e.is_submit = false) ∧
      (buffer_vk_fill_submit kms_fd (buffer_vk_fill_begin img frame_num env).2 env b).trace =
        Call.vkQueueSubmit (if b then [img.buffer_semaphore] else []) [img.cb]
          [env.vkCreateSemaphore.2] img.render_fence env.vkQueueSubmit :: tail := by
    intro b
    obtain ⟨tail, ht, htr⟩ := buffer_vk_fill_submit_trace kms_fd
      (buffer_vk_fill_begin img frame_num env).2 env b
    refine ⟨tail, fun e he => by simpa using ht e he, ?_⟩
    rw [htr, hs2]
  rcases buffer_vk_fill_cases kms_fd img frame_num env with
    ⟨c1, e⟩ | ⟨c1, c2, c3, e⟩ | ⟨c1, c2, c3, e⟩ | ⟨c1, c2, e⟩
  · refine ⟨fun h => absurd h.1 c1, fun _ => ?_⟩
    rw [e]
    refine ⟨?_, by simp⟩
    intro x hx
    rcases List.mem_append.mp hx with h | h
    · exact hbegin x h
    · simp only [List.mem_singleton] at h
      rw [h]; rfl
  · have hnot : ¬ (0 ≤ env.drmSyncobjCreate.1 ∧ 0 ≤ env.drmSyncobjImportSyncFile ∧
        0 ≤ env.drmSyncobjHandleToFD.1 ∧ env.vkImportSemaphoreFdKHR = VK_SUCCESS) := by
      intro h
      have := hiff.mpr h
      rw [c3] at this
      exact absurd this (by simp)
    refine ⟨fun h => ?_, fun _ => ?_⟩
    · rcases h.2 with h | h
      · exact absurd h c2
      · exact absurd h hnot
    · rw [e]
      refine ⟨?_, by simp⟩
      intro x hx
      rcases List.mem_append.mp hx with h | h
      · exact hbegin x h
      · exact (himp x h).2
  · have hyes := hiff.mp c3
    refine ⟨fun _ => ?_, fun h => absurd ⟨c1, Or.inr hyes⟩ h⟩
    obtain ⟨tail, ht, htr⟩ := hsub true
    refine ⟨_, tail, himp, ht, ?_⟩
    rw [e]
    simp only [htr, c2, ne_eq, not_false_eq_true, if_true]
  · refine ⟨fun _ => ?_, fun h => absurd ⟨c1, Or.inl c2⟩ h⟩
    obtain ⟨tail, ht, htr⟩ := hsub false
    refine ⟨[], tail, by simp, ht, ?_⟩
    rw [e]
    simp only [htr, c2, ne_eq, not_true_eq_false, if_false, List.append_nil,
      Bool.false_eq_true]

/-- C13: every buffer_vk_fill on a slot (a structure whose buffer_semaphore has
been created) re-creates the completion semaphore before submitting: it
destroys the previous render_semaphore and then calls vkCreateSemaphore for an
exportable semaphore, once each and before any submission; a submission it
issues follows a successful creation, consists of the one command buffer of
the slot and signals the newly created semaphore and the render_fence of the
slot.  The submission is issued, once, whenever vkCreateSemaphore succeeds and
the in-fence import, if the slot has a release fence, succeeds; otherwise the
invocation issues no submission and does not return true. -/
theorem fill_recreates_semaphore (kms_fd : Int) (img : vk_image) (frame_num : Int)
    (env : FillEnv) (hslot : img.buffer_semaphore ≠ VK_NULL_HANDLE) :
    (∃ a b,
      (buffer_vk_fill kms_fd img frame_num env).trace = a ++
        [Call.vkDestroySemaphore img.render_semaphore,
         Call.vkCreateSemaphore VK_EXTERNAL_SEMAPHORE_HANDLE_TYPE_OPAQUE_FD_BIT
           env.vkCreateSemaphore.1 env.vkCreateSemaphore.2] ++ b ∧
      (∀ e ∈ a, e.is_semaphore_destroy = false ∧ e.is_semaphore_create = false ∧
        e.is_submit = false) ∧
      (∀ e ∈ b, e.is_semaphore_destroy = false ∧ e.is_semaphore_create = false)) ∧
    (∀ pre post ws cbs ss f res,
      (buffer_vk_fill kms_fd img frame_num env).trace =
        pre ++ Call.vkQueueSubmit ws cbs ss f res :: post →
      cbs = [img.cb] ∧ ss = [env.vkCreateSemaphore.2] ∧ f = img.render_fence ∧
      ∃ a b, pre = a ++
        [Call.vkDestroySemaphore img.render_semaphore,
         Call.vkCreateSemaphore VK_EXTERNAL_SEMAPHORE_HANDLE_TYPE_OPAQUE_FD_BIT
           VK_SUCCESS env.vkCreateSemaphore.2] ++ b) ∧
    ((env.vkCreateSemaphore.1 = VK_SUCCESS ∧
        (img.buffer.kms_fence_fd = -1 ∨
          (0 ≤ env.drmSyncobjCreate.1 ∧ 0 ≤ env.drmSyncobjImportSyncFile ∧
            0 ≤ env.drmSyncobjHandleToFD.1 ∧ env.vkImportSemaphoreFdKHR = VK_SUCCESS))) →
      ∃ a b c,
        (buffer_vk_fill kms_fd img frame_num env).trace = a ++
          [Call.vkDestroySemaphore img.render_semaphore,
           Call.vkCreateSemaphore VK_EXTERNAL_SEMAPHORE_HANDLE_TYPE_OPAQUE_FD_BIT
             VK_SUCCESS env.vkCreateSemaphore.2] ++ b ++
          Call.vkQueueSubmit
            (if img.buffer.kms_fence_fd ≠ -1 then [img.buffer_semaphore] else [])
            [img.cb] [env.vkCreateSemaphore.2] img.render_fence env.vkQueueSubmit :: c ∧
        (∀ e ∈ a, e.is_submit = false) ∧ (∀ e ∈ b, e.is_submit = false) ∧
        (∀ e ∈ c, e.is_submit = false)) ∧
    (¬ (env.vkCreateSemaphore.1 = VK_SUCCESS ∧
        (img.buffer.kms_fence_fd = -1 ∨
          (0 ≤ env.drmSyncobjCreate.1 ∧ 0 ≤ env.drmSyncobjImportSyncFile ∧
            0 ≤ env.drmSyncobjHandleToFD.1 ∧ env.vkImportSemaphoreFdKHR = VK_SUCCESS))) →
      (∀ e ∈ (buffer_vk_fill kms_fd img frame_num env).trace, e.is_submit = false) ∧
      (buffer_vk_fill kms_fd img frame_num env).outcome ≠ Outcome.returned true) := by
  obtain ⟨a, ha, hb⟩ := buffer_vk_fill_begin_recreate img frame_num env hslot
  obtain ⟨rest, hrest, htr⟩ := buffer_vk_fill_trace_split kms_fd img frame_num env
  obtain ⟨hyes, hno⟩ := buffer_vk_fill_submit_issued kms_fd img frame_num env
  refine ⟨⟨a, rest, by rw [htr, hb], ha,
    fun e he => not_semaphore_lifecycle_of_stage2 e (hrest e he)⟩, ?_, ?_, hno⟩
  · intro pre post ws cbs ss f res h
    obtain ⟨c1, hpre, h2, h3, h4, -⟩ := buffer_vk_fill_submit_split kms_fd img frame_num env pre
      post ws cbs ss f res h
    refine ⟨h2, h3, h4, ?_⟩
    rw [c1] at hb
    rcases hpre with hpre | hpre
    · exact ⟨a, [], by rw [hpre, hb]; simp⟩
    · exact ⟨a, _, by rw [hpre, hb]⟩
  · intro hcond
    obtain ⟨b, tail, hbs, ht, hfull⟩ := hyes hcond
    rw [hcond.1] at hb
    exact ⟨a, b, tail, by rw [hfull, hb], fun e he => (ha e he).2.2,
      fun e he => (hbs e he).2, ht⟩

/-- Witness of C13: the first invocation on the created slot, every call
succeeding; the trace holds the destruction, the creation and the submission. -/
theorem fill_recreates_semaphore_witness :
    created_slot.buffer_semaphore ≠ VK_NULL_HANDLE ∧
    (fill_env_success.vkCreateSemaphore.1 = VK_SUCCESS ∧
      (created_slot.buffer.kms_fence_fd = -1 ∨
        (0 ≤ fill_env_success.drmSyncobjCreate.1 ∧ 0 ≤ fill_env_success.drmSyncobjImportSyncFile ∧
          0 ≤ fill_env_success.drmSyncobjHandleToFD.1 ∧
          fill_env_success.vkImportSemaphoreFdKHR = VK_SUCCESS))) ∧
    (buffer_vk_fill 3 created_slot 0 fill_env_success).trace =
      [Call.ubo_write 108 0,
       Call.vkGetFenceStatus 112 0,
       Call.vkResetFences 112 0,
       Call.vkDestroySemaphore 113,
       Call.vkCreateSemaphore 1 0 50,
       Call.vkQueueSubmit [] [110] [50] 112 0,
       Call.close (-1),
       Call.vkGetSemaphoreFdKHR 50 1 0 80,
       Call.drmSyncobjFDToHandle 3 80 0 90,
       Call.drmSyncobjWait 3 [90] 9223372036854775807 2 0,
       Call.drmSyncobjExportSyncFile 3 90 0 100] ∧
    ∃ a b c,
      (buffer_vk_fill 3 created_slot 0 fill_env_success).trace = a ++
        [Call.vkDestroySemaphore created_slot.render_semaphore,
         Call.vkCreateSemaphore VK_EXTERNAL_SEMAPHORE_HANDLE_TYPE_OPAQUE_FD_BIT
           VK_SUCCESS fill_env_success.vkCreateSemaphore.2] ++ b ++
        Call.vkQueueSubmit
          (if created_slot.buffer.kms_fence_fd ≠ -1 then [created_slot.buffer_semaphore] else [])
          [created_slot.cb] [fill_env_success.vkCreateSemaphore.2] created_slot.render_fence
          fill_env_success.vkQueueSubmit :: c ∧
      (∀ e ∈ a, e.is_submit = false) ∧ (∀ e ∈ b, e.is_submit = false) ∧
      (∀ e ∈ c, e.is_submit = false) :=
  ⟨by decide, by decide, by decide,
   (fill_recreates_semaphore 3 created_slot 0 fill_env_success (by decide)).2.2.1 (by decide)⟩

/-! ## Descriptor bookkeeping of buffer_vk_fill -/

/-- C17: the code at two failing inputs.  The guard of the close is
`if (img->buffer.render_fence_fd)`, which tests for 0 and not for -1.  On a
fresh slot, whose render_fence_fd is -1, a successful buffer_vk_fill issues
close(-1); on a slot that holds descriptor 0 it issues no close at all and
overwrites the field, so descriptor 0 is never closed. -/
theorem fill_close_guard_tests_zero :
    slot_fresh.buffer.render_fence_fd = -1 ∧
    Call.close (-1) ∈ (buffer_vk_fill 3 slot_fresh 0 fill_env_success).trace ∧
    slot_holding_fd0.buffer.render_fence_fd = 0 ∧
    (∀ e ∈ (buffer_vk_fill 3 slot_holding_fd0 0 fill_env_success).trace, e.is_close = false) ∧
    (buffer_vk_fill 3 slot_holding_fd0 0 fill_env_success).outcome = Outcome.returned true ∧
    (buffer_vk_fill 3 slot_holding_fd0 0 fill_env_success).img.buffer.render_fence_fd = 100 := by
  decide

/-- C18: the code at a failing input.  When only drmSyncobjExportSyncFile fails,
the invocation reports the call and aborts, with render_fence_fd reset, while
descriptor 80, returned by vkGetSemaphoreFdKHR during the invocation, is still
open: it has been passed to drmSyncobjFDToHandle and has been neither closed
nor transferred.  It is the one descriptor the invocation leaves open. -/
theorem export_failure_leaves_fd_open :
    (buffer_vk_fill 3 slot_no_in_fence 2 fill_env_export_fails).outcome = Outcome.aborted ∧
    (buffer_vk_fill 3 slot_no_in_fence 2 fill_env_export_fails).trace =
      [Call.ubo_write 108 2,
       Call.vkGetFenceStatus 112 0,
       Call.vkResetFences 112 0,
       Call.vkDestroySemaphore 113,
       Call.vkCreateSemaphore 1 0 50,
       Call.vkQueueSubmit [] [110] [50] 112 0,
       Call.close 21,
       Call.vkGetSemaphoreFdKHR 50 1 0 80,
       Call.drmSyncobjFDToHandle 3 80 0 90,
       Call.drmSyncobjWait 3 [90] 9223372036854775807 2 0,
       Call.drmSyncobjExportSyncFile 3 90 (-1) 0,
       Call.log "Couldn't export syncfile of syncobj handle. drmSyncobjExportSyncFile"] ∧
    open_fds (buffer_vk_fill 3 slot_no_in_fence 2 fill_env_export_fails).trace = [80] := by
  decide

/-- The export stage with a failing sync-file export: it aborts right after the
log line, with render_fence_fd at -1, after the three earlier export calls. -/
theorem buffer_vk_fill_export_failed (kms_fd : Int) (img : vk_image) (env : FillEnv)
    (kfd : Int) (handle : Nat) (ok : Int) (fd : Int)
    (hmem : Call.drmSyncobjExportSyncFile kfd handle ok fd ∈
      (buffer_vk_fill_export kms_fd img env).trace)
    (hfail : ok < 0) :
    (buffer_vk_fill_export kms_fd img env).outcome = Outcome.aborted ∧
    (buffer_vk_fill_export kms_fd img env).img.buffer.render_fence_fd = -1 ∧
    (buffer_vk_fill_export kms_fd img env).trace = buffer_vk_fill_close img ++
      [Call.vkGetSemaphoreFdKHR img.render_semaphore
        VK_EXTERNAL_SEMAPHORE_HANDLE_TYPE_OPAQUE_FD_BIT VK_SUCCESS env.vkGetSemaphoreFdKHR.2,
       Call.drmSyncobjFDToHandle kms_fd env.vkGetSemaphoreFdKHR.2
        env.drmSyncobjFDToHandle.1 env.drmSyncobjFDToHandle.2,
       Call.drmSyncobjWait kms_fd [env.drmSyncobjFDToHandle.2] INT64_MAX
        DRM_SYNCOBJ_WAIT_FLAGS_WAIT_FOR_SUBMIT env.drmSyncobjWait,
       Call.drmSyncobjExportSyncFile kfd handle ok fd,
       Call.log "Couldn't export syncfile of syncobj handle. drmSyncobjExportSyncFile"] := by
  have hclose : Call.drmSyncobjExportSyncFile kfd handle ok fd ∉ buffer_vk_fill_close img := by
    intro he
    obtain ⟨fd0, h0⟩ := buffer_vk_fill_close_forall img _ he
    simp at h0
  have hfd := buffer_vk_fill_export_fd kms_fd img env
  rcases buffer_vk_fill_export_cases kms_fd img env with
    ⟨-, -, e2⟩ | ⟨-, -, -, e2⟩ | ⟨-, -, -, -, e2⟩ | ⟨-, -, -, -, o, e2⟩ | ⟨-, -, -, g3, -, e2⟩
  all_goals
    rw [e2] at hmem
    have h1 := (List.mem_append.mp hmem).resolve_left hclose
    simp at h1
  · obtain ⟨rfl, rfl, rfl, rfl⟩ := h1
    exact ⟨o, hfd.2 (by rw [o]; simp), e2⟩
  · obtain ⟨-, -, rfl, -⟩ := h1
    omega

/-- Whenever drmSyncobjExportSyncFile fails inside buffer_vk_fill, the invocation
aborts right after the log line that reports the failing call, no completion
descriptor is stored (render_fence_fd is -1), and the descriptor returned by
vkGetSemaphoreFdKHR in the invocation is still open. -/
theorem export_failure_is_fatal (kms_fd : Int) (img : vk_image) (frame_num : Int)
    (env : FillEnv) (kfd : Int) (handle : Nat) (ok : Int) (fd : Int)
    (hmem : Call.drmSyncobjExportSyncFile kfd handle ok fd ∈
      (buffer_vk_fill kms_fd img frame_num env).trace)
    (hfail : ok < 0) :
    (buffer_vk_fill kms_fd img frame_num env).outcome = Outcome.aborted ∧
    (∃ pre0 msg, (buffer_vk_fill kms_fd img frame_num env).trace =
      pre0 ++ [Call.drmSyncobjExportSyncFile kfd handle ok fd, Call.log msg]) ∧
    (buffer_vk_fill kms_fd img frame_num env).img.buffer.render_fence_fd = -1 ∧
    env.vkGetSemaphoreFdKHR.2 ∈ open_fds (buffer_vk_fill kms_fd img frame_num env).trace := by
  have hbegin := buffer_vk_fill_begin_forall
    (fun e => e = Call.drmSyncobjExportSyncFile kfd handle ok fd) img frame_num env
    (fun e he h => by rw [h] at he; simp [Call.is_prologue] at he)
    (fun a b c => by simp)
  have himp := buffer_vk_fill_import_no_export kms_fd (buffer_vk_fill_begin img frame_num env).2
    env
  have key : ∀ (b : Bool) (P : List Call),
      Call.drmSyncobjExportSyncFile kfd handle ok fd ∉ P →
      Call.drmSyncobjExportSyncFile kfd handle ok fd ∈ P ++
        (buffer_vk_fill_submit kms_fd (buffer_vk_fill_begin img frame_num env).2 env b).trace →
      (buffer_vk_fill_submit kms_fd (buffer_vk_fill_begin img frame_num env).2 env b).outcome =
        Outcome.aborted ∧
      (∃ pre0 msg, P ++ (buffer_vk_fill_submit kms_fd (buffer_vk_fill_begin img frame_num env).2
          env b).trace =
        pre0 ++ [Call.drmSyncobjExportSyncFile kfd handle ok fd, Call.log msg]) ∧
      (buffer_vk_fill_submit kms_fd (buffer_vk_fill_begin img frame_num env).2 env
        b).img.buffer.render_fence_fd = -1 ∧
      env.vkGetSemaphoreFdKHR.2 ∈ open_fds (P ++ (buffer_vk_fill_submit kms_fd
        (buffer_vk_fill_begin img frame_num env).2 env b).trace) := by
    intro b P hP hin
    have hsub := (List.mem_append.mp hin).resolve_left hP
    rcases buffer_vk_fill_submit_eq kms_fd (buffer_vk_fill_begin img frame_num env).2 env b with
      ⟨-, e⟩ | ⟨-, e⟩
    · rw [e] at hsub
      simp at hsub
    · rw [e] at hsub ⊢
      simp only [List.mem_cons] at hsub
      have hexp := hsub.resolve_left (by simp)
      obtain ⟨o, hfd, htr⟩ := buffer_vk_fill_export_failed kms_fd _ env kfd handle ok fd hexp
        hfail
      refine ⟨o, ⟨P ++ Call.vkQueueSubmit
          (if b = true then [(buffer_vk_fill_begin img frame_num env).2.buffer_semaphore] else [])
          [(buffer_vk_fill_begin img frame_num env).2.cb]
          [(buffer_vk_fill_begin img frame_num env).2.render_semaphore]
          (buffer_vk_fill_begin img frame_num env).2.render_fence VK_SUCCESS ::
          (buffer_vk_fill_close (buffer_vk_fill_begin img frame_num env).2 ++
          [Call.vkGetSemaphoreFdKHR (buffer_vk_fill_begin img frame_num env).2.render_semaphore
            VK_EXTERNAL_SEMAPHORE_HANDLE_TYPE_OPAQUE_FD_BIT VK_SUCCESS env.vkGetSemaphoreFdKHR.2,
          Call.drmSyncobjFDToHandle kms_fd env.vkGetSemaphoreFdKHR.2 env.drmSyncobjFDToHandle.1
            env.drmSyncobjFDToHandle.2,
          Call.drmSyncobjWait kms_fd [env.drmSyncobjFDToHandle.2] INT64_MAX
            DRM_SYNCOBJ_WAIT_FLAGS_WAIT_FOR_SUBMIT env.drmSyncobjWait]),
          "Couldn't export syncfile of syncobj handle. drmSyncobjExportSyncFile",
          by rw [htr]; simp⟩, hfd, ?_⟩
      simp only [htr, open_fds]
      rw [← List.cons_append, ← List.append_assoc, List.foldl_append]
      have hnot : ¬ (0 ≤ ok) := by omega
      simp [open_fds_step, Call.fd_closed, Call.fd_transferred, Call.fd_opened, hnot]
  rcases buffer_vk_fill_cases kms_fd img frame_num env with
    ⟨-, e⟩ | ⟨-, -, -, e⟩ | ⟨-, -, -, e⟩ | ⟨-, -, e⟩
  · rw [e] at hmem
    rcases List.mem_append.mp hmem with h1 | h1
    · exact absurd rfl (hbegin _ h1)
    · simp at h1
  · rw [e] at hmem
    rcases List.mem_append.mp hmem with h1 | h1
    · exact absurd rfl (hbegin _ h1)
    · exact absurd rfl (himp _ h1).2
  · rw [e] at hmem ⊢
    exact key true _ (by
      intro h1
      rcases List.mem_append.mp h1 with h2 | h2
      · exact absurd rfl (hbegin _ h2)
      · exact absurd rfl (himp _ h2).2) hmem
  · rw [e] at hmem ⊢
    exact key false _ (fun h1 => absurd rfl (hbegin _ h1)) hmem

/-- An instance of the failing sync-file export: only that call fails. -/
theorem export_failure_is_fatal_witness :
    Call.drmSyncobjExportSyncFile 3 90 (-1) 0 ∈
      (buffer_vk_fill 3 slot_no_in_fence 2 fill_env_export_fails).trace ∧
    (buffer_vk_fill 3 slot_no_in_fence 2 fill_env_export_fails).outcome = Outcome.aborted ∧
    (buffer_vk_fill 3 slot_no_in_fence 2 fill_env_export_fails).img.buffer.render_fence_fd
      = -1 :=
  ⟨by decide,
   (export_failure_is_fatal 3 slot_no_in_fence 2 fill_env_export_fails 3 90 (-1) 0
      (by decide) (by decide)).1,
   (export_failure_is_fatal 3 slot_no_in_fence 2 fill_env_export_fails 3 90 (-1) 0
      (by decide) (by decide)).2.2.1⟩

/-! ## The ownership-transfer law -/

theorem gone_after_append (c : Bool) (g : List Int) (a b : List SlotEv) :
    gone_after c g (a ++ b) = gone_after c (gone_after c g a) b := by
  simp [gone_after, List.foldl_append]

theorem respects_ownership_append (c : Bool) (a b : List SlotEv) :
    ∀ g : List Int, respects_ownership c g (a ++ b) =
      (respects_ownership c g a && respects_ownership c (gone_after c g a) b) := by
  induction a with
  | nil => intro g; simp [respects_ownership, gone_after]
  | cons e t ih =>
    intro g
    simp only [List.cons_append, respects_ownership, List.append_eq, ih, gone_after,
      List.foldl_cons, Bool.and_assoc]

/-- Events that neither use, hand out nor take over a descriptor respect the
law and leave the list of descriptors passed on as it is. -/
theorem respects_ownership_of_neutral (c : Bool) (l : List SlotEv)
    (h : ∀ e ∈ l, e.fd_used = [] ∧ e.fd_opened = [] ∧ e.fd_passed c = []) :
    ∀ g : List Int, respects_ownership c g l = true ∧ gone_after c g l = g := by
  induction l with
  | nil => intro g; simp [respects_ownership, gone_after]
  | cons e t ih =>
    intro g
    obtain ⟨h1, h2, h3⟩ := h e (List.mem_cons_self _ _)
    have ht := ih (fun x hx => h x (List.mem_cons_of_mem _ hx)) g
    have hg : gone_step c g e = g := by simp [gone_step, h2, h3]
    simp only [respects_ownership, gone_after, List.foldl_cons, hg, h1]
    exact ⟨by simpa using ht.1, ht.2⟩

/-- The first stage of buffer_vk_fill touches no descriptor. -/
theorem buffer_vk_fill_begin_neutral (c : Bool) (img : vk_image) (frame_num : Int)
    (env : FillEnv) (g : List Int) :
    respects_ownership c g ((buffer_vk_fill_begin img frame_num env).1.map SlotEv.call) = true ∧
    gone_after c g ((buffer_vk_fill_begin img frame_num env).1.map SlotEv.call) = g := by
  apply respects_ownership_of_neutral
  intro e he
  obtain ⟨x, hx, rfl⟩ := List.mem_map.mp he
  have := buffer_vk_fill_begin_forall
    (fun e => ¬ (e.fd_used = [] ∧ e.fd_opened = [] ∧ e.fd_transferred = [])) img frame_num env
    (fun e he h => h (by
      cases e <;> simp_all [Call.is_prologue, Call.fd_used, Call.fd_opened, Call.fd_transferred]))
    (fun a b d => by simp [Call.fd_used, Call.fd_opened, Call.fd_transferred]) x hx
  simpa [SlotEv.fd_used, SlotEv.fd_opened, SlotEv.fd_passed] using this

/-- The import stage uses the slot's kms_fence_fd and the descriptor it has
just been handed; the only descriptor it passes on is the latter. -/
theorem buffer_vk_fill_import_ownership (c : Bool) (kms_fd : Int) (img : vk_image)
    (env : FillEnv) (g : List Int) (h : img.buffer.kms_fence_fd ∉ g) :
    respects_ownership c g ((buffer_vk_fill_import kms_fd img env).1.map SlotEv.call) = true ∧
    ∀ d ∈ gone_after c g ((buffer_vk_fill_import kms_fd img env).1.map SlotEv.call),
      d ∈ g ∨ d = env.drmSyncobjHandleToFD.2 := by
  unfold buffer_vk_fill_import
  split_ifs with c1 c2 c3 c4 <;>
    simp [respects_ownership, gone_after, gone_step, SlotEv.fd_used, SlotEv.fd_opened,
      SlotEv.fd_passed, Call.fd_used, Call.fd_opened, Call.fd_transferred, h] <;>
    (try refine ⟨Or.inr (by omega), ?_⟩) <;>
    (intro d hd; tauto)

/-- The export stage closes the slot's render_fence_fd and uses the descriptor
it has just been handed; it passes no descriptor on, and the descriptor it
stores has just been handed out. -/
theorem buffer_vk_fill_export_ownership (c : Bool) (kms_fd : Int) (img : vk_image)
    (env : FillEnv) (g : List Int) (h : img.buffer.render_fence_fd ∉ g) :
    respects_ownership c g ((buffer_vk_fill_export kms_fd img env).trace.map SlotEv.call)
      = true ∧
    ((buffer_vk_fill_export kms_fd img env).outcome = Outcome.aborted ∨
      ((buffer_vk_fill_export kms_fd img env).img.buffer.render_fence_fd ∉
        gone_after c g ((buffer_vk_fill_export kms_fd img env).trace.map SlotEv.call) ∧
       (buffer_vk_fill_export kms_fd img env).img.buffer.kms_fence_fd =
        img.buffer.kms_fence_fd ∧
       ∀ d ∈ gone_after c g ((buffer_vk_fill_export kms_fd img env).trace.map SlotEv.call),
        d ∈ g)) := by
  unfold buffer_vk_fill_export buffer_vk_fill_close
  split_ifs with c0 c1 c2 c3 c4 <;>
    simp [respects_ownership, gone_after, gone_step, SlotEv.fd_used, SlotEv.fd_opened,
      SlotEv.fd_passed, Call.fd_used, Call.fd_opened, Call.fd_transferred, h] <;>
    simp_all

/-- The submission and export stages together: as the export stage. -/
theorem buffer_vk_fill_submit_ownership (c : Bool) (kms_fd : Int) (img : vk_image)
    (env : FillEnv) (b : Bool) (g : List Int) (h : img.buffer.render_fence_fd ∉ g) :
    respects_ownership c g ((buffer_vk_fill_submit kms_fd img env b).trace.map SlotEv.call)
      = true ∧
    ((buffer_vk_fill_submit kms_fd img env b).outcome = Outcome.aborted ∨
      ((buffer_vk_fill_submit kms_fd img env b).img.buffer.render_fence_fd ∉
        gone_after c g ((buffer_vk_fill_submit kms_fd img env b).trace.map SlotEv.call) ∧
       (buffer_vk_fill_submit kms_fd img env b).img.buffer.kms_fence_fd =
        img.buffer.kms_fence_fd ∧
       ∀ d ∈ gone_after c g ((buffer_vk_fill_submit kms_fd img env b).trace.map SlotEv.call),
        d ∈ g)) := by
  rcases buffer_vk_fill_submit_eq kms_fd img env b with ⟨-, e⟩ | ⟨-, e⟩
  · rw [e]
    simp [respects_ownership, gone_after, gone_step, SlotEv.fd_used, SlotEv.fd_opened,
      SlotEv.fd_passed, Call.fd_used, Call.fd_opened, Call.fd_transferred, h]
  · rw [e]
    have hx := buffer_vk_fill_export_ownership c kms_fd img env g h
    have hstep : ∀ ws cbs ss f r, gone_step c g
        (SlotEv.call (Call.vkQueueSubmit ws cbs ss f r)) = g := by
      intro ws cbs ss f r
      simp [gone_step, SlotEv.fd_opened, SlotEv.fd_passed, Call.fd_opened, Call.fd_transferred]
    simp only [List.map_cons, respects_ownership, gone_after, List.foldl_cons, hstep]
    simpa [SlotEv.fd_used, Call.fd_used, gone_after] using hx

/-- One invocation of buffer_vk_fill on a slot whose descriptors have not been
passed on, with fresh answers: it respects the law, and unless it aborts, the
descriptors of the slot afterwards have not been passed on either. -/
theorem buffer_vk_fill_ownership (c : Bool) (kms_fd : Int) (img : vk_image) (frame_num : Int)
    (env : FillEnv) (g : List Int) (h1 : img.buffer.render_fence_fd ∉ g)
    (h2 : img.buffer.kms_fence_fd ∉ g) (hf : fresh_answers img env) :
    respects_ownership c g ((buffer_vk_fill kms_fd img frame_num env).trace.map SlotEv.call)
      = true ∧
    ((buffer_vk_fill kms_fd img frame_num env).outcome = Outcome.aborted ∨
      ((buffer_vk_fill kms_fd img frame_num env).img.buffer.render_fence_fd ∉
        gone_after c g ((buffer_vk_fill kms_fd img frame_num env).trace.map SlotEv.call) ∧
       (buffer_vk_fill kms_fd img frame_num env).img.buffer.kms_fence_fd ∉
        gone_after c g ((buffer_vk_fill kms_fd img frame_num env).trace.map SlotEv.call))) := by
  have hb : (buffer_vk_fill_begin img frame_num env).2.buffer = img.buffer := by
    rw [buffer_vk_fill_begin_img]
  have hn := buffer_vk_fill_begin_neutral c img frame_num env g
  have hlog : ∀ m, gone_step c g (SlotEv.call (Call.log m)) = g := by
    intro m
    simp [gone_step, SlotEv.fd_opened, SlotEv.fd_passed, Call.fd_opened, Call.fd_transferred]
  rcases buffer_vk_fill_cases kms_fd img frame_num env with
    ⟨-, e⟩ | ⟨-, -, -, e⟩ | ⟨-, -, -, e⟩ | ⟨-, -, e⟩
  · rw [e]
    simp only [List.map_append, respects_ownership_append, gone_after_append, hn.1, hn.2]
    simp [respects_ownership, gone_after, hlog, SlotEv.fd_used, Call.fd_used, hb, h1, h2]
  · rw [e]
    simp only [List.map_append, respects_ownership_append, gone_after_append, hn.1, hn.2]
    have hi := buffer_vk_fill_import_ownership c kms_fd (buffer_vk_fill_begin img frame_num env).2
      env g (by rw [hb]; exact h2)
    simp [hi.1]
  · rw [e]
    simp only [List.map_append, respects_ownership_append, gone_after_append, hn.1, hn.2]
    have hi := buffer_vk_fill_import_ownership c kms_fd (buffer_vk_fill_begin img frame_num env).2
      env g (by rw [hb]; exact h2)
    have hr : (buffer_vk_fill_begin img frame_num env).2.buffer.render_fence_fd ∉
        gone_after c g ((buffer_vk_fill_import kms_fd (buffer_vk_fill_begin img frame_num env).2
          env).1.map SlotEv.call) := by
      intro hin
      rw [hb] at hin
      rcases hi.2 _ hin with h | h
      · exact h1 h
      · exact hf.1 h.symm
    have hs := buffer_vk_fill_submit_ownership c kms_fd (buffer_vk_fill_begin img frame_num env).2
      env true _ hr
    refine ⟨by simp [hi.1, hs.1], ?_⟩
    rcases hs.2 with h | ⟨ha, hk, hsub⟩
    · exact Or.inl h
    · refine Or.inr ⟨ha, ?_⟩
      intro hin
      rw [hk, hb] at hin
      rcases hi.2 _ (hsub _ hin) with h | h
      · exact h2 h
      · exact hf.2 h.symm
  · rw [e]
    simp only [List.map_append, respects_ownership_append, gone_after_append, hn.1, hn.2]
    have hs := buffer_vk_fill_submit_ownership c kms_fd (buffer_vk_fill_begin img frame_num env).2
      env false g (by rw [hb]; exact h1)
    refine ⟨by simp [hs.1], ?_⟩
    rcases hs.2 with h | ⟨ha, hk, hsub⟩
    · exact Or.inl h
    · refine Or.inr ⟨ha, ?_⟩
      intro hin
      rw [hk, hb] at hin
      exact h2 (hsub _ hin)

/-- C16: the code at a failing input.  A buffer_vk_fill that returns true leaves
descriptor 100 in render_fence_fd, the display commit is handed that
descriptor, and the next buffer_vk_fill on the slot closes it (lines
1817-1819), although the comment of lines 1822-1823 says that ownership passes
to the kernel with the descriptor: the history breaks the ownership-transfer
law. -/
theorem fill_closes_committed_descriptor :
    (buffer_vk_fill 3 slot_fresh 0 fill_env_success).outcome = Outcome.returned true ∧
    (buffer_vk_fill 3 slot_fresh 0 fill_env_success).img.buffer.render_fence_fd = 100 ∧
    commitBuffer (buffer_vk_fill 3 slot_fresh 0 fill_env_success).img =
      (SlotEv.commit 100, (buffer_vk_fill 3 slot_fresh 0 fill_env_success).img) ∧
    Call.close 100 ∈
      (buffer_vk_fill 3 (buffer_vk_fill 3 slot_fresh 0 fill_env_success).img 1
        fill_env_success).trace ∧
    slot_history 3 slot_fresh
      [SlotStep.fill 0 fill_env_success, SlotStep.commit, SlotStep.fill 1 fill_env_success] =
      (buffer_vk_fill 3 slot_fresh 0 fill_env_success).trace.map SlotEv.call ++
        SlotEv.commit 100 ::
        (buffer_vk_fill 3 (buffer_vk_fill 3 slot_fresh 0 fill_env_success).img 1
          fill_env_success).trace.map SlotEv.call ∧
    respects_ownership true []
      (slot_history 3 slot_fresh
        [SlotStep.fill 0 fill_env_success, SlotStep.commit, SlotStep.fill 1 fill_env_success])
      = false := by
  decide

/-- The law towards the semaphore import alone: across any sequence of
buffer_vk_fill invocations and display commits on a slot, buffer_vk_fill never
closes or otherwise uses a descriptor after that descriptor has been passed to
vkImportSemaphoreFdKHR, when the display commits are left out of account.  The
slot's two descriptors have not been passed on at the start, and
drmSyncobjHandleToFD never answers with a descriptor the slot holds. -/
theorem fill_respects_import_ownership (kms_fd : Int) (img : vk_image) (steps : List SlotStep)
    (gone : List Int) (h1 : img.buffer.render_fence_fd ∉ gone)
    (h2 : img.buffer.kms_fence_fd ∉ gone) (hf : steps_fresh kms_fd img steps) :
    respects_ownership false gone (slot_history kms_fd img steps) = true := by
  induction steps generalizing img gone with
  | nil => simp [slot_history, respects_ownership]
  | cons s t ih =>
    cases s with
    | fill frame_num env =>
      obtain ⟨hfresh, hrest⟩ := hf
      obtain ⟨hr, hinv⟩ := buffer_vk_fill_ownership false kms_fd img frame_num env gone h1 h2
        hfresh
      simp only [slot_history, respects_ownership_append, hr, Bool.true_and]
      cases ho : (buffer_vk_fill kms_fd img frame_num env).outcome with
      | aborted => simp [respects_ownership]
      | returned b =>
        rcases hinv with h | ⟨ha, hk⟩
        · rw [ho] at h
          exact absurd h (by simp)
        · exact ih _ _ ha hk hrest
    | commit =>
      have hstep : gone_step false gone (SlotEv.commit img.buffer.render_fence_fd) = gone := by
        simp [gone_step, SlotEv.fd_opened, SlotEv.fd_passed]
      simp only [slot_history, commitBuffer, respects_ownership, SlotEv.fd_used, List.all_nil,
        Bool.true_and, hstep]
      exact ih img gone h1 h2 hf

/-- An instance of the law towards the semaphore import: two invocations with
an in-fence around a display commit. -/
theorem fill_respects_import_ownership_witness :
    slot_in_use.buffer.render_fence_fd ∉ ([] : List Int) ∧
    slot_in_use.buffer.kms_fence_fd ∉ ([] : List Int) ∧
    steps_fresh 3 slot_in_use
      [SlotStep.fill 2 fill_env_success, SlotStep.commit, SlotStep.fill 3 fill_env_success] ∧
    respects_ownership false []
      (slot_history 3 slot_in_use
        [SlotStep.fill 2 fill_env_success, SlotStep.commit, SlotStep.fill 3 fill_env_success])
      = true :=
  ⟨by simp, by simp,
   ⟨by decide, by decide, trivial⟩,
   fill_respects_import_ownership 3 slot_in_use
     [SlotStep.fill 2 fill_env_success, SlotStep.commit, SlotStep.fill 3 fill_env_success] []
     (by simp) (by simp) ⟨by decide, by decide, trivial⟩⟩

/-! ## Destruction of a slot -/

/-- The guarded destructions after the fence issue no wait. -/
theorem buffer_vk_destroy_rest_no_wait (img : vk_image) :
    ∀ e ∈ buffer_vk_destroy_rest img, e.is_wait = false := by
  intro e he
  simp only [buffer_vk_destroy_rest, List.mem_append] at he
  rcases he with ((((((h | h) | h) | h) | h) | h) | h) | h <;>
    split_ifs at h <;> simp at h <;> subst h <;> rfl

/-- C19: buffer_vk_destroy on a slot that was never submitted (first is true)
issues no wait.  On a slot that has been submitted (first is false) and has its
render fence, every call that destroys or frees a resource of the slot comes
after the call vkWaitForFences on the render fence with timeout UINT64_MAX;
when the device has its vk_device that wait is the first call, it is the only
wait, and the fence is destroyed after it. -/
theorem destroy_waits_before_release (vk_dev : Nat) (img : vk_image) (wait_res : VkResult) :
    (img.first = true → ∀ e ∈ buffer_vk_destroy vk_dev img wait_res, e.is_wait = false) ∧
    (img.first = false → img.render_fence ≠ VK_NULL_HANDLE →
      (∀ pre x post, buffer_vk_destroy vk_dev img wait_res = pre ++ x :: post →
        x.is_release = true →
        DestroyCall.vkWaitForFences [img.render_fence] false UINT64_MAX wait_res ∈ pre) ∧
      (vk_dev ≠ 0 → ∃ rest, buffer_vk_destroy vk_dev img wait_res =
          DestroyCall.vkWaitForFences [img.render_fence] false UINT64_MAX wait_res :: rest ∧
        (∀ e ∈ rest, e.is_wait = false) ∧
        DestroyCall.vkDestroyFence img.render_fence ∈ rest)) := by
  have hrest := buffer_vk_destroy_rest_no_wait img
  refine ⟨?_, ?_⟩
  · intro hfirst e he
    unfold buffer_vk_destroy buffer_vk_destroy_fence at he
    split_ifs at he with c1 c2
    · simp at he; subst he; rfl
    · simp only [hfirst, not_true_eq_false, if_false, List.nil_append, List.mem_append,
        List.mem_singleton] at he
      rcases he with h | h
      · subst h; rfl
      · exact hrest e h
    · simp only [List.nil_append] at he
      exact hrest e he
  · intro hfirst hfence
    have hshape : vk_dev ≠ 0 → ∃ rest, buffer_vk_destroy vk_dev img wait_res =
          DestroyCall.vkWaitForFences [img.render_fence] false UINT64_MAX wait_res :: rest ∧
        (∀ e ∈ rest, e.is_wait = false) ∧
        DestroyCall.vkDestroyFence img.render_fence ∈ rest := by
      intro hdev
      refine ⟨(if wait_res ≠ VK_SUCCESS then [DestroyCall.log "vkWaitForFences"] else [])
        ++ [DestroyCall.vkDestroyFence img.render_fence] ++ buffer_vk_destroy_rest img, ?_, ?_, ?_⟩
      · simp [buffer_vk_destroy, buffer_vk_destroy_fence, hdev, hfence, hfirst]
      · intro e he
        simp only [List.mem_append, List.mem_singleton] at he
        rcases he with (h | h) | h
        · split_ifs at h <;> simp at h
          subst h; rfl
        · subst h; rfl
        · exact hrest e h
      · simp
    refine ⟨?_, hshape⟩
    intro pre x post heq hx
    by_cases hdev : vk_dev = 0
    · simp only [buffer_vk_destroy, hdev, if_true] at heq
      cases pre with
      | nil =>
        simp only [List.nil_append, List.cons.injEq] at heq
        rw [← heq.1] at hx
        simp [DestroyCall.is_release] at hx
      | cons a t =>
        simp at heq
    · obtain ⟨rest, hr, -, -⟩ := hshape hdev
      rw [hr] at heq
      cases pre with
      | nil =>
        simp only [List.nil_append, List.cons.injEq] at heq
        rw [← heq.1] at hx
        simp [DestroyCall.is_release] at hx
      | cons a t =>
        simp only [List.cons_append, List.cons.injEq] at heq
        rw [← heq.1]
        exact List.mem_cons_self _ _

/-- Witness of C19: destroying a slot that has been submitted. -/
theorem destroy_waits_before_release_witness :
    slot_in_use.first = false ∧ slot_in_use.render_fence ≠ VK_NULL_HANDLE ∧
    buffer_vk_destroy 9 slot_in_use 0 =
      [DestroyCall.vkWaitForFences [112] false UINT64_MAX 0, DestroyCall.vkDestroyFence 112,
       DestroyCall.vkDestroySemaphore 111, DestroyCall.vkDestroySemaphore 113,
       DestroyCall.vkDestroyFramebuffer 105, DestroyCall.vkDestroyImageView 104,
       DestroyCall.vkDestroyImage 101, DestroyCall.vkDestroyBuffer 106,
       DestroyCall.vkFreeMemory 107, DestroyCall.gbm_bo_destroy 102] ∧
    DestroyCall.vkWaitForFences [slot_in_use.render_fence] false UINT64_MAX 0 ∈
      [DestroyCall.vkWaitForFences [112] false UINT64_MAX 0] :=
  ⟨by decide, by decide, by decide,
   ((destroy_waits_before_release 9 slot_in_use 0).2 (by decide) (by decide)).1
     [DestroyCall.vkWaitForFences [112] false UINT64_MAX 0] (DestroyCall.vkDestroyFence 112)
     [DestroyCall.vkDestroySemaphore 111, DestroyCall.vkDestroySemaphore 113,
       DestroyCall.vkDestroyFramebuffer 105, DestroyCall.vkDestroyImageView 104,
       DestroyCall.vkDestroyImage 101, DestroyCall.vkDestroyBuffer 106,
       DestroyCall.vkFreeMemory 107, DestroyCall.gbm_bo_destroy 102]
     (by decide) (by decide)⟩

/-! ## Creation of a scanout image -/

/-- C20: vk_kms_image_new returns an image only if the plane-0 offset and
stride of the buffer object equal the offset and row pitch of the subresource
layout of the Vulkan image; the image returned holds that buffer object and
that Vulkan image.  If the Vulkan image and the buffer object were created and
the offset or the stride differs, it returns NULL, and its last two calls are
gbm_bo_destroy on the buffer object and vkDestroyImage on the Vulkan image, the
only calls that release either. -/
theorem image_new_requires_matching_layout (phdev gbm_device : Nat) (width height : Int)
    (vk_format gbm_format drm_format drm_modifier : Nat) (env : ImageEnv) :
    (∀ img, (vk_kms_image_new phdev gbm_device width height vk_format gbm_format drm_format
        drm_modifier env).2 = some img →
      env.gbm_bo_get_offset = env.layout_offset ∧
      env.gbm_bo_get_stride_for_plane = env.layout_rowPitch ∧
      img.bo = env.gbm_bo_create_with_modifiers ∧ img.image = env.vkCreateImage.2) ∧
    (env.vkCreateImage.1 = VK_SUCCESS → env.gbm_bo_create_with_modifiers ≠ 0 →
      (env.gbm_bo_get_offset ≠ env.layout_offset ∨
        env.gbm_bo_get_stride_for_plane ≠ env.layout_rowPitch) →
      (vk_kms_image_new phdev gbm_device width height vk_format gbm_format drm_format
        drm_modifier env).2 = none ∧
      ∃ pre, (vk_kms_image_new phdev gbm_device width height vk_format gbm_format drm_format
          drm_modifier env).1 =
          pre ++ [ImageCall.gbm_bo_destroy env.gbm_bo_create_with_modifiers,
            ImageCall.vkDestroyImage env.vkCreateImage.2] ∧
        ∀ e ∈ pre, e.releases env.gbm_bo_create_with_modifiers env.vkCreateImage.2 = false) := by
  refine ⟨?_, ?_⟩
  · intro img h
    by_cases c1 : env.vkCreateImage.1 = VK_SUCCESS
    · by_cases c2 : env.gbm_bo_create_with_modifiers = 0
      · simp [vk_kms_image_new, c1, c2] at h
      · by_cases c3 : env.gbm_bo_get_offset = env.layout_offset
        · by_cases c4 : env.gbm_bo_get_stride_for_plane = env.layout_rowPitch
          · refine ⟨c3, c4, ?_⟩
            simp only [vk_kms_image_new, c1, c2, c3, c4, ne_eq, not_true_eq_false, if_false]
              at h
            simp only [vk_kms_image_new_import] at h
            split_ifs at h
            all_goals simp only [reduceCtorEq, Option.some.injEq] at h
            rw [← h]
            exact ⟨rfl, rfl⟩
          · simp [vk_kms_image_new, c1, c2, c3, c4] at h
        · simp [vk_kms_image_new, c1, c2, c3] at h
    · simp [vk_kms_image_new, c1] at h
  · intro h1 h2 h3
    by_cases c3 : env.gbm_bo_get_offset = env.layout_offset
    · have c4 : env.gbm_bo_get_stride_for_plane ≠ env.layout_rowPitch := by
        rcases h3 with h | h
        · exact absurd c3 h
        · exact h
      refine ⟨by simp [vk_kms_image_new, h1, h2, c3, c4], ?_⟩
      refine ⟨[ImageCall.vkCreateImage (to_uint32 width) (to_uint32 height) vk_format drm_modifier
          env.vkCreateImage.1 env.vkCreateImage.2,
        ImageCall.vkGetImageSubresourceLayout env.vkCreateImage.2 env.layout_offset
          env.layout_size env.layout_rowPitch,
        ImageCall.gbm_bo_create_with_modifiers gbm_device (to_uint32 width)
          (to_uint32 height) gbm_format
          [drm_modifier] env.gbm_bo_create_with_modifiers,
        ImageCall.gbm_bo_get_offset env.gbm_bo_create_with_modifiers 0 env.gbm_bo_get_offset,
        ImageCall.gbm_bo_get_stride_for_plane env.gbm_bo_create_with_modifiers 0
          env.gbm_bo_get_stride_for_plane,
        ImageCall.log
          "GBM BO layout doesn't match image layout. This is probably a driver / kernel bug."],
        by simp [vk_kms_image_new, h1, h2, c3, c4], ?_⟩
      intro e he
      simp only [List.mem_cons, List.mem_singleton, List.not_mem_nil, or_false] at he
      rcases he with h | h | h | h | h | h <;> subst h <;> rfl
    · refine ⟨by simp [vk_kms_image_new, h1, h2, c3], ?_⟩
      refine ⟨[ImageCall.vkCreateImage (to_uint32 width) (to_uint32 height) vk_format drm_modifier
          env.vkCreateImage.1 env.vkCreateImage.2,
        ImageCall.vkGetImageSubresourceLayout env.vkCreateImage.2 env.layout_offset
          env.layout_size env.layout_rowPitch,
        ImageCall.gbm_bo_create_with_modifiers gbm_device (to_uint32 width)
          (to_uint32 height) gbm_format
          [drm_modifier] env.gbm_bo_create_with_modifiers,
        ImageCall.gbm_bo_get_offset env.gbm_bo_create_with_modifiers 0 env.gbm_bo_get_offset,
        ImageCall.log
          "GBM BO layout doesn't match image layout. This is probably a driver / kernel bug."],
        by simp [vk_kms_image_new, h1, h2, c3], ?_⟩
      intro e he
      simp only [List.mem_cons, List.mem_singleton, List.not_mem_nil, or_false] at he
      rcases he with h | h | h | h | h <;> subst h <;> rfl

/-- Witness of C20: a buffer object whose stride differs from the row pitch. -/
theorem image_new_requires_matching_layout_witness :
    image_env_stride_differs.vkCreateImage.1 = VK_SUCCESS ∧
    image_env_stride_differs.gbm_bo_create_with_modifiers ≠ 0 ∧
    image_env_stride_differs.gbm_bo_get_stride_for_plane ≠
      image_env_stride_differs.layout_rowPitch ∧
    (vk_kms_image_new 1 2 640 480 44 875713112 875713112 0 image_env_stride_differs).2 = none ∧
    (vk_kms_image_new 1 2 640 480 44 875713112 875713112 0 image_env_success).2 =
      some ⟨202, 640, 480, 875713112, 875713112, 0, 44, 201, 204⟩ ∧
    image_env_success.gbm_bo_get_offset = image_env_success.layout_offset ∧
    image_env_success.gbm_bo_get_stride_for_plane = image_env_success.layout_rowPitch :=
  ⟨by decide, by decide, by decide,
   ((image_new_requires_matching_layout 1 2 640 480 44 875713112 875713112 0
      image_env_stride_differs).2 (by decide) (by decide) (Or.inr (by decide))).1,
   by decide,
   ((image_new_requires_matching_layout 1 2 640 480 44 875713112 875713112 0
      image_env_success).1 ⟨202, 640, 480, 875713112, 875713112, 0, 44, 201, 204⟩
      (by decide)).1,
   ((image_new_requires_matching_layout 1 2 640 480 44 875713112 875713112 0
      image_env_success).1 ⟨202, 640, 480, 875713112, 875713112, 0, 44, 201, 204⟩
      (by decide)).2.1⟩

/-! ## The fence of the loop -/

/-- A pass in which every call succeeded leaves an unsignaled fence unsignaled. -/
theorem fence_step_frame_events (cube : vkkmscube) (fence i : Nat) (ok : Int) (s : List Nat) :
    fence ∉ (frame_events cube fence i ok).foldl fence_step s := by
  simp [frame_events, fence_step]

/-- The fence is unsignaled at every vkQueueSubmit of the loop, if it is when
the loop starts. -/
theorem loop_from_fence (cube : vkkmscube) (fence : Nat) (rs : List IterResp) :
    ∀ (i : Nat) (s : List Nat) (pre post : List LoopEv) (j : Nat) (ws cbs ss : List Nat)
      (f : Nat) (res : VkResult), fence ∉ s →
      (loop_from cube fence i rs).1 = pre ++ LoopEv.vkQueueSubmit j ws cbs ss f res :: post →
      fence ∉ pre.foldl fence_step s := by
  induction rs with
  | nil => intro i s pre post j ws cbs ss f res hs h; simp [loop_from] at h
  | cons r rs ih =>
    intro i s pre post j ws cbs ss f res hs h
    cases hok : iter_ok r with
    | false =>
      rw [loop_from_cons_not_ok cube fence i r rs hok] at h
      obtain ⟨h2, -, -⟩ := loop_iteration_submit cube fence i r pre post j ws cbs ss f res h
      subst h2
      simpa [fence_step] using hs
    | true =>
      have hit := loop_iteration_of_ok cube fence i r hok
      rw [loop_from_cons_ok cube fence i r rs hok] at h
      rcases List.append_eq_append_iff.mp h with ⟨a, ha, hb⟩ | ⟨c, hc, hd⟩
      · subst ha
        rw [List.foldl_append]
        exact ih _ _ a post j ws cbs ss f res
          (fence_step_frame_events cube fence i r.drmModeSetCrtc s) hb
      · rcases c with _ | ⟨x, c⟩
        · simp only [List.nil_append] at hd
          simp only [List.append_nil] at hc
          subst hc
          have := ih _ _ [] post j ws cbs ss f res
            (fence_step_frame_events cube fence i r.drmModeSetCrtc s) (by simpa using hd.symm)
          simpa using this
        · simp only [List.cons_append, List.cons.injEq] at hd
          obtain ⟨rfl, -⟩ := hd
          have hfe : (loop_iteration cube fence i r).1 =
              frame_events cube fence i r.drmModeSetCrtc := by rw [hit]
          rw [← hfe] at hc
          obtain ⟨h2, -, -⟩ := loop_iteration_submit cube fence i r pre c j ws cbs ss f res hc
          subst h2
          simpa [fence_step] using hs

/-- C27: in vkkmscube_loop the one fence of the loop is unsignaled at every
vkQueueSubmit.  Every submission uses the fence created at the start, which is
created with flags 0, hence unsignaled; at each submission the fence is neither
signaled nor has a signal pending; and every submission other than the first
comes after a pass whose vkQueueSubmit, vkWaitForFences and vkResetFences on that
fence all returned VK_SUCCESS, in this order. -/
theorem loop_fence_unsignaled_at_submit (cube : vkkmscube) (cf : VkResult × Nat)
    (rs : List IterResp) (pre post : List LoopEv)
    (j : Nat) (ws cbs ss : List Nat) (f : Nat) (res : VkResult)
    (h : (vkkmscube_loop cube cf rs).1 =
      pre ++ LoopEv.vkQueueSubmit j ws cbs ss f res :: post) :
    f = cf.2 ∧
    (∃ pre1, pre = LoopEv.vkCreateFence 0 VK_SUCCESS f :: pre1 ∧
      0 &&& VK_FENCE_CREATE_SIGNALED_BIT = 0) ∧
    f ∉ signaled_fences pre ∧
    ((∃ e ∈ pre, e.is_submit = true) →
      ∃ pre0 i0 ok0 g,
        pre = pre0 ++
          [LoopEv.vkQueueSubmit i0 [] [(cube.images i0).cmdbuf] [] f VK_SUCCESS,
           LoopEv.vkWaitForFences f VK_SUCCESS,
           LoopEv.vkResetFences f VK_SUCCESS,
           LoopEv.drmModeSetCrtc i0 cube.drm_fd cube.crtc_id (cube.images i0).fb_id
             cube.connector_id cube.selected_mode ok0,
           LoopEv.cube_gpu_buffer_update_transforms j g]) := by
  unfold vkkmscube_loop at h
  split_ifs at h with hcf
  · rcases pre with _ | ⟨p0, _ | ⟨p1, _ | ⟨p2, pre⟩⟩⟩ <;> simp at h
  · simp only at h
    have hcf1 : cf.1 = VK_SUCCESS := by simpa using hcf
    rcases List.append_eq_append_iff.mp h with ⟨a, ha, hb⟩ | ⟨c, hc, hd⟩
    · obtain ⟨-, hf, h2⟩ := loop_from_submit cube cf.2 rs 0 a post j ws cbs ss f res hb
      have hfence := loop_from_fence cube cf.2 rs 0
        ([LoopEv.vkCreateFence 0 cf.1 cf.2, LoopEv.gettimeofday, LoopEv.log "looping"].foldl
          fence_step [])
        a post j ws cbs ss f res
        (by simp [fence_step, hcf1, VK_FENCE_CREATE_SIGNALED_BIT]) hb
      subst ha
      subst hf
      refine ⟨rfl, ⟨_, by rw [hcf1]; rfl, by decide⟩, ?_, ?_⟩
      · unfold signaled_fences
        rw [List.foldl_append]
        exact hfence
      · intro hprev
        rcases h2 with ⟨h2, -⟩ | ⟨pre0, i0, ok0, g, h2⟩
        · subst h2
          simp [LoopEv.is_submit] at hprev
        · exact ⟨[LoopEv.vkCreateFence 0 cf.1 cf.2, LoopEv.gettimeofday, LoopEv.log "looping"]
            ++ pre0, i0, ok0, g, by rw [h2, List.append_assoc]⟩
    · rcases c with _ | ⟨x, c⟩
      · simp only [List.nil_append] at hd
        simp only [List.append_nil] at hc
        obtain ⟨-, -, h2⟩ := loop_from_submit cube cf.2 rs 0 [] post j ws cbs ss f res
          (by simpa using hd.symm)
        simp at h2
      · simp only [List.cons_append, List.cons.injEq] at hd
        obtain ⟨rfl, -⟩ := hd
        rcases pre with _ | ⟨p0, _ | ⟨p1, _ | ⟨p2, _ | ⟨p3, pre⟩⟩⟩⟩ <;> simp at hc

/-- Witness of C27: the submission of the second pass of a run of two passes. -/
theorem loop_fence_unsignaled_at_submit_witness :
    (vkkmscube_loop cube_example (0, 7) [iter_resp_ok, iter_resp_ok]).1 =
      [LoopEv.vkCreateFence 0 0 7, LoopEv.gettimeofday, LoopEv.log "looping",
       LoopEv.cube_gpu_buffer_update_transforms 0 500,
       LoopEv.vkQueueSubmit 0 [] [300] [] 7 0,
       LoopEv.vkWaitForFences 7 0,
       LoopEv.vkResetFences 7 0,
       LoopEv.drmModeSetCrtc 0 3 10 400 20 30 0,
       LoopEv.cube_gpu_buffer_update_transforms 1 501] ++
      LoopEv.vkQueueSubmit 1 [] [301] [] 7 0 ::
      [LoopEv.vkWaitForFences 7 0,
       LoopEv.vkResetFences 7 0,
       LoopEv.drmModeSetCrtc 1 3 10 401 20 30 0] ∧
    (7 : Nat) ∉ signaled_fences
      [LoopEv.vkCreateFence 0 0 7, LoopEv.gettimeofday, LoopEv.log "looping",
       LoopEv.cube_gpu_buffer_update_transforms 0 500,
       LoopEv.vkQueueSubmit 0 [] [300] [] 7 0,
       LoopEv.vkWaitForFences 7 0,
       LoopEv.vkResetFences 7 0,
       LoopEv.drmModeSetCrtc 0 3 10 400 20 30 0,
       LoopEv.cube_gpu_buffer_update_transforms 1 501] :=
  ⟨by decide,
   (loop_fence_unsignaled_at_submit cube_example (0, 7) [iter_resp_ok, iter_resp_ok]
      [LoopEv.vkCreateFence 0 0 7, LoopEv.gettimeofday, LoopEv.log "looping",
       LoopEv.cube_gpu_buffer_update_transforms 0 500,
       LoopEv.vkQueueSubmit 0 [] [300] [] 7 0,
       LoopEv.vkWaitForFences 7 0,
       LoopEv.vkResetFences 7 0,
       LoopEv.drmModeSetCrtc 0 3 10 400 20 30 0,
       LoopEv.cube_gpu_buffer_update_transforms 1 501]
      [LoopEv.vkWaitForFences 7 0,
       LoopEv.vkResetFences 7 0,
       LoopEv.drmModeSetCrtc 1 3 10 401 20 30 0]
      1 [] [301] [] 7 0 (by decide)).2.2.1⟩

/-! ## The release fence descriptor of a slot -/

/-- The import stage passes the slot's kms_fence_fd to drmSyncobjImportSyncFile,
and does so whenever drmSyncobjCreate succeeds. -/
theorem buffer_vk_fill_import_sync_file (kms_fd : Int) (img : vk_image) (env : FillEnv) :
    (∀ kfd handle fd ok, Call.drmSyncobjImportSyncFile kfd handle fd ok ∈
        (buffer_vk_fill_import kms_fd img env).1 → fd = img.buffer.kms_fence_fd) ∧
    (0 ≤ env.drmSyncobjCreate.1 →
      Call.drmSyncobjImportSyncFile kms_fd env.drmSyncobjCreate.2 img.buffer.kms_fence_fd
        env.drmSyncobjImportSyncFile ∈ (buffer_vk_fill_import kms_fd img env).1) := by
  unfold buffer_vk_fill_import
  refine ⟨?_, ?_⟩
  · intro kfd handle fd ok h
    split_ifs at h <;> simp at h <;> exact h.2.2.1
  · intro hc
    have hc' : ¬ env.drmSyncobjCreate.1 < 0 := by omega
    simp only [hc', if_false]
    split_ifs <;> simp

/-- C28: buffer_vk_fill never modifies kms_fence_fd of the slot: however the
invocation ends, the field has the value it had on entry, and that value is the
descriptor of every drmSyncobjImportSyncFile call of the invocation.  A second
invocation on the resulting slot that gets as far as the sync-file import (the
slot has a release fence, vkCreateSemaphore and drmSyncobjCreate succeed)
imports the same descriptor again. -/
theorem fill_keeps_kms_fence_fd (kms_fd : Int) (img : vk_image) (frame_num : Int)
    (env : FillEnv) :
    (buffer_vk_fill kms_fd img frame_num env).img.buffer.kms_fence_fd =
      img.buffer.kms_fence_fd ∧
    (∀ kfd handle fd ok, Call.drmSyncobjImportSyncFile kfd handle fd ok ∈
        (buffer_vk_fill kms_fd img frame_num env).trace → fd = img.buffer.kms_fence_fd) ∧
    (∀ (frame_num2 : Int) (env2 : FillEnv),
      img.buffer.kms_fence_fd ≠ -1 → env2.vkCreateSemaphore.1 = VK_SUCCESS →
      0 ≤ env2.drmSyncobjCreate.1 →
      Call.drmSyncobjImportSyncFile kms_fd env2.drmSyncobjCreate.2 img.buffer.kms_fence_fd
        env2.drmSyncobjImportSyncFile ∈
        (buffer_vk_fill kms_fd (buffer_vk_fill kms_fd img frame_num env).img frame_num2
          env2).trace) := by
  have hframe : ∀ (x : vk_image) (n : Int) (e : FillEnv),
      (buffer_vk_fill kms_fd x n e).img.buffer.kms_fence_fd = x.buffer.kms_fence_fd := by
    intro x n e
    rw [buffer_vk_fill_img]
  have hb : ∀ (x : vk_image) (n : Int) (e : FillEnv),
      (buffer_vk_fill_begin x n e).2.buffer = x.buffer := by
    intro x n e
    rw [buffer_vk_fill_begin_img]
  refine ⟨hframe img frame_num env, ?_, ?_⟩
  · intro kfd handle fd ok hmem
    have hbegin := buffer_vk_fill_begin_no_import img frame_num env
    have himp := (buffer_vk_fill_import_sync_file kms_fd (buffer_vk_fill_begin img frame_num env).2
      env).1 kfd handle fd ok
    rw [hb] at himp
    have hsub : ∀ b, Call.drmSyncobjImportSyncFile kfd handle fd ok ∉
        (buffer_vk_fill_submit kms_fd (buffer_vk_fill_begin img frame_num env).2 env b).trace := by
      intro b hin
      have := buffer_vk_fill_submit_no_import kms_fd _ env b _ hin
      simp [Call.is_in_fence_import] at this
    have hnb : Call.drmSyncobjImportSyncFile kfd handle fd ok ∉
        (buffer_vk_fill_begin img frame_num env).1 := by
      intro hin
      have := hbegin _ hin
      simp [Call.is_in_fence_import] at this
    rcases buffer_vk_fill_cases kms_fd img frame_num env with
      ⟨-, e⟩ | ⟨-, -, -, e⟩ | ⟨-, -, -, e⟩ | ⟨-, -, e⟩
    · rw [e] at hmem
      rcases List.mem_append.mp hmem with h1 | h1
      · exact absurd h1 hnb
      · simp at h1
    · rw [e] at hmem
      rcases List.mem_append.mp hmem with h1 | h1
      · exact absurd h1 hnb
      · exact himp h1
    · rw [e] at hmem
      rcases List.mem_append.mp hmem with h1 | h1
      · rcases List.mem_append.mp h1 with h2 | h2
        · exact absurd h2 hnb
        · exact himp h2
      · exact absurd h1 (hsub true)
    · rw [e] at hmem
      rcases List.mem_append.mp hmem with h1 | h1
      · exact absurd h1 hnb
      · exact absurd h1 (hsub false)
  · intro frame_num2 env2 hk hsem hcreate
    have hk2 : (buffer_vk_fill kms_fd img frame_num env).img.buffer.kms_fence_fd ≠ -1 := by
      rw [hframe]; exact hk
    have himp := (buffer_vk_fill_import_sync_file kms_fd
      (buffer_vk_fill_begin (buffer_vk_fill kms_fd img frame_num env).img frame_num2 env2).2
      env2).2 hcreate
    rw [hb, hframe] at himp
    rcases buffer_vk_fill_cases kms_fd (buffer_vk_fill kms_fd img frame_num env).img frame_num2
      env2 with ⟨c, -⟩ | ⟨-, -, -, e⟩ | ⟨-, -, -, e⟩ | ⟨-, c, -⟩
    · exact absurd hsem c
    · rw [e]
      exact List.mem_append_right _ himp
    · rw [e]
      exact List.mem_append_left _ (List.mem_append_right _ himp)
    · exact absurd c hk2

/-- Witness of C28: two successful invocations on a slot with a release fence;
both import descriptor 33. -/
theorem fill_keeps_kms_fence_fd_witness :
    slot_in_use.buffer.kms_fence_fd = 33 ∧
    (buffer_vk_fill 3 slot_in_use 0 fill_env_success).outcome = Outcome.returned true ∧
    (buffer_vk_fill 3 slot_in_use 0 fill_env_success).img.buffer.kms_fence_fd = 33 ∧
    Call.drmSyncobjImportSyncFile 3 60 33 0 ∈
      (buffer_vk_fill 3 slot_in_use 0 fill_env_success).trace ∧
    Call.drmSyncobjImportSyncFile 3 60 33 0 ∈
      (buffer_vk_fill 3 (buffer_vk_fill 3 slot_in_use 0 fill_env_success).img 1
        fill_env_success).trace :=
  ⟨by decide, by decide,
   (fill_keeps_kms_fence_fd 3 slot_in_use 0 fill_env_success).1,
   by decide,
   (fill_keeps_kms_fence_fd 3 slot_in_use 0 fill_env_success).2.2 1 fill_env_success
     (by decide) (by decide) (by decide)⟩

/-! ## find_mem_type -/

/-- Below 32, the test `req_bits & (1 << i)` of the source reads bit i. -/
theorem req_bit_test (req_bits i : Nat) (hi : i < 32) :
    req_bits &&& ((1 <<< i) % 2 ^ 32) ≠ 0 ↔ req_bits.testBit i = true := by
  have hlt : 2 ^ i < 2 ^ 32 := Nat.pow_lt_pow_right (by decide) hi
  rw [Nat.one_shiftLeft, Nat.mod_eq_of_lt hlt, Nat.and_two_pow]
  cases h : req_bits.testBit i <;> simp [h]

/-- The test `(propertyFlags & flags) == flags` of the source says that every
bit of `flags` is a bit of `propertyFlags`. -/
theorem flags_test (pf flags : Nat) :
    pf &&& flags = flags ↔ ∀ b, flags.testBit b = true → pf.testBit b = true := by
  constructor
  · intro h b hb
    have := congrArg (fun x => x.testBit b) h
    simp only [Nat.testBit_and, hb, Bool.and_true] at this
    exact this
  · intro h
    apply Nat.eq_of_testBit_eq
    intro b
    rw [Nat.testBit_and]
    cases hb : flags.testBit b
    · simp
    · simp [h b hb]

/-- The loop of find_mem_type, started at index `i` with `n` indices to go:
it returns the first index from `i` on that passes both tests, or -1. -/
theorem find_mem_type_loop_spec (props : VkPhysicalDeviceMemoryProperties)
    (flags req_bits : Nat) :
    ∀ (n i : Nat),
      (∀ k : Nat, find_mem_type_loop props flags req_bits n i = (k : Int) ↔
        (i ≤ k ∧ k < i + n ∧
          (req_bits &&& ((1 <<< k) % 2 ^ 32) ≠ 0 ∧ props.memoryTypes k &&& flags = flags) ∧
          ∀ j, i ≤ j → j < k →
            ¬ (req_bits &&& ((1 <<< j) % 2 ^ 32) ≠ 0 ∧ props.memoryTypes j &&& flags = flags))) ∧
      (find_mem_type_loop props flags req_bits n i = -1 ↔
        ∀ j, i ≤ j → j < i + n →
          ¬ (req_bits &&& ((1 <<< j) % 2 ^ 32) ≠ 0 ∧ props.memoryTypes j &&& flags = flags)) := by
  intro n
  induction n with
  | zero =>
    intro i
    refine ⟨fun k => ?_, ?_⟩
    · simp only [find_mem_type_loop]
      constructor
      · intro h; omega
      · rintro ⟨h1, h2, -⟩; omega
    · simp only [find_mem_type_loop, true_iff]
      intro j h1 h2; omega
  | succ n ih =>
    intro i
    obtain ⟨ih1, ih2⟩ := ih (i + 1)
    by_cases c : req_bits &&& ((1 <<< i) % 2 ^ 32) ≠ 0 ∧ props.memoryTypes i &&& flags = flags
    · have hval : find_mem_type_loop props flags req_bits (n + 1) i = (i : Int) := by
        simp only [find_mem_type_loop, c.1, c.2, if_true, ne_eq, not_false_eq_true]
      refine ⟨fun k => ?_, ?_⟩
      · rw [hval]
        constructor
        · intro h
          have hk : i = k := by exact_mod_cast h
          subst hk
          exact ⟨le_refl _, by omega, c, fun j h1 h2 => by omega⟩
        · rintro ⟨h1, -, -, h4⟩
          by_cases hik : i = k
          · rw [hik]
          · exact absurd c (h4 i (le_refl _) (by omega))
      · rw [hval]
        constructor
        · intro h; omega
        · intro h
          exact absurd c (h i (le_refl _) (by omega))
    · have hval : find_mem_type_loop props flags req_bits (n + 1) i =
          find_mem_type_loop props flags req_bits n (i + 1) := by
        by_cases c1 : req_bits &&& ((1 <<< i) % 2 ^ 32) ≠ 0
        · have c2 : ¬ (props.memoryTypes i &&& flags = flags) := fun h => c ⟨c1, h⟩
          simp only [find_mem_type_loop, c1, c2, if_true, if_false, ne_eq, not_false_eq_true]
        · simp only [find_mem_type_loop, c1, if_false]
      refine ⟨fun k => ?_, ?_⟩
      · rw [hval, ih1 k]
        constructor
        · rintro ⟨h1, h2, h3, h4⟩
          refine ⟨by omega, by omega, h3, fun j hj1 hj2 => ?_⟩
          by_cases hij : j = i
          · rw [hij]; exact c
          · exact h4 j (by omega) hj2
        · rintro ⟨h1, h2, h3, h4⟩
          have hne : i ≠ k := fun h => c (h ▸ h3)
          exact ⟨by omega, by omega, h3, fun j hj1 hj2 => h4 j (by omega) hj2⟩
      · rw [hval, ih2]
        constructor
        · intro h j hj1 hj2
          by_cases hij : j = i
          · rw [hij]; exact c
          · exact h j (by omega) (by omega)
        · intro h j hj1 hj2
          exact h j (by omega) (by omega)

/-- C22: for memory properties with memoryTypeCount at most 32, find_mem_type
returns the smallest index i below memoryTypeCount such that bit i of req_bits
is set and memoryTypes[i].propertyFlags has every bit of flags; it returns -1
if and only if there is no such index; it returns nothing else. -/
theorem find_mem_type_smallest (props : VkPhysicalDeviceMemoryProperties)
    (flags req_bits : Nat) (hcount : props.memoryTypeCount ≤ 32) :
    (∀ i : Nat, find_mem_type props flags req_bits = (i : Int) ↔
      (i < props.memoryTypeCount ∧
        (req_bits.testBit i = true ∧
          ∀ b, flags.testBit b = true → (props.memoryTypes i).testBit b = true) ∧
        ∀ j, j < i →
          ¬ (req_bits.testBit j = true ∧
            ∀ b, flags.testBit b = true → (props.memoryTypes j).testBit b = true))) ∧
    (find_mem_type props flags req_bits = -1 ↔
      ∀ i, i < props.memoryTypeCount →
        ¬ (req_bits.testBit i = true ∧
          ∀ b, flags.testBit b = true → (props.memoryTypes i).testBit b = true)) ∧
    (find_mem_type props flags req_bits = -1 ∨
      ∃ i : Nat, find_mem_type props flags req_bits = (i : Int)) := by
  obtain ⟨h1, h2⟩ := find_mem_type_loop_spec props flags req_bits props.memoryTypeCount 0
  have hfit : ∀ k, k < props.memoryTypeCount →
      ((req_bits &&& ((1 <<< k) % 2 ^ 32) ≠ 0 ∧ props.memoryTypes k &&& flags = flags) ↔
        (req_bits.testBit k = true ∧
          ∀ b, flags.testBit b = true → (props.memoryTypes k).testBit b = true)) := by
    intro k hk
    rw [req_bit_test req_bits k (by omega), flags_test]
  refine ⟨fun i => ?_, ?_, ?_⟩
  · unfold find_mem_type
    rw [h1 i]
    constructor
    · rintro ⟨-, hlt, hf, hmin⟩
      have hlt' : i < props.memoryTypeCount := by omega
      exact ⟨hlt', (hfit i hlt').mp hf, fun j hj hc =>
        hmin j (Nat.zero_le _) hj ((hfit j (by omega)).mpr hc)⟩
    · rintro ⟨hlt, hf, hmin⟩
      exact ⟨Nat.zero_le _, by omega, (hfit i hlt).mpr hf, fun j _ hj hc =>
        hmin j hj ((hfit j (by omega)).mp hc)⟩
  · unfold find_mem_type
    rw [h2]
    constructor
    · intro h i hi hc
      exact h i (Nat.zero_le _) (by omega) ((hfit i hi).mpr hc)
    · intro h j _ hj hc
      exact h j (by omega) ((hfit j (by omega)).mp hc)
  · unfold find_mem_type
    by_cases hnone : find_mem_type_loop props flags req_bits props.memoryTypeCount 0 = -1
    · exact Or.inl hnone
    · right
      rw [h2] at hnone
      push_neg at hnone
      obtain ⟨j, hj1, hj2, hj3⟩ := hnone
      have hex : ∃ k, k < props.memoryTypeCount ∧
          (req_bits &&& ((1 <<< k) % 2 ^ 32) ≠ 0 ∧ props.memoryTypes k &&& flags = flags) :=
        ⟨j, by omega, hj3⟩
      classical
      refine ⟨Nat.find hex, (h1 _).mpr ⟨Nat.zero_le _, by have := (Nat.find_spec hex).1; omega,
        (Nat.find_spec hex).2, fun j _ hj hc => ?_⟩⟩
      exact Nat.find_min hex hj ⟨by have := (Nat.find_spec hex).1; omega, hc⟩

/-- Witness of C22: with flags 6 and req_bits 7, type 0 lacks the flags and
type 1 is returned. -/
theorem find_mem_type_smallest_witness :
    memory_properties_three.memoryTypeCount ≤ 32 ∧
    find_mem_type memory_properties_three 6 7 = ((1 : Nat) : Int) ∧
    (1 < memory_properties_three.memoryTypeCount ∧
      (Nat.testBit 7 1 = true ∧
        ∀ b, Nat.testBit 6 b = true → (memory_properties_three.memoryTypes 1).testBit b = true) ∧
      ∀ j, j < 1 →
        ¬ (Nat.testBit 7 j = true ∧
          ∀ b, Nat.testBit 6 b = true →
            (memory_properties_three.memoryTypes j).testBit b = true)) :=
  ⟨by decide, by decide,
   ((find_mem_type_smallest memory_properties_three 6 7 (by decide)).1 1).mp (by decide)⟩

/-! ## score_physical_device -/

/-- The queue family loop returns -1 exactly when no family that is left has
the graphics bit; otherwise it returns an index from `i` on. -/
theorem get_graphics_queue_family_index_loop_spec (fams : List Nat) :
    ∀ i : Nat,
      (get_graphics_queue_family_index_loop fams i = -1 ↔
        ∀ q ∈ fams, q &&& VK_QUEUE_GRAPHICS_BIT = 0) ∧
      (get_graphics_queue_family_index_loop fams i = -1 ∨
        ∃ k : Nat, get_graphics_queue_family_index_loop fams i = (k : Int)) := by
  induction fams with
  | nil => intro i; simp [get_graphics_queue_family_index_loop]
  | cons q t ih =>
    intro i
    by_cases c : q &&& VK_QUEUE_GRAPHICS_BIT = 0
    · simp only [get_graphics_queue_family_index_loop, c, ne_eq, not_true_eq_false, if_false,
        List.mem_cons, forall_eq_or_imp, true_and]
      exact ih (i + 1)
    · simp only [get_graphics_queue_family_index_loop, c, ne_eq, not_false_eq_true, if_true,
        List.mem_cons, forall_eq_or_imp, false_and, iff_false]
      exact ⟨by omega, Or.inr ⟨i, rfl⟩⟩

/-- The extension check succeeds exactly when every required name is available. -/
theorem required_extensions_found_iff (available : List String) (required : List String) :
    required_extensions_found available required = true ↔ ∀ r ∈ required, r ∈ available := by
  induction required with
  | nil => simp [required_extensions_found]
  | cons r t ih =>
    by_cases c : r ∈ available
    · have hf : extension_found available r = true := by
        simp only [extension_found, List.any_eq_true, decide_eq_true_eq]
        exact ⟨r, c, rfl⟩
      simp [required_extensions_found, hf, ih, c]
    · have hf : extension_found available r = false := by
        rw [Bool.eq_false_iff]
        simp only [extension_found, ne_eq, List.any_eq_true, decide_eq_true_eq, not_exists,
          not_and]
        intro a ha hr
        exact c (hr ▸ ha)
      simp [required_extensions_found, hf, c]

/-- C23: score_physical_device returns a positive score if and only if the device
has a queue family with the graphics bit, both calls of the extension
enumeration succeed and every required extension name is among the available
ones; the positive score is 16 for a discrete GPU, 11 for an integrated GPU and
1 for any other device type, and the score is 0 otherwise. -/
theorem score_physical_device_spec (device : PhysicalDeviceInfo) (required : List String) :
    (0 < score_physical_device device required ↔
      ((∃ q ∈ device.queue_families, q &&& VK_QUEUE_GRAPHICS_BIT ≠ 0) ∧
        device.enumerate_count.1 = VK_SUCCESS ∧ device.enumerate_names.1 = VK_SUCCESS ∧
        ∀ r ∈ required, r ∈ available_extensions device)) ∧
    (0 < score_physical_device device required →
      score_physical_device device required =
        (if device.deviceType = VK_PHYSICAL_DEVICE_TYPE_DISCRETE_GPU then 16
         else if device.deviceType = VK_PHYSICAL_DEVICE_TYPE_INTEGRATED_GPU then 11 else 1)) ∧
    (¬ 0 < score_physical_device device required → score_physical_device device required = 0) := by
  have hq := (get_graphics_queue_family_index_loop_spec device.queue_families 0).1
  have hr := required_extensions_found_iff (available_extensions device) required
  have hpos : (0 : Int) < (if device.deviceType = VK_PHYSICAL_DEVICE_TYPE_DISCRETE_GPU then 1 + 15
      else if device.deviceType = VK_PHYSICAL_DEVICE_TYPE_INTEGRATED_GPU then 1 + 10 else 1) := by
    split_ifs <;> decide
  by_cases c1 : get_graphics_queue_family_index device = -1
  · have hno : ¬ ∃ q ∈ device.queue_families, q &&& VK_QUEUE_GRAPHICS_BIT ≠ 0 := by
      rintro ⟨q, hq1, hq2⟩
      exact hq2 (hq.mp c1 q hq1)
    simp [score_physical_device, c1, hno]
  · have hyes : ∃ q ∈ device.queue_families, q &&& VK_QUEUE_GRAPHICS_BIT ≠ 0 := by
      by_contra hcon
      push_neg at hcon
      exact c1 (hq.mpr hcon)
    by_cases c2 : device.enumerate_count.1 = 0
    · by_cases c3 : device.enumerate_names.1 = 0
      · by_cases c4 : required_extensions_found (available_extensions device) required = true
        · have hall := hr.mp c4
          simp only [score_physical_device, c1, c2, c3, c4, ne_eq, not_true_eq_false, if_false,
            if_true, hpos, true_iff, forall_const, not_true_eq_false, false_implies, and_true]
          refine ⟨⟨hyes, rfl, rfl, hall⟩, ?_⟩
          split_ifs <;> rfl
        · have hnall : ¬ ∀ r ∈ required, r ∈ available_extensions device := fun h => c4 (hr.mpr h)
          simp [score_physical_device, c1, c2, c3, c4, hnall]
      · have c3' : ¬ device.enumerate_names.1 = VK_SUCCESS := c3
        simp [score_physical_device, c1, c2, c3, c3']
    · have c2' : ¬ device.enumerate_count.1 = VK_SUCCESS := c2
      simp [score_physical_device, c1, c2, c2']

/-- Witness of C23: a discrete GPU with a graphics queue family and the
required extension scores 16. -/
theorem score_physical_device_spec_witness :
    0 < score_physical_device device_discrete ["VK_KHR_external_memory"] ∧
    score_physical_device device_discrete ["VK_KHR_external_memory"] = 16 ∧
    score_physical_device device_integrated ["VK_KHR_external_memory"] = 11 ∧
    score_physical_device device_compute_only ["VK_KHR_external_memory"] = 0 :=
  ⟨by decide,
   (score_physical_device_spec device_discrete ["VK_KHR_external_memory"]).2.1 (by decide),
   by decide, by decide⟩

/-! ## The device selection of vkdev_new -/

/-- The score of a device is never negative. -/
theorem score_physical_device_nonneg (device : PhysicalDeviceInfo) (required : List String) :
    0 ≤ score_physical_device device required := by
  unfold score_physical_device
  simp only
  split_ifs <;> decide

/-- The selection loop: either the accumulator survives and no device that is
left scores more, or the result is the first device of the highest score among
the devices that are left, and that score is above the accumulator. -/
theorem vkdev_new_best_device_spec (required : List String)
    (devs : List (Nat × PhysicalDeviceInfo)) :
    ∀ acc : Nat × Int,
      (vkdev_new_best_device required devs acc = acc ∧
        ∀ d ∈ devs, score_physical_device d.2 required ≤ acc.2) ∨
      (∃ pre info post,
        devs = pre ++ ((vkdev_new_best_device required devs acc).1, info) :: post ∧
        (vkdev_new_best_device required devs acc).2 = score_physical_device info required ∧
        acc.2 < score_physical_device info required ∧
        (∀ d ∈ pre, score_physical_device d.2 required < score_physical_device info required) ∧
        (∀ d ∈ post, score_physical_device d.2 required ≤ score_physical_device info required))
    := by
  induction devs with
  | nil => intro acc; left; simp [vkdev_new_best_device]
  | cons d t ih =>
    intro acc
    obtain ⟨this, info⟩ := d
    obtain ⟨best, score⟩ := acc
    by_cases c : score_physical_device info required > score
    · have hval : vkdev_new_best_device required ((this, info) :: t) (best, score) =
          vkdev_new_best_device required t (this, score_physical_device info required) := by
        simp only [vkdev_new_best_device, c, if_true]
      rw [hval]
      right
      rcases ih (this, score_physical_device info required) with ⟨h1, h2⟩ | ⟨pre, info2, post, h1, h2, h3, h4, h5⟩
      · rw [h1]
        exact ⟨[], info, t, rfl, rfl, c, by simp, h2⟩
      · refine ⟨(this, info) :: pre, info2, post, by rw [List.cons_append, ← h1], h2, ?_, ?_, h5⟩
        · simp only at h3; omega
        · intro x hx
          rcases List.mem_cons.mp hx with hx | hx
          · rw [hx]; exact h3
          · exact h4 x hx
    · have hval : vkdev_new_best_device required ((this, info) :: t) (best, score) =
          vkdev_new_best_device required t (best, score) := by
        simp only [vkdev_new_best_device, c, if_false]
      rw [hval]
      rcases ih (best, score) with ⟨h1, h2⟩ | ⟨pre, info2, post, h1, h2, h3, h4, h5⟩
      · left
        refine ⟨h1, ?_⟩
        intro x hx
        rcases List.mem_cons.mp hx with hx | hx
        · rw [hx]; simp only; omega
        · exact h2 x hx
      · right
        refine ⟨(this, info) :: pre, info2, post, by rw [List.cons_append, ← h1], h2, h3, ?_, h5⟩
        intro x hx
        rcases List.mem_cons.mp hx with hx | hx
        · rw [hx]; simp only at h3 ⊢; omega
        · exact h4 x hx

/-- C26: vkdev_new selects a physical device of maximal score.  If it selects a
device, that device is an enumerated one, its score is positive and at least
that of every enumerated device, and every device enumerated before it scores
strictly less; if every enumerated device scores 0, or none is enumerated, it
selects none and fails; if some device scores above 0, it selects one.  The
handles of the enumerated devices are not VK_NULL_HANDLE. -/
theorem vkdev_new_selects_best (devs : List (Nat × PhysicalDeviceInfo)) (required : List String)
    (hh : ∀ d ∈ devs, d.1 ≠ VK_NULL_HANDLE) :
    (∀ best, vkdev_new_select_device devs required = some best →
      ∃ pre info post, devs = pre ++ (best, info) :: post ∧
        0 < score_physical_device info required ∧
        (∀ d ∈ devs, score_physical_device d.2 required ≤ score_physical_device info required) ∧
        (∀ d ∈ pre, score_physical_device d.2 required < score_physical_device info required)) ∧
    (vkdev_new_select_device devs required = none ↔
      ∀ d ∈ devs, score_physical_device d.2 required = 0) := by
  have hspec := vkdev_new_best_device_spec required devs (VK_NULL_HANDLE, 0)
  refine ⟨?_, ?_⟩
  · intro best hbest
    unfold vkdev_new_select_device at hbest
    simp only at hbest
    split_ifs at hbest with c
    simp only [Option.some.injEq] at hbest
    rcases hspec with ⟨h1, -⟩ | ⟨pre, info, post, h1, h2, h3, h4, h5⟩
    · rw [h1] at c
      exact absurd rfl c
    · rw [hbest] at h1
      refine ⟨pre, info, post, h1, h3, ?_, h4⟩
      intro d hd
      rw [h1] at hd
      rcases List.mem_append.mp hd with hd | hd
      · exact le_of_lt (h4 d hd)
      · rcases List.mem_cons.mp hd with hd | hd
        · rw [hd]
        · exact h5 d hd
  · rcases hspec with ⟨h1, h2⟩ | ⟨pre, info, post, h1, h2, h3, h4, h5⟩
    · have hnone : vkdev_new_select_device devs required = none := by
        simp [vkdev_new_select_device, h1]
      rw [hnone]
      simp only [true_iff]
      intro d hd
      have := h2 d hd
      have := score_physical_device_nonneg d.2 required
      simp only at *
      omega
    · have hne : (vkdev_new_best_device required devs (VK_NULL_HANDLE, 0)).1 ≠ VK_NULL_HANDLE := by
        have hmem : ((vkdev_new_best_device required devs (VK_NULL_HANDLE, 0)).1, info) ∈
            pre ++ ((vkdev_new_best_device required devs (VK_NULL_HANDLE, 0)).1, info) :: post := by
          simp
        rw [← h1] at hmem
        exact hh _ hmem
      have hsome : vkdev_new_select_device devs required ≠ none := by
        simp [vkdev_new_select_device, hne]
      constructor
      · intro h; exact absurd h hsome
      · intro h
        have hmem : ((vkdev_new_best_device required devs (VK_NULL_HANDLE, 0)).1, info) ∈
            pre ++ ((vkdev_new_best_device required devs (VK_NULL_HANDLE, 0)).1, info) :: post := by
          simp
        rw [← h1] at hmem
        have hz := h _ hmem
        simp only at hz h3
        omega

/-- Witness of C26: of an integrated GPU, a compute-only device and two discrete
GPUs, the first discrete GPU is selected. -/
theorem vkdev_new_selects_best_witness :
    (∀ d ∈ [(11, device_integrated), (12, device_compute_only), (13, device_discrete),
        (14, device_discrete)], d.1 ≠ VK_NULL_HANDLE) ∧
    vkdev_new_select_device [(11, device_integrated), (12, device_compute_only),
      (13, device_discrete), (14, device_discrete)] ["VK_KHR_external_memory"] = some 13 ∧
    vkdev_new_select_device [(12, device_compute_only)] ["VK_KHR_external_memory"] = none ∧
    ∃ pre info post,
      [(11, device_integrated), (12, device_compute_only), (13, device_discrete),
        (14, device_discrete)] = pre ++ (13, info) :: post ∧
      0 < score_physical_device info ["VK_KHR_external_memory"] ∧
      (∀ d ∈ [(11, device_integrated), (12, device_compute_only), (13, device_discrete),
          (14, device_discrete)],
        score_physical_device d.2 ["VK_KHR_external_memory"] ≤
          score_physical_device info ["VK_KHR_external_memory"]) ∧
      (∀ d ∈ pre, score_physical_device d.2 ["VK_KHR_external_memory"] <
        score_physical_device info ["VK_KHR_external_memory"]) :=
  ⟨by decide, by decide, by decide,
   (vkdev_new_selects_best [(11, device_integrated), (12, device_compute_only),
      (13, device_discrete), (14, device_discrete)] ["VK_KHR_external_memory"] (by decide)).1
     13 (by decide)⟩

/-! ## The mode selection -/

/-- A product that fits an `int` is computed exactly. -/
theorem to_int32_of_lt (n : Nat) (h : n < 2147483648) : to_int32 (n : Int) = (n : Int) := by
  unfold to_int32
  omega

/-- The selection loop started with a mode, when no mode that is left is a
preferred one and no area overflows: it ends with a mode, either the one it
started with or one that was left, whose (area, refresh rate) pair is at least
that of the start mode and of every mode that was left. -/
theorem select_mode_loop_max (rest : List drmModeModeInfo) :
    ∀ old : drmModeModeInfo,
      (∀ m ∈ old :: rest, m.hdisplay * m.vdisplay < 2147483648) →
      (∀ m ∈ rest, m.type &&& DRM_MODE_TYPE_PREFERRED = 0) →
      ∃ r, select_mode_loop rest (some old) = some r ∧ r ∈ old :: rest ∧
        ∀ m ∈ old :: rest,
          m.hdisplay * m.vdisplay < r.hdisplay * r.vdisplay ∨
          (m.hdisplay * m.vdisplay = r.hdisplay * r.vdisplay ∧ m.vrefresh ≤ r.vrefresh) := by
  induction rest with
  | nil =>
    intro old _ _
    exact ⟨old, rfl, List.mem_singleton.mpr rfl, fun m hm => by
      rw [List.mem_singleton.mp hm]; exact Or.inr ⟨rfl, le_refl _⟩⟩
  | cons it t ih =>
    intro old hfit hpref
    have hp : it.type &&& DRM_MODE_TYPE_PREFERRED = 0 := hpref it (List.mem_cons_self _ _)
    have hpt : ∀ m ∈ t, m.type &&& DRM_MODE_TYPE_PREFERRED = 0 :=
      fun m hm => hpref m (List.mem_cons_of_mem _ hm)
    have hfo := hfit old (List.mem_cons_self _ _)
    have hfi := hfit it (List.mem_cons_of_mem _ (List.mem_cons_self _ _))
    have hft : ∀ m ∈ t, m.hdisplay * m.vdisplay < 2147483648 :=
      fun m hm => hfit m (List.mem_cons_of_mem _ (List.mem_cons_of_mem _ hm))
    have ea : to_int32 ((it.hdisplay : Int) * (it.vdisplay : Int)) =
        ((it.hdisplay * it.vdisplay : Nat) : Int) := by
      rw [← Nat.cast_mul]
      exact to_int32_of_lt _ hfi
    have eo : to_int32 ((old.hdisplay : Int) * (old.vdisplay : Int)) =
        ((old.hdisplay * old.vdisplay : Nat) : Int) := by
      rw [← Nat.cast_mul]
      exact to_int32_of_lt _ hfo
    by_cases c : to_int32 ((it.hdisplay : Int) * (it.vdisplay : Int)) >
          to_int32 ((old.hdisplay : Int) * (old.vdisplay : Int)) ∨
        (to_int32 ((it.hdisplay : Int) * (it.vdisplay : Int)) =
            to_int32 ((old.hdisplay : Int) * (old.vdisplay : Int)) ∧
          it.vrefresh > old.vrefresh) ∨
        (to_int32 ((it.hdisplay : Int) * (it.vdisplay : Int)) =
            to_int32 ((old.hdisplay : Int) * (old.vdisplay : Int)) ∧
          it.vrefresh = old.vrefresh ∧ old.flags &&& DRM_MODE_FLAG_INTERLACE = 0)
    · have hval : select_mode_loop (it :: t) (some old) = select_mode_loop t (some it) := by
        simp only [select_mode_loop, hp, ne_eq, not_true_eq_false, if_false, c, if_true]
      obtain ⟨r, hr1, hr2, hr3⟩ := ih it
        (fun m hm => by
          rcases List.mem_cons.mp hm with h | h
          · rw [h]; exact hfi
          · exact hft m h) hpt
      refine ⟨r, by rw [hval, hr1], List.mem_cons_of_mem _ hr2, ?_⟩
      have hit := hr3 it (List.mem_cons_self _ _)
      rw [ea, eo] at c
      intro m hm
      rcases List.mem_cons.mp hm with h | h
      · rw [h]
        generalize it.hdisplay * it.vdisplay = ai at *
        generalize old.hdisplay * old.vdisplay = ao at *
        generalize r.hdisplay * r.vdisplay = ar at *
        omega
      · exact hr3 m h
    · have hval : select_mode_loop (it :: t) (some old) = select_mode_loop t (some old) := by
        simp only [select_mode_loop, hp, ne_eq, not_true_eq_false, if_false, c]
      obtain ⟨r, hr1, hr2, hr3⟩ := ih old
        (fun m hm => by
          rcases List.mem_cons.mp hm with h | h
          · rw [h]; exact hfo
          · exact hft m h) hpt
      refine ⟨r, by rw [hval, hr1], ?_, ?_⟩
      · rcases List.mem_cons.mp hr2 with h | h
        · rw [h]; exact List.mem_cons_self _ _
        · exact List.mem_cons_of_mem _ (List.mem_cons_of_mem _ h)
      · have hold := hr3 old (List.mem_cons_self _ _)
        rw [ea, eo] at c
        intro m hm
        rcases List.mem_cons.mp hm with h | h
        · rw [h]; exact hold
        · rcases List.mem_cons.mp h with h | h
          · rw [h]
            generalize it.hdisplay * it.vdisplay = ai at *
            generalize old.hdisplay * old.vdisplay = ao at *
            generalize r.hdisplay * r.vdisplay = ar at *
            omega
          · exact hr3 m (List.mem_cons_of_mem _ h)

/-- C24: when the connector has at least one mode and no mode carries the
PREFERRED flag, the mode selection loop selects a mode of the connector whose
(hdisplay * vdisplay, vrefresh) pair is lexicographically maximal over all
modes of the connector.  Every product hdisplay * vdisplay fits an `int`. -/
theorem mode_selection_maximal (modes : List drmModeModeInfo) (hne : modes ≠ [])
    (hpref : ∀ m ∈ modes, m.type &&& DRM_MODE_TYPE_PREFERRED = 0)
    (hfit : ∀ m ∈ modes, m.hdisplay * m.vdisplay < 2147483648) :
    ∃ r, select_mode modes = some r ∧ r ∈ modes ∧
      ∀ m ∈ modes,
        m.hdisplay * m.vdisplay < r.hdisplay * r.vdisplay ∨
        (m.hdisplay * m.vdisplay = r.hdisplay * r.vdisplay ∧ m.vrefresh ≤ r.vrefresh) := by
  cases modes with
  | nil => exact absurd rfl hne
  | cons m0 t =>
    have hp : m0.type &&& DRM_MODE_TYPE_PREFERRED = 0 := hpref m0 (List.mem_cons_self _ _)
    have hval : select_mode (m0 :: t) = select_mode_loop t (some m0) := by
      simp only [select_mode, select_mode_loop, hp, ne_eq, not_true_eq_false, if_false]
    rw [hval]
    exact select_mode_loop_max t m0 hfit (fun m hm => hpref m (List.mem_cons_of_mem _ hm))

/-- Witness of C24: of 720p60, 1080p50 and 1080p60 the last is selected. -/
theorem mode_selection_maximal_witness :
    [mode_720p60, mode_1080p50, mode_1080p60] ≠ [] ∧
    (∀ m ∈ [mode_720p60, mode_1080p50, mode_1080p60], m.type &&& DRM_MODE_TYPE_PREFERRED = 0) ∧
    (∀ m ∈ [mode_720p60, mode_1080p50, mode_1080p60], m.hdisplay * m.vdisplay < 2147483648) ∧
    select_mode [mode_720p60, mode_1080p50, mode_1080p60] = some mode_1080p60 ∧
    ∃ r, select_mode [mode_720p60, mode_1080p50, mode_1080p60] = some r ∧
      r ∈ [mode_720p60, mode_1080p50, mode_1080p60] ∧
      ∀ m ∈ [mode_720p60, mode_1080p50, mode_1080p60],
        m.hdisplay * m.vdisplay < r.hdisplay * r.vdisplay ∨
        (m.hdisplay * m.vdisplay = r.hdisplay * r.vdisplay ∧ m.vrefresh ≤ r.vrefresh) :=
  ⟨by decide, by decide, by decide, by decide,
   mode_selection_maximal [mode_720p60, mode_1080p50, mode_1080p60] (by decide) (by decide)
     (by decide)⟩

/-- C25: the code at a failing input.  Of a progressive and an interlaced mode
of the same area and refresh rate, neither of them preferred, the loop selects
the interlaced one, in whichever order it meets them: the tie-break tests the
INTERLACE flag of the mode selected so far, `mode->flags`, and replaces that
mode when it is progressive. -/
theorem mode_selection_picks_interlaced :
    mode_1080p60.hdisplay * mode_1080p60.vdisplay =
      mode_1080i60.hdisplay * mode_1080i60.vdisplay ∧
    mode_1080p60.vrefresh = mode_1080i60.vrefresh ∧
    mode_1080p60.type &&& DRM_MODE_TYPE_PREFERRED = 0 ∧
    mode_1080i60.type &&& DRM_MODE_TYPE_PREFERRED = 0 ∧
    mode_1080p60.flags &&& DRM_MODE_FLAG_INTERLACE = 0 ∧
    mode_1080i60.flags &&& DRM_MODE_FLAG_INTERLACE ≠ 0 ∧
    select_mode [mode_1080p60, mode_1080i60] = some mode_1080i60 ∧
    select_mode [mode_1080i60, mode_1080p60] = some mode_1080i60 := by
  decide

/-! ## The layer lists of vkdev_new -/

/-- The lookup finds a name exactly when it is among the available ones. -/
theorem layer_available_iff (available : List String) (name : String) :
    layer_available available name = true ↔ name ∈ available := by
  simp only [layer_available, List.any_eq_true, decide_eq_true_eq]
  constructor
  · rintro ⟨a, ha, rfl⟩; exact ha
  · intro h; exact ⟨name, h, rfl⟩

/-- The loop over the required layers: it writes the names up to the first one
that is not available, in order and at consecutive indices, and it is left
early exactly when there is such a name. -/
theorem vkdev_new_required_layers_spec (available : List String) (required : List String) :
    ∀ (n : Nat) (w : List (Nat × String)),
      ((vkdev_new_required_layers available required (n, w)).2 = false ↔
        ∃ r ∈ required, r ∉ available) ∧
      (vkdev_new_required_layers available required (n, w)).1.1 =
        n + (required.takeWhile (fun x => decide (x ∈ available))).length ∧
      (vkdev_new_required_layers available required (n, w)).1.2.map Prod.snd =
        w.map Prod.snd ++ required.takeWhile (fun x => decide (x ∈ available)) ∧
      (vkdev_new_required_layers available required (n, w)).1.2.map Prod.fst =
        w.map Prod.fst ++
          List.range' n (required.takeWhile (fun x => decide (x ∈ available))).length ∧
      ((vkdev_new_required_layers available required (n, w)).2 = true →
        required.takeWhile (fun x => decide (x ∈ available)) = required) := by
  induction required with
  | nil => intro n w; simp [vkdev_new_required_layers]
  | cons r t ih =>
    intro n w
    by_cases c : r ∈ available
    · have hc := (layer_available_iff available r).mpr c
      obtain ⟨h0, h1, h2, h3, h4⟩ := ih (n + 1) (w ++ [(n, r)])
      simp only [vkdev_new_required_layers, hc, if_true, List.takeWhile_cons, c, decide_True,
        List.length_cons]
      refine ⟨?_, by rw [h1]; omega, by rw [h2]; simp, by rw [h3]; simp [List.range'_succ], ?_⟩
      · rw [h0]
        constructor
        · rintro ⟨x, hx, hn⟩; exact ⟨x, List.mem_cons_of_mem _ hx, hn⟩
        · rintro ⟨x, hx, hn⟩
          rcases List.mem_cons.mp hx with h | h
          · rw [h] at hn; exact absurd c hn
          · exact ⟨x, h, hn⟩
      · intro h
        rw [h4 h]
    · have hc : layer_available available r = false := by
        rw [Bool.eq_false_iff, ne_eq, layer_available_iff]; exact c
      simp only [vkdev_new_required_layers, hc, Bool.false_eq_true, if_false,
        List.takeWhile_cons, c, decide_False, List.length_nil, Nat.add_zero, List.append_nil,
        List.range'_zero, true_iff, false_implies, and_true, true_and]
      exact ⟨r, List.mem_cons_self _ _, c⟩

/-- The loop over the optional layers writes the available ones in order at
consecutive indices. -/
theorem vkdev_new_optional_layers_spec (available : List String) (optional : List String) :
    ∀ (n : Nat) (w : List (Nat × String)),
      (vkdev_new_optional_layers available optional (n, w)).1 =
        n + (optional.filter (fun x => decide (x ∈ available))).length ∧
      (vkdev_new_optional_layers available optional (n, w)).2.map Prod.snd =
        w.map Prod.snd ++ optional.filter (fun x => decide (x ∈ available)) ∧
      (vkdev_new_optional_layers available optional (n, w)).2.map Prod.fst =
        w.map Prod.fst ++
          List.range' n (optional.filter (fun x => decide (x ∈ available))).length := by
  induction optional with
  | nil => intro n w; simp [vkdev_new_optional_layers]
  | cons r t ih =>
    intro n w
    by_cases c : r ∈ available
    · have hc := (layer_available_iff available r).mpr c
      obtain ⟨h1, h2, h3⟩ := ih (n + 1) (w ++ [(n, r)])
      simp only [vkdev_new_optional_layers, hc, if_true, List.filter_cons, c, decide_True,
        List.length_cons]
      refine ⟨by rw [h1]; omega, ?_, ?_⟩
      · rw [h2]; simp
      · rw [h3]; simp [List.range'_succ]
    · have hc : layer_available available r = false := by
        rw [Bool.eq_false_iff, ne_eq, layer_available_iff]; exact c
      simp only [vkdev_new_optional_layers, hc, Bool.false_eq_true, if_false, List.filter_cons,
        c, decide_False]
      exact ih n w

/-- C29: in vkdev_new, when no layer name occurs more than once across
required_layers and optional_layers, on every run of lines 202-231, also one
that ends in the `return NULL` of line 212, the writes to `layers` are made at
the indices 0, 1, ..., n_layers - 1, and n_layers does not exceed
n_available_layers, the capacity of `layers`: every write is in bounds.  The
function returns NULL in these lines exactly when a required layer is not
available, having written the required layers before the first such one;
otherwise the names written are all required layers in order followed by the
available optional layers in order. -/
theorem vkdev_new_layers_in_bounds (available required optional : List String)
    (hnodup : (required ++ optional).Nodup) :
    ((vkdev_new_layers available required optional).2 = false ↔
      ∃ r ∈ required, r ∉ available) ∧
    (vkdev_new_layers available required optional).1.1 =
      (vkdev_new_layers available required optional).1.2.length ∧
    (vkdev_new_layers available required optional).1.2.map Prod.fst =
      List.range (vkdev_new_layers available required optional).1.1 ∧
    (vkdev_new_layers available required optional).1.1 ≤ available.length ∧
    (∀ x ∈ (vkdev_new_layers available required optional).1.2, x.1 < available.length) ∧
    ((vkdev_new_layers available required optional).2 = true →
      (vkdev_new_layers available required optional).1.2.map Prod.snd =
        required ++ optional.filter (fun x => decide (x ∈ available))) ∧
    ((vkdev_new_layers available required optional).2 = false →
      (vkdev_new_layers available required optional).1.2.map Prod.snd =
        required.takeWhile (fun x => decide (x ∈ available))) := by
  obtain ⟨r0, r1, r2, r3, r4⟩ := vkdev_new_required_layers_spec available required 0 []
  simp only [List.map_nil, List.nil_append, Nat.zero_add] at r1 r2 r3
  -- the names written, and the indices they are written at
  have key : ∀ (n : Nat) (w : List (Nat × String)) (names : List String),
      w.map Prod.snd = names → w.map Prod.fst = List.range' 0 names.length →
      n = names.length → List.Sublist names (required ++ optional) →
      (∀ x ∈ names, x ∈ available) →
      n = w.length ∧ w.map Prod.fst = List.range n ∧ n ≤ available.length ∧
        ∀ x ∈ w, x.1 < available.length := by
    intro n w names hs hf hn hsub hav
    have hlen : w.length = names.length := by
      have := congrArg List.length hs
      simpa using this
    have hle : names.length ≤ available.length :=
      (List.Nodup.subperm (List.Nodup.sublist hsub hnodup) hav).length_le
    have hidx : w.map Prod.fst = List.range n := by
      rw [hf, List.range_eq_range', hn]
    refine ⟨by rw [hn, hlen], hidx, by rw [hn]; exact hle, ?_⟩
    intro x hx
    have hx1 : x.1 ∈ w.map Prod.fst := List.mem_map_of_mem _ hx
    rw [hidx] at hx1
    have := List.mem_range.mp hx1
    omega
  have htw : ∀ x ∈ required.takeWhile (fun x => decide (x ∈ available)), x ∈ available := by
    intro x hx
    simpa using List.mem_takeWhile_imp hx
  cases hok : (vkdev_new_required_layers available required (0, [])).2 with
  | false =>
    have hval : vkdev_new_layers available required optional =
        ((vkdev_new_required_layers available required (0, [])).1, false) := by
      simp [vkdev_new_layers, hok]
    rw [hval]
    simp only [true_iff, Bool.false_eq_true, false_implies, true_implies, true_and]
    have hk := key _ _ _ r2 r3 r1
      ((List.takeWhile_sublist _).trans (List.sublist_append_left _ _)) htw
    exact ⟨r0.mp hok, hk.1, hk.2.1, hk.2.2.1, hk.2.2.2, r2⟩
  | true =>
    have hval : vkdev_new_layers available required optional =
        (vkdev_new_optional_layers available optional
          (vkdev_new_required_layers available required (0, [])).1, true) := by
      simp [vkdev_new_layers, hok]
    have hfull := r4 hok
    rw [hfull] at r1 r2 r3
    obtain ⟨o1, o2, o3⟩ := vkdev_new_optional_layers_spec available optional
      (vkdev_new_required_layers available required (0, [])).1.1
      (vkdev_new_required_layers available required (0, [])).1.2
    simp only [Prod.mk.eta] at o1 o2 o3
    rw [r2] at o2
    rw [r3, r1] at o3
    rw [r1] at o1
    have hnone : ¬ ∃ r ∈ required, r ∉ available := by
      intro h
      have := r0.mpr h
      rw [hok] at this
      exact absurd this (by simp)
    have hall : ∀ r ∈ required, r ∈ available := by
      intro r hr
      by_contra hcon
      exact hnone ⟨r, hr, hcon⟩
    have hidx : (vkdev_new_optional_layers available optional
        (vkdev_new_required_layers available required (0, [])).1).2.map Prod.fst =
        List.range' 0 (required ++ optional.filter (fun x => decide (x ∈ available))).length := by
      rw [o3, List.length_append]
      have := List.range'_append 0 required.length
        (optional.filter (fun x => decide (x ∈ available))).length 1
      rw [Nat.add_comm required.length]
      simpa using this
    have hk := key _ _ _ o2 hidx (o1.trans (List.length_append _ _).symm)
      (List.Sublist.append (List.Sublist.refl _) (List.filter_sublist _))
      (by
        intro x hx
        rcases List.mem_append.mp hx with hx | hx
        · exact hall x hx
        · simpa using (List.mem_filter.mp hx).2)
    rw [hval]
    simp only [Bool.true_eq_false, false_iff, true_implies, false_implies, and_true]
    exact ⟨hnone, hk.1, hk.2.1, hk.2.2.1, hk.2.2.2, o2⟩

/-- Witness of C29: a run that returns NULL at the second required layer after
one write, and a run that goes on with one required and one optional layer. -/
theorem vkdev_new_layers_in_bounds_witness :
    (["a", "zzz"] ++ ([] : List String)).Nodup ∧
    vkdev_new_layers ["a"] ["a", "zzz"] [] = ((1, [(0, "a")]), false) ∧
    (∀ x ∈ (vkdev_new_layers ["a"] ["a", "zzz"] []).1.2, x.1 < ["a"].length) ∧
    (["VK_LAYER_KHRONOS_validation"] ++ ["VK_LAYER_a", "VK_LAYER_b"]).Nodup ∧
    vkdev_new_layers ["VK_LAYER_b", "VK_LAYER_KHRONOS_validation", "VK_LAYER_c"]
      ["VK_LAYER_KHRONOS_validation"] ["VK_LAYER_a", "VK_LAYER_b"] =
      ((2, [(0, "VK_LAYER_KHRONOS_validation"), (1, "VK_LAYER_b")]), true) ∧
    (vkdev_new_layers ["VK_LAYER_b", "VK_LAYER_KHRONOS_validation", "VK_LAYER_c"]
      ["VK_LAYER_KHRONOS_validation"] ["VK_LAYER_a", "VK_LAYER_b"]).1.1 ≤
      ["VK_LAYER_b", "VK_LAYER_KHRONOS_validation", "VK_LAYER_c"].length :=
  ⟨by decide, by decide,
   (vkdev_new_layers_in_bounds ["a"] ["a", "zzz"] [] (by decide)).2.2.2.2.1,
   by decide, by decide,
   (vkdev_new_layers_in_bounds ["VK_LAYER_b", "VK_LAYER_KHRONOS_validation", "VK_LAYER_c"]
      ["VK_LAYER_KHRONOS_validation"] ["VK_LAYER_a", "VK_LAYER_b"] (by decide)).2.2.2.1⟩

/-! ## output_vulkan_setup -/

/-- When the loop runs to its end, it has appended the supported modifiers among
those that were left, in order. -/
theorem output_vulkan_setup_loop_spec (query : Nat → VkResult × Nat) (mods : List Nat) :
    ∀ smods r, output_vulkan_setup_loop query mods smods = some r →
      r = smods ++ mods.filter (modifier_supported query) := by
  induction mods with
  | nil =>
    intro smods r h
    simp only [output_vulkan_setup_loop, Option.some.injEq] at h
    simp [h]
  | cons m t ih =>
    intro smods r h
    by_cases c1 : m ≠ DRM_FORMAT_MOD_LINEAR ∧ m ≠ DRM_FORMAT_MOD_BROADCOM_UIF
    · have hs : modifier_supported query m = false := by
        simp [modifier_supported, c1.1, c1.2]
      rw [output_vulkan_setup_loop, if_pos c1] at h
      rw [List.filter_cons, hs]
      exact ih smods r h
    · have c1' : m = DRM_FORMAT_MOD_LINEAR ∨ m = DRM_FORMAT_MOD_BROADCOM_UIF := by
        by_contra hcon
        push_neg at hcon
        exact c1 hcon
      by_cases c2 : (query m).1 = VK_ERROR_FORMAT_NOT_SUPPORTED
      · have hs : modifier_supported query m = false := by
          simp [modifier_supported, c2, VK_ERROR_FORMAT_NOT_SUPPORTED, VK_SUCCESS]
        simp only [output_vulkan_setup_loop, c1, if_false, c2, if_true] at h
        rw [List.filter_cons, hs]
        exact ih smods r h
      · by_cases c3 : (query m).1 = VK_SUCCESS
        · by_cases c4 : (query m).2 &&& VK_EXTERNAL_MEMORY_FEATURE_IMPORTABLE_BIT = 0
          · have hs : modifier_supported query m = false := by
              simp [modifier_supported, c4]
            simp only [output_vulkan_setup_loop, c1, if_false, c2, c3, ne_eq, not_true_eq_false,
              c4, if_true] at h
            rw [List.filter_cons, hs]
            exact ih smods r h
          · have hs : modifier_supported query m = true := by
              rcases c1' with h1 | h1 <;> (subst h1; simp [modifier_supported, c3, c4])
            simp only [output_vulkan_setup_loop, c1, if_false, c2, c3, ne_eq, not_true_eq_false,
              c4] at h
            rw [List.filter_cons, hs, ih _ r h]
            simp
        · simp only [output_vulkan_setup_loop, c1, if_false, c2, c3, ne_eq, not_false_eq_true,
            if_true, reduceCtorEq] at h

/-- C30: when output_vulkan_setup returns true, the new modifier list of the
output is the order-preserving sublist of its previous list made of the
modifiers that are LINEAR or BROADCOM_UIF and for which the format query
succeeded with the importable feature bit set; that list is not empty and
num_modifiers is its length.  When it returns false, modifiers and
num_modifiers are unchanged.  On entry num_modifiers is the length of the
modifier list. -/
theorem output_vulkan_setup_filters (out : output) (query : Nat → VkResult × Nat)
    (hwf : out.num_modifiers = out.modifiers.length) :
    ((output_vulkan_setup out query).1 = true →
      (output_vulkan_setup out query).2.modifiers =
        out.modifiers.filter (modifier_supported query) ∧
      (output_vulkan_setup out query).2.modifiers ≠ [] ∧
      (output_vulkan_setup out query).2.num_modifiers =
        (output_vulkan_setup out query).2.modifiers.length) ∧
    ((output_vulkan_setup out query).1 = false →
      (output_vulkan_setup out query).2.modifiers = out.modifiers ∧
      (output_vulkan_setup out query).2.num_modifiers = out.num_modifiers) := by
  have htake : out.modifiers.take out.num_modifiers = out.modifiers := by
    rw [hwf, List.take_length]
  unfold output_vulkan_setup
  simp only [htake]
  by_cases c0 : out.num_modifiers = 0
  · simp [c0]
  · cases hl : output_vulkan_setup_loop query out.modifiers [] with
    | none => simp [c0]
    | some smods =>
      have hs := output_vulkan_setup_loop_spec query out.modifiers [] smods hl
      simp only [List.nil_append] at hs
      by_cases c1 : smods.length = 0
      · simp [c0, c1]
      · simp only [c0, if_false, c1, true_implies, Bool.true_eq_false, false_implies, and_true]
        refine ⟨hs, ?_⟩
        intro hnil
        rw [hnil] at c1
        exact c1 rfl

/-- Witness of C30: of BROADCOM_UIF, LINEAR and a third modifier, a device that
imports LINEAR only leaves LINEAR. -/
theorem output_vulkan_setup_filters_witness :
    output_three_modifiers.num_modifiers = output_three_modifiers.modifiers.length ∧
    output_vulkan_setup output_three_modifiers query_linear_only =
      (true, ⟨true, 1, [DRM_FORMAT_MOD_LINEAR]⟩) ∧
    ((output_vulkan_setup output_three_modifiers query_linear_only).2.modifiers =
        output_three_modifiers.modifiers.filter (modifier_supported query_linear_only) ∧
      (output_vulkan_setup output_three_modifiers query_linear_only).2.modifiers ≠ [] ∧
      (output_vulkan_setup output_three_modifiers query_linear_only).2.num_modifiers =
        (output_vulkan_setup output_three_modifiers query_linear_only).2.modifiers.length) :=
  ⟨by decide, by decide,
   (output_vulkan_setup_filters output_three_modifiers query_linear_only (by decide)).1
     (by decide)⟩

/-! ## The error path of the slot loop of vkkmscube_new -/

/-- C21: the code at three failing inputs.  (1) Slot 0 is created and
cube_pipeline_record fails for slot 1: the buffer of slot 1 is destroyed twice,
once at `fail_destroy_gpubuf` and once in the loop at `fail_destroy_previous`,
which passes the local `gpubuf` instead of `cube->images[j].gpubuf`, and the
buffer of slot 0 is never destroyed.  (2) pipeline_fb_new fails for slot 0: the
jump goes to `fail_destroy_kms_img`, so the framebuffer id that
drmModeAddFB2WithModifiers has just registered is never removed.
(3) drmModeAddFB2WithModifiers fails for slot 0: the jump goes to
`fail_destroy_pipeline_fb`, so pipeline_fb_destroy and drmModeRmFB are called
on variables that were never assigned. -/
theorem slot_error_path_releases_wrongly :
    vkkmscube_new_images slot_envs_record_fails =
      ([CubeCall.vk_kms_image_new 1, CubeCall.drmModeAddFB2WithModifiers 1 0 2,
        CubeCall.pipeline_fb_new 1 3, CubeCall.cube_gpu_buffer_new 4,
        CubeCall.cube_pipeline_record 3 4 5,
        CubeCall.vk_kms_image_new 11, CubeCall.drmModeAddFB2WithModifiers 11 0 12,
        CubeCall.pipeline_fb_new 11 13, CubeCall.cube_gpu_buffer_new 14,
        CubeCall.cube_pipeline_record 13 14 0,
        CubeCall.log "Couldn't record rendering commands.",
        CubeCall.cube_gpu_buffer_destroy (some 14), CubeCall.pipeline_fb_destroy (some 13),
        CubeCall.drmModeRmFB (some 12), CubeCall.vk_kms_image_destroy (some 11),
        CubeCall.cube_gpu_buffer_destroy (some 14), CubeCall.vkFreeCommandBuffers (some 5),
        CubeCall.pipeline_fb_destroy (some 3), CubeCall.drmModeRmFB (some 2),
        CubeCall.vk_kms_image_destroy (some 1)], none) ∧
    (vkkmscube_new_images slot_envs_record_fails).1.count
      (CubeCall.cube_gpu_buffer_destroy (some 14)) = 2 ∧
    (vkkmscube_new_images slot_envs_record_fails).1.count
      (CubeCall.cube_gpu_buffer_destroy (some 4)) = 0 ∧
    vkkmscube_new_images slot_envs_fb_fails =
      ([CubeCall.vk_kms_image_new 1, CubeCall.drmModeAddFB2WithModifiers 1 0 2,
        CubeCall.pipeline_fb_new 1 0,
        CubeCall.log "Couldn't import KMS FB into pipeline.",
        CubeCall.vk_kms_image_destroy (some 1)], none) ∧
    (vkkmscube_new_images slot_envs_fb_fails).1.count (CubeCall.drmModeRmFB (some 2)) = 0 ∧
    vkkmscube_new_images slot_envs_add_fb_fails =
      ([CubeCall.vk_kms_image_new 1, CubeCall.drmModeAddFB2WithModifiers 1 (-1) 0,
        CubeCall.log "Couldn't add GBM BO as kms image.",
        CubeCall.pipeline_fb_destroy none, CubeCall.drmModeRmFB none,
        CubeCall.vk_kms_image_destroy (some 1)], none) := by
  decide

/-- With every creation succeeding the loop fills the four slots and releases
nothing. -/
theorem slot_loop_success :
    (vkkmscube_new_images slot_env_success).2 =
      some [⟨1, 3, 5, 2, 4⟩, ⟨11, 13, 15, 12, 14⟩, ⟨21, 23, 25, 22, 24⟩, ⟨31, 33, 35, 32, 34⟩] := by
  decide

end KmsVulkan
